import Mathlib

/-!
# AVCTP / AVRCP control channel of `audio/control.c`

A shallow embedding of the request dispatcher `control_cb`, of the panel
passthrough handler `handle_panel_passthrough`, of the metadata transfer handler
`handle_metadata_pdu` and of the D-Bus method `control_set_property`.

Conventions of the embedding.

* Memory is a list of bytes (`List Nat`, every cell `< 256`); a `uint8_t` store
  truncates with `% 256`.  A C pointer into the receive buffer `buf` of
  `control_cb` is the index of the byte it points to.
* Bit-fields are read and written with explicit shifts.  The place of a bit-field
  inside its byte follows the GCC rule for the two struct declarations of the
  source: a little-endian target fills the byte from bit 0 upwards, a big-endian
  target from bit 7 downwards.
* What the code does to the outside world (events written to the uinput device,
  D-Bus signals, teardown calls) is collected in a list of `effect`s.
* Loops whose counter is re-read from memory or wraps at 8 bits take a step budget
  (`fuel`); `none` means that the budget ran out before the loop ended.
-/

namespace Avrcp

/-! ## Constants of control.c -/

def AVCTP_COMMAND : Nat := 0
def AVCTP_RESPONSE : Nat := 1

def AVCTP_PACKET_SINGLE : Nat := 0
def AVCTP_PACKET_START : Nat := 1
def AVCTP_PACKET_CONTINUE : Nat := 2
def AVCTP_PACKET_END : Nat := 3

def CTYPE_CONTROL : Nat := 0x0
def CTYPE_STATUS : Nat := 0x1
def CTYPE_NOT_IMPLEMENTED : Nat := 0x8
def CTYPE_ACCEPTED : Nat := 0x9
def CTYPE_REJECTED : Nat := 0xA
def CTYPE_STABLE : Nat := 0xC

def OP_VENDORDEPENDENT : Nat := 0x00
def OP_UNITINFO : Nat := 0x30
def OP_SUBUNITINFO : Nat := 0x31
def OP_PASSTHROUGH : Nat := 0x7c

def SUBUNIT_PANEL : Nat := 0x09

def VOL_UP_OP : Nat := 0x41
def VOL_DOWN_OP : Nat := 0x42
def MUTE_OP : Nat := 0x43
def PLAY_OP : Nat := 0x44
def STOP_OP : Nat := 0x45
def PAUSE_OP : Nat := 0x46
def RECORD_OP : Nat := 0x47
def REWIND_OP : Nat := 0x48
def FAST_FORWARD_OP : Nat := 0x49
def EJECT_OP : Nat := 0x4a
def FORWARD_OP : Nat := 0x4b
def BACKWARD_OP : Nat := 0x4c

def QUIRK_NO_RELEASE : Nat := 1 <<< 0

def IEEEID_BTSIG : Nat := 0x001958

def E_INVALID_COMMAND : Nat := 0x00
def E_INVALID_PARAM : Nat := 0x01
def E_PARAM_NOT_FOUND : Nat := 0x02
def E_INTERNAL : Nat := 0x03

def GET_CAPABILITIES : Int := 0x10
def LIST_PLAYER_SETTING_ATTRIBUTES : Int := 0x11
def LIST_PLAYER_SETTING_VALUES : Int := 0x12
def GET_CURRENT_PLAYER_SETTING_VALUE : Int := 0x13
def SET_PLAYER_SETTING_VALUE : Int := 0x14
def GET_PLAYER_SETTING_ATTRIBUTE_TEXT : Int := 0x15
def GET_PLAYER_SETTING_VALUE_TEXT : Int := 0x16
def INFORM_DISPLAYABLE_CHARSET : Int := 0x17
def INFORM_BATT_STATUS_OF_CT : Int := 0x18
def GET_ELEMENT_ATTRIBUTES : Int := 0x20
def GET_PLAY_STATUS : Int := 0x30

def CAP_COMPANY_ID : Nat := 0x2
def CAP_EVENTS_SUPPORTED : Nat := 0x3

def ATTRIBUTE_ILLEGAL : Nat := 0x0
def ATTRIBUTE_EQUALIZER : Nat := 0x1
def ATTRIBUTE_REPEAT : Nat := 0x2
def ATTRIBUTE_SHUFFLE : Nat := 0x3
def ATTRIBUTE_SCAN : Nat := 0x4

def ATTRIBUTE_REPEAT_OFF : Nat := 0x1
def ATTRIBUTE_REPEAT_SINGLE : Nat := 0x2
def ATTRIBUTE_REPEAT_ALL : Nat := 0x3
def ATTRIBUTE_REPEAT_GROUP : Nat := 0x4
def ATTRIBUTE_SHUFFLE_OFF : Nat := 0x1
def ATTRIBUTE_SHUFFLE_ALL : Nat := 0x2
def ATTRIBUTE_SHUFFLE_GROUP : Nat := 0x3
def ATTRIBUTE_SCAN_OFF : Nat := 0x1
def ATTRIBUTE_SCAN_ALL : Nat := 0x2
def ATTRIBUTE_SCAN_GROUP : Nat := 0x3

def ELEMENT_PLAYING : Nat := 0x0000

def METADATA_TITLE : Nat := 0x1
def METADATA_ARTIST : Nat := 0x2
def METADATA_ALBUM : Nat := 0x3
def METADATA_NUMBER : Nat := 0x4
def METADATA_TOTAL : Nat := 0x5
def METADATA_GENRE : Nat := 0x6
def METADATA_PLAY_TIME : Nat := 0x7

def PLAY_STOPPED : Nat := 0x00

def CHARSET_UTF8 : Nat := 0x6A

def EVENT_PLAYBACK_STATUS_CHANGED : Nat := 0x01
def EVENT_TRACK_CHANGED : Nat := 0x02
def EVENT_TRACK_REACHED_END : Nat := 0x03

def MPRIS_CAN_REPEAT : Nat := 1 <<< 7
def MPRIS_CAN_LOOP : Nat := 1 <<< 8
def MPRIS_CAN_SHUFFLE : Nat := 1 <<< 9
def MPRIS_CAN_SCAN : Nat := 1 <<< 10

/-- The service class id `AV_REMOTE_SVCLASS_ID` of bluetooth/sdp.h. -/
def AV_REMOTE_SVCLASS_ID : Nat := 0x110E

def AVCTP_HEADER_LENGTH : Nat := 3
def AVRCP_HEADER_LENGTH : Nat := 3
def METADATA_HEADER_LENGTH : Nat := 4

/-- The value of `sizeof(struct metadata_header)`: the struct is packed, one byte of
`pdu_id`, one byte of bit-fields and a `uint16_t`. -/
def SIZEOF_METADATA_HEADER : Nat := 4

/-- The value of `sizeof(buf)` in `control_cb`. -/
def BUF_SIZE : Nat := 1024

/-! ## Bytes, bit-fields and byte order -/

/-- The byte at index `i` of a byte array. -/
def rd (m : List Nat) (i : Nat) : Nat := m.getD i 0

/-- A `uint8_t` store at index `i`: the stored value is truncated to 8 bits. -/
def wr (m : List Nat) (i v : Nat) : List Nat := m.set i (v % 256)

/-- The C call `memcpy(dst + d, src + s, n)` on byte arrays. -/
def memcpy (dst : List Nat) (d : Nat) (src : List Nat) (s n : Nat) : List Nat :=
  (List.range n).foldl (fun m k => wr m (d + k) (rd src (s + k))) dst

/-- The two branches of `#if __BYTE_ORDER`. -/
inductive byte_order where
  | little
  | big
deriving DecidableEq, Repr

/-- A bit-field of a byte: `width` bits whose least significant one is bit `shift`. -/
structure bitfield where
  shift : Nat
  width : Nat
deriving DecidableEq, Repr

/-- The place of a bit-field of `w` bits declared after `before` bits of other
bit-fields of the same byte. -/
def place (o : byte_order) (before w : Nat) : bitfield :=
  match o with
  | .little => { shift := before, width := w }
  | .big => { shift := 8 - before - w, width := w }

/-- The value of a bit-field of the byte `b`. -/
def bitfield.get (f : bitfield) (b : Nat) : Nat := (b / 2 ^ f.shift) % 2 ^ f.width

/-- The byte `b` after the bit-field is assigned `v` (truncated to the width). -/
def bitfield.set (f : bitfield) (b v : Nat) : Nat :=
  b - f.get b * 2 ^ f.shift + (v % 2 ^ f.width) * 2 ^ f.shift

/-- A `uint16_t` load in host byte order at index `i`. -/
def load16 (o : byte_order) (m : List Nat) (i : Nat) : Nat :=
  match o with
  | .little => rd m i + 256 * rd m (i + 1)
  | .big => 256 * rd m i + rd m (i + 1)

/-- A `uint16_t` store in host byte order at index `i`. -/
def store16 (o : byte_order) (m : List Nat) (i v : Nat) : List Nat :=
  match o with
  | .little => wr (wr m i (v % 256)) (i + 1) (v / 256 % 256)
  | .big => wr (wr m i (v / 256 % 256)) (i + 1) (v % 256)

/-- The C function `htons`, as a host-order value. -/
def htons (o : byte_order) (v : Nat) : Nat :=
  match o with
  | .little => (v % 256) * 256 + v / 256 % 256
  | .big => v % 65536

/-! ### struct avctp_header (at index 0 of the buffer) -/

def avctp_ipid (o : byte_order) : bitfield :=
  match o with
  | .little => place o 0 1
  | .big => place o 7 1

def avctp_cr (o : byte_order) : bitfield :=
  match o with
  | .little => place o 1 1
  | .big => place o 6 1

def avctp_packet_type (o : byte_order) : bitfield :=
  match o with
  | .little => place o 2 2
  | .big => place o 4 2

def avctp_transaction (o : byte_order) : bitfield :=
  match o with
  | .little => place o 4 4
  | .big => place o 0 4

/-- The field `avctp->pid`, a host-order load of bytes 1 and 2. -/
def avctp_pid (o : byte_order) (buf : List Nat) : Nat := load16 o buf 1

/-! ### struct avrcp_header (at index `avrcp` of the buffer) -/

def avrcp_code (o : byte_order) : bitfield :=
  match o with
  | .little => place o 0 4
  | .big => place o 4 4

def avrcp_subunit_id (o : byte_order) : bitfield :=
  match o with
  | .little => place o 0 3
  | .big => place o 5 3

def avrcp_subunit_type (o : byte_order) : bitfield :=
  match o with
  | .little => place o 3 5
  | .big => place o 0 5

/-- The field `avrcp->opcode`. -/
def avrcp_opcode (buf : List Nat) (avrcp : Nat) : Nat := rd buf (avrcp + 2)

/-! ### struct metadata_header -/

def metadata_packet_type (o : byte_order) : bitfield :=
  match o with
  | .little => place o 0 2
  | .big => place o 6 2

/-- The pointer `metadata = (struct metadata_header *) avrcp + AVRCP_HEADER_LENGTH + 3`.
The cast binds tighter than `+`, so the sum `AVRCP_HEADER_LENGTH + 3` counts
objects of type `struct metadata_header`, not bytes. -/
def metadata_ptr (avrcp : Nat) : Nat :=
  avrcp + (AVRCP_HEADER_LENGTH + 3) * SIZEOF_METADATA_HEADER

/-- The pointer `metadata_params = (unsigned char *) metadata + METADATA_HEADER_LENGTH`. -/
def metadata_params_ptr (avrcp : Nat) : Nat := metadata_ptr avrcp + METADATA_HEADER_LENGTH

/-- The field `metadata->pdu_id`, an `int8_t`. -/
def metadata_pdu_id (buf : List Nat) (avrcp : Nat) : Int :=
  let b := rd buf (metadata_ptr avrcp)
  if b < 128 then (b : Int) else (b : Int) - 256

/-- The field `metadata->parameter_length`, a `uint16_t` in host byte order. -/
def metadata_parameter_length (o : byte_order) (buf : List Nat) (avrcp : Nat) : Nat :=
  load16 o buf (metadata_ptr avrcp + 2)

/-- The assignment `metadata->parameter_length = v`. -/
def set_parameter_length (o : byte_order) (buf : List Nat) (avrcp v : Nat) : List Nat :=
  store16 o buf (metadata_ptr avrcp + 2) v

/-- The byte `metadata_params[k]`. -/
def metadata_param (buf : List Nat) (avrcp k : Nat) : Nat := rd buf (metadata_params_ptr avrcp + k)

/-- The assignment `metadata_params[k] = v`. -/
def set_metadata_param (buf : List Nat) (avrcp k v : Nat) : List Nat :=
  wr buf (metadata_params_ptr avrcp + k) v

/-- The assignment `avrcp->code = v`. -/
def set_code (o : byte_order) (buf : List Nat) (avrcp v : Nat) : List Nat :=
  wr buf avrcp ((avrcp_code o).set (rd buf avrcp) v)

/-- The field `avrcp->code`. -/
def get_code (o : byte_order) (buf : List Nat) (avrcp : Nat) : Nat :=
  (avrcp_code o).get (rd buf avrcp)

/-! ## The session record and the outside world -/

/-- The enum `avctp_state_t` of control.h. -/
inductive avctp_state_t where
  | AVCTP_STATE_DISCONNECTED
  | AVCTP_STATE_CONNECTING
  | AVCTP_STATE_CONNECTED
deriving DecidableEq, Repr

/-- The host input codes used by `key_map` and `send_key`.  Their numeric values are
those of uinput.h, which the embedding does not need. -/
inductive input_code where
  | KEY_PLAYCD
  | KEY_STOPCD
  | KEY_PAUSECD
  | KEY_NEXTSONG
  | KEY_PREVIOUSSONG
  | KEY_REWIND
  | KEY_FASTFORWARD
  | SYN_REPORT
deriving DecidableEq, Repr

/-- The event types `EV_KEY` and `EV_SYN` of uinput.h. -/
inductive event_type where
  | EV_KEY
  | EV_SYN
deriving DecidableEq, Repr

/-- The value carried by a D-Bus message argument or signal.  `byte_at v` is the argument
of a signal whose value pointer is the address of a byte of the receive buffer, that
byte holding `v`; `other` stands for every type the code does not accept. -/
inductive dbus_value where
  | uint32 (v : Nat)
  | boolean (b : Bool)
  | string (s : String)
  | byte_at (v : Nat)
  | other
deriving DecidableEq, Repr

/-- One observable action of the code. -/
inductive effect where
  | uinput_write (fd : Int) (type : event_type) (code : input_code) (value : Int)
  | emit_signal (name : String)
  | property_changed (name : String) (value : dbus_value)
  | channel_shutdown (chan : Nat)
  | source_remove (id : Nat)
  | cancel_authorization
  | uinput_destroy (fd : Int)
  | deauthorize_if_inactive
  | state_callbacks (old_state new_state : avctp_state_t)
deriving DecidableEq, Repr

/-- The record `struct control`, without the back pointer `dev`. -/
structure control where
  state : avctp_state_t
  uinput : Int
  io : Option Nat
  io_id : Nat
  mtu : Nat
  target : Bool
  key_quirks : List Nat
  mpris_caps : Nat
  mpris_play_state : Nat
  mpris_shuffle_state : Bool
  mpris_repeat_state : Bool
  mpris_endless_state : Bool
  mpris_title : Option String
  mpris_artist : Option String
  mpris_album : Option String
  mpris_number : Option String
  mpris_genre : Option String
  mpris_total : Nat
deriving DecidableEq, Repr

/-- The service class id `AV_REMOTE_TARGET_SVCLASS_ID` of bluetooth/sdp.h. -/
def AV_REMOTE_TARGET_SVCLASS_ID : Nat := 0x110C

/-- The function `control_init` once the D-Bus interface is registered: a record
filled with zeros, in state Disconnected, without uinput device. -/
def control_init (uuid16 : Nat) : control :=
  { state := .AVCTP_STATE_DISCONNECTED, uinput := -1, io := none, io_id := 0, mtu := 0,
    target := decide (uuid16 = AV_REMOTE_TARGET_SVCLASS_ID),
    key_quirks := List.replicate 256 0, mpris_caps := 0,
    mpris_play_state := 0, mpris_shuffle_state := false, mpris_repeat_state := false,
    mpris_endless_state := false, mpris_title := none, mpris_artist := none,
    mpris_album := none, mpris_number := none, mpris_genre := none, mpris_total := 0 }

/-- One row of the table `key_map`. -/
structure key_map_entry where
  name : String
  avrcp : Nat
  uinput : input_code
deriving DecidableEq, Repr

/-- The table `key_map`, without its terminating `NULL` row. -/
def key_map : List key_map_entry :=
  [ { name := "PLAY", avrcp := PLAY_OP, uinput := .KEY_PLAYCD },
    { name := "STOP", avrcp := STOP_OP, uinput := .KEY_STOPCD },
    { name := "PAUSE", avrcp := PAUSE_OP, uinput := .KEY_PAUSECD },
    { name := "FORWARD", avrcp := FORWARD_OP, uinput := .KEY_NEXTSONG },
    { name := "BACKWARD", avrcp := BACKWARD_OP, uinput := .KEY_PREVIOUSSONG },
    { name := "REWIND", avrcp := REWIND_OP, uinput := .KEY_REWIND },
    { name := "FAST FORWARD", avrcp := FAST_FORWARD_OP, uinput := .KEY_FASTFORWARD } ]

/-! ## Key events -/

/-- The function `send_event`: one `struct uinput_event` written to `fd`. -/
def send_event (fd : Int) (type : event_type) (code : input_code) (value : Int) : List effect :=
  [effect.uinput_write fd type code value]

/-- The function `send_key`. -/
def send_key (fd : Int) (key : input_code) (pressed : Int) : List effect :=
  if fd < 0 then []
  else send_event fd .EV_KEY key pressed ++ send_event fd .EV_SYN .SYN_REPORT 0

/-- The `for` loop of `handle_panel_passthrough` over the rows of `key_map` that are
still to be visited.  Reaching the end of the table is the `unknown button` case,
which only logs. -/
def panel_loop (ctl : control) (op0 : Nat) (pressed : Int) : List key_map_entry → List effect
  | [] => []
  | e :: rest =>
    if (op0 &&& 0x7F) ≠ e.avrcp then panel_loop ctl op0 pressed rest
    else
      let key_quirks := rd ctl.key_quirks e.avrcp
      if key_quirks &&& QUIRK_NO_RELEASE ≠ 0 then
        if pressed = 0 then []
        else send_key ctl.uinput e.uinput 1 ++ send_key ctl.uinput e.uinput 0
      else send_key ctl.uinput e.uinput pressed

/-- The function `handle_panel_passthrough`. -/
def handle_panel_passthrough (ctl : control) (operands : List Nat) (operand_count : Nat) :
    List effect :=
  if operand_count = 0 then []
  else
    let pressed : Int := if rd operands 0 &&& 0x80 ≠ 0 then 0 else 1
    panel_loop ctl (rd operands 0) pressed key_map

/-! ## Metadata transfer PDUs -/

/-- What `handle_metadata_pdu` can change: the session record, the receive buffer of
`control_cb` and the list of D-Bus signals emitted so far. -/
structure pdu_state where
  ctl : control
  buf : List Nat
  out : List effect
deriving DecidableEq, Repr

/-- The C test `caps & bit`, true when the result is not zero. -/
def has (caps bit : Nat) : Bool := caps &&& bit != 0

/-- The statements `avrcp->code = CTYPE_REJECTED; metadata->parameter_length = 1;
metadata_params[0] = err;`, in this order. -/
def reject (o : byte_order) (buf : List Nat) (avrcp err : Nat) : List Nat :=
  set_metadata_param (set_parameter_length o (set_code o buf avrcp CTYPE_REJECTED) avrcp 1)
    avrcp 0 err

/-- The statements `metadata->parameter_length++; metadata_params[0]++;
metadata_params[metadata_params[0]] = v;`, in this order. -/
def append_param (o : byte_order) (buf : List Nat) (avrcp v : Nat) : List Nat :=
  let b1 := set_parameter_length o buf avrcp (metadata_parameter_length o buf avrcp + 1)
  let b2 := set_metadata_param b1 avrcp 0 (metadata_param b1 avrcp 0 + 1)
  set_metadata_param b2 avrcp (metadata_param b2 avrcp 0) v

/-- The `case GET_CAPABILITIES` of `handle_metadata_pdu`. -/
def get_capabilities (o : byte_order) (buf : List Nat) (avrcp : Nat) : List Nat :=
  if metadata_parameter_length o buf avrcp < 1 then reject o buf avrcp E_INVALID_PARAM
  else if metadata_param buf avrcp 0 = CAP_COMPANY_ID then
    let b := set_parameter_length o (set_code o buf avrcp CTYPE_STABLE) avrcp 5
    let b := set_metadata_param b avrcp 1 1
    -- `(uint8_t) IEEEID_BTSIG & 0xFF0000`: the cast applies before the mask
    let b := set_metadata_param b avrcp 2 ((IEEEID_BTSIG % 256) &&& 0xFF0000)
    let b := set_metadata_param b avrcp 3 ((IEEEID_BTSIG % 256) &&& 0x00FF00)
    set_metadata_param b avrcp 4 (IEEEID_BTSIG &&& 0x0000FF)
  else if metadata_param buf avrcp 0 = CAP_EVENTS_SUPPORTED then
    let b := set_parameter_length o (set_code o buf avrcp CTYPE_STABLE) avrcp 5
    let b := set_metadata_param b avrcp 1 3
    let b := set_metadata_param b avrcp 2 EVENT_PLAYBACK_STATUS_CHANGED
    let b := set_metadata_param b avrcp 3 EVENT_TRACK_CHANGED
    set_metadata_param b avrcp 4 EVENT_TRACK_REACHED_END
  else reject o buf avrcp E_INVALID_PARAM

/-- The `case LIST_PLAYER_SETTING_ATTRIBUTES` of `handle_metadata_pdu`. -/
def list_player_setting_attributes (o : byte_order) (ctl : control) (buf : List Nat)
    (avrcp : Nat) : List Nat :=
  let b := set_code o buf avrcp CTYPE_STABLE
  let b := set_parameter_length o b avrcp 1
  let b := set_metadata_param b avrcp 0 0
  let b := if has ctl.mpris_caps MPRIS_CAN_REPEAT || has ctl.mpris_caps MPRIS_CAN_LOOP
    then append_param o b avrcp ATTRIBUTE_REPEAT else b
  let b := if has ctl.mpris_caps MPRIS_CAN_SHUFFLE
    then append_param o b avrcp ATTRIBUTE_SHUFFLE else b
  if has ctl.mpris_caps MPRIS_CAN_SCAN then append_param o b avrcp ATTRIBUTE_SCAN else b

/-- The `case LIST_PLAYER_SETTING_VALUES` of `handle_metadata_pdu`. -/
def list_player_setting_values (o : byte_order) (ctl : control) (buf : List Nat)
    (avrcp : Nat) : List Nat :=
  if metadata_parameter_length o buf avrcp < 1 then reject o buf avrcp E_INVALID_PARAM
  else
    let b := set_code o buf avrcp CTYPE_STABLE
    let a := metadata_param b avrcp 0
    if a = ATTRIBUTE_REPEAT then
      if !(has ctl.mpris_caps MPRIS_CAN_REPEAT || has ctl.mpris_caps MPRIS_CAN_LOOP) then
        reject o b avrcp E_INVALID_PARAM
      else
        let b := set_parameter_length o b avrcp 2
        let b := set_metadata_param b avrcp 0 1
        let b := set_metadata_param b avrcp 1 ATTRIBUTE_REPEAT_OFF
        let b := if has ctl.mpris_caps MPRIS_CAN_REPEAT
          then append_param o b avrcp ATTRIBUTE_REPEAT_SINGLE else b
        if has ctl.mpris_caps MPRIS_CAN_LOOP
          then append_param o b avrcp ATTRIBUTE_REPEAT_GROUP else b
    else if a = ATTRIBUTE_SHUFFLE then
      if !(has ctl.mpris_caps MPRIS_CAN_SHUFFLE) then reject o b avrcp E_INVALID_PARAM
      else
        let b := set_parameter_length o b avrcp 3
        let b := set_metadata_param b avrcp 0 2
        let b := set_metadata_param b avrcp 1 ATTRIBUTE_SHUFFLE_OFF
        set_metadata_param b avrcp 2 ATTRIBUTE_SHUFFLE_GROUP
    else if a = ATTRIBUTE_SCAN then
      if !(has ctl.mpris_caps MPRIS_CAN_SCAN) then reject o b avrcp E_INVALID_PARAM
      else
        let b := set_parameter_length o b avrcp 3
        let b := set_metadata_param b avrcp 0 2
        let b := set_metadata_param b avrcp 1 ATTRIBUTE_SCAN_OFF
        set_metadata_param b avrcp 2 ATTRIBUTE_SCAN_GROUP
    else reject o b avrcp E_INVALID_PARAM

/-- The size of the local array `rsp` in the embedding.  In the source `rsp` is a
variable-length array of `params_count` bytes; the embedding gives it room for every
index that the 8-bit counter `rsp_i` can form and does not model its bound. -/
def RSP_SIZE : Nat := 1024

/-- The variables of a loop of `handle_metadata_pdu` that fills `rsp`: the 8-bit
counters `i` and `rsp_i`, the receive buffer and the local array `rsp`. -/
structure rsp_state where
  i : Nat
  buf : List Nat
  rsp : List Nat
  rsp_i : Nat
deriving DecidableEq, Repr

/-- The statement `rsp[rsp_i++] = v`, with the 8-bit wrap of `rsp_i`. -/
def rsp_state.push (s : rsp_state) (v : Nat) : rsp_state :=
  { s with rsp := wr s.rsp s.rsp_i v, rsp_i := (s.rsp_i + 1) % 256 }

/-- The rejection inside a loop: `i = metadata_params[0] + 1;` (8 bits) followed by the
three statements of `reject`. -/
def rsp_state.reject (o : byte_order) (avrcp : Nat) (s : rsp_state) : rsp_state :=
  { s with i := (metadata_param s.buf avrcp 0 + 1) % 256,
           buf := Avrcp.reject o s.buf avrcp E_INVALID_PARAM }

/-- The body of the `for` loop of `case GET_CURRENT_PLAYER_SETTING_VALUE`: the
`switch (metadata_params[i])`. -/
def get_current_body (o : byte_order) (ctl : control) (avrcp : Nat) (s : rsp_state) :
    rsp_state :=
  let a := metadata_param s.buf avrcp s.i
  if a = ATTRIBUTE_REPEAT then
    if !(has ctl.mpris_caps MPRIS_CAN_REPEAT || has ctl.mpris_caps MPRIS_CAN_LOOP) then
      s.reject o avrcp
    else
      let s := s.push ATTRIBUTE_REPEAT
      if ctl.mpris_repeat_state then s.push ATTRIBUTE_REPEAT_SINGLE
      else if ctl.mpris_endless_state then s.push ATTRIBUTE_REPEAT_GROUP
      else s.push ATTRIBUTE_REPEAT_OFF
  else if a = ATTRIBUTE_SHUFFLE then
    if !(has ctl.mpris_caps MPRIS_CAN_SHUFFLE) then s.reject o avrcp
    else
      let s := s.push ATTRIBUTE_SHUFFLE
      if ctl.mpris_shuffle_state then s.push ATTRIBUTE_SHUFFLE_GROUP
      else s.push ATTRIBUTE_SHUFFLE_OFF
  else if a = ATTRIBUTE_SCAN then
    if !(has ctl.mpris_caps MPRIS_CAN_SCAN) then s.reject o avrcp
    else (s.push ATTRIBUTE_SCAN).push ATTRIBUTE_SCAN_OFF
  else s.reject o avrcp

/-- The loop `for (i = 1; i <= metadata_params[0]; i++)` of
`case GET_CURRENT_PLAYER_SETTING_VALUE`, from the test of its condition on. -/
def get_current_loop (o : byte_order) (ctl : control) (avrcp : Nat) :
    Nat → rsp_state → Option rsp_state
  | 0, _ => none
  | fuel + 1, s =>
    if s.i ≤ metadata_param s.buf avrcp 0 then
      let s1 := get_current_body o ctl avrcp s
      get_current_loop o ctl avrcp fuel { s1 with i := (s1.i + 1) % 256 }
    else some s

/-- The `case GET_CURRENT_PLAYER_SETTING_VALUE` of `handle_metadata_pdu`. -/
def get_current_player_setting_value (o : byte_order) (fuel : Nat) (ctl : control)
    (buf : List Nat) (avrcp : Nat) : Option (List Nat) :=
  if metadata_parameter_length o buf avrcp < 1 then some (reject o buf avrcp E_INVALID_PARAM)
  else
    let b := set_parameter_length o (set_code o buf avrcp CTYPE_STABLE) avrcp 1
    let rsp := wr (List.replicate RSP_SIZE 0) 0 (metadata_param b avrcp 0)
    match get_current_loop o ctl avrcp fuel { i := 1, buf := b, rsp := rsp, rsp_i := 1 } with
    | none => none
    | some s => some (memcpy s.buf (metadata_params_ptr avrcp) s.rsp 0 s.rsp_i)

/-- The variables of the loop of `case SET_PLAYER_SETTING_VALUE`: the 8-bit counter `i`
and everything the loop body can change. -/
structure set_state where
  i : Nat
  st : pdu_state
deriving DecidableEq, Repr

/-- The rejection inside the loop of `case SET_PLAYER_SETTING_VALUE`:
`i = metadata_params[0] + 1;` (8 bits) followed by the three statements of `reject`. -/
def set_state.reject (o : byte_order) (avrcp : Nat) (s : set_state) : set_state :=
  { i := (metadata_param s.st.buf avrcp 0 + 1) % 256,
    st := { s.st with buf := Avrcp.reject o s.st.buf avrcp E_INVALID_PARAM } }

/-- The call of `emit_property_changed` inside the loop of
`case SET_PLAYER_SETTING_VALUE`. -/
def set_state.emit (s : set_state) (name : String) (v : Nat) : set_state :=
  { s with st := { s.st with out := s.st.out ++ [effect.property_changed name (.byte_at v)] } }

/-- The body of the `for` loop of `case SET_PLAYER_SETTING_VALUE`: the
`switch (metadata_params[2 * i + 1])`. -/
def set_body (o : byte_order) (avrcp : Nat) (s : set_state) : set_state :=
  let ctl := s.st.ctl
  let a := metadata_param s.st.buf avrcp (2 * s.i + 1)
  let v := metadata_param s.st.buf avrcp (2 * s.i + 2)
  if a = ATTRIBUTE_REPEAT then
    if !(has ctl.mpris_caps MPRIS_CAN_REPEAT || has ctl.mpris_caps MPRIS_CAN_LOOP) ||
        v == ATTRIBUTE_REPEAT_ALL then
      s.reject o avrcp
    else
      let ctl1 :=
        if v = ATTRIBUTE_REPEAT_OFF then
          { ctl with mpris_repeat_state := false, mpris_endless_state := false }
        else if v = ATTRIBUTE_REPEAT_SINGLE then
          { ctl with mpris_repeat_state := true, mpris_endless_state := false }
        else if v = ATTRIBUTE_REPEAT_GROUP then
          { ctl with mpris_repeat_state := false, mpris_endless_state := true }
        else ctl
      set_state.emit { s with st := { s.st with ctl := ctl1 } } "SetRepeatState" v
  else if a = ATTRIBUTE_SHUFFLE then
    if !(has ctl.mpris_caps MPRIS_CAN_SHUFFLE) then s.reject o avrcp
    else
      let ctl1 :=
        if v = ATTRIBUTE_SHUFFLE_OFF then { ctl with mpris_shuffle_state := false }
        else if v = ATTRIBUTE_SHUFFLE_GROUP then { ctl with mpris_shuffle_state := true }
        else ctl
      set_state.emit { s with st := { s.st with ctl := ctl1 } } "SetShuffleState" v
  else if a = ATTRIBUTE_SCAN then
    if !(has ctl.mpris_caps MPRIS_CAN_SCAN) then s.reject o avrcp
    else s
  else s.reject o avrcp

/-- The loop `for (i = 0; i <= metadata_params[0]; i++)` of
`case SET_PLAYER_SETTING_VALUE`, from the test of its condition on. -/
def set_loop (o : byte_order) (avrcp : Nat) : Nat → set_state → Option set_state
  | 0, _ => none
  | fuel + 1, s =>
    if s.i ≤ metadata_param s.st.buf avrcp 0 then
      let s1 := set_body o avrcp s
      set_loop o avrcp fuel { s1 with i := (s1.i + 1) % 256 }
    else some s

/-- The `case SET_PLAYER_SETTING_VALUE` of `handle_metadata_pdu`. -/
def set_player_setting_value (o : byte_order) (fuel : Nat) (st : pdu_state) (avrcp : Nat) :
    Option pdu_state :=
  if metadata_parameter_length o st.buf avrcp < 1 then
    some { st with buf := reject o st.buf avrcp E_INVALID_PARAM }
  else
    match set_loop o avrcp fuel { i := 0, st := st } with
    | none => none
    | some s => some s.st

/-- The `case GET_PLAY_STATUS` of `handle_metadata_pdu`. -/
def get_play_status (o : byte_order) (buf : List Nat) (avrcp : Nat) : List Nat :=
  let b := set_code o buf avrcp CTYPE_STABLE
  let b := (List.range 8).foldl (fun m i => set_metadata_param m avrcp i 0xFF) b
  set_metadata_param b avrcp 8 PLAY_STOPPED

/-- The cases of `switch (attribute_id)` in `case GET_ELEMENT_ATTRIBUTES`: the
attribute constant of the case and the text it prints into `metainfo`; `none` is the
`default` case. -/
def element_case (attribute_id : Nat) : Option (Nat × String) :=
  if attribute_id = METADATA_TITLE then some (METADATA_TITLE, "Get title from MPRIS")
  else if attribute_id = METADATA_ARTIST then some (METADATA_ARTIST, "Get artist from MPRIS")
  else if attribute_id = METADATA_ALBUM then some (METADATA_ALBUM, "Get album from MPRIS")
  else if attribute_id = METADATA_NUMBER then some (METADATA_NUMBER, "Get number from MPRIS")
  else if attribute_id = METADATA_TOTAL then some (METADATA_TOTAL, "Get total from MPRIS")
  else if attribute_id = METADATA_GENRE then some (METADATA_GENRE, "Get genre from MPRIS")
  else if attribute_id = METADATA_PLAY_TIME then
    some (METADATA_PLAY_TIME, "Get time from MPRIS")
  else none

/-- The byte `rsp[rsp_i - 1]`.  When the 8-bit counter `rsp_i` has just wrapped to 0 the
source reads `rsp[-1]`, a byte outside the array; the embedding takes it to be 0. -/
def rsp_state.last (s : rsp_state) : Nat :=
  if s.rsp_i = 0 then 0 else rd s.rsp (s.rsp_i - 1)

/-- The statements shared by the seven attribute cases of `case GET_ELEMENT_ATTRIBUTES`,
for the case of the constant `c` and the text `text`. -/
def element_entry (s : rsp_state) (c : Nat) (text : String) : rsp_state :=
  let metainfo := text.toList.map Char.toNat ++ [0]
  let s := s.push ((c % 256) &&& 0xFF00)
  let s := s.push ((c % 256) &&& 0x00FF)
  let s := s.push text.length
  let s := { s with rsp := memcpy s.rsp s.rsp_i metainfo 0 s.last }
  { s with rsp_i := (s.rsp_i + s.last) % 256 }

/-- How the loop of `case GET_ELEMENT_ATTRIBUTES` is left: by the `return` of its
`default` case, or by its condition, after which control falls into
`case GET_PLAY_STATUS`. -/
inductive element_exit where
  | returned (buf : List Nat)
  | fell_through (buf : List Nat)
deriving DecidableEq, Repr

/-- The loop `for (i = 0; i < metadata_params[4]; i++)` of
`case GET_ELEMENT_ATTRIBUTES`, from the test of its condition on. -/
def element_loop (o : byte_order) (avrcp : Nat) : Nat → rsp_state → Option element_exit
  | 0, _ => none
  | fuel + 1, s =>
    if s.i < metadata_param s.buf avrcp 4 then
      let attribute_id :=
        ((metadata_param s.buf avrcp (s.i * 2 + 5) <<< 8) |||
          metadata_param s.buf avrcp (s.i * 2 + 5 + 1)) % 65536
      match element_case attribute_id with
      | none => some (.returned (reject o s.buf avrcp E_INVALID_PARAM))
      | some (c, text) =>
        let s := element_entry s c text
        let s := s.push ((CHARSET_UTF8 % 256) &&& 0xFF00)
        let s := s.push ((CHARSET_UTF8 % 256) &&& 0x00FF)
        let s := s.push 0
        let s := s.push 0
        let s := { s with buf := memcpy s.buf (metadata_params_ptr avrcp) s.rsp 0 s.rsp_i }
        element_loop o avrcp fuel { s with i := (s.i + 1) % 256 }
    else some (.fell_through s.buf)

/-- The `case GET_ELEMENT_ATTRIBUTES` of `handle_metadata_pdu`, with the
`case GET_PLAY_STATUS` that it falls into for want of a `break`. -/
def get_element_attributes (o : byte_order) (fuel : Nat) (buf : List Nat) (avrcp : Nat) :
    Option (List Nat) :=
  let element_id :=
    ((metadata_param buf avrcp 0 <<< 24) ||| (metadata_param buf avrcp 1 <<< 16) |||
      (metadata_param buf avrcp 2 <<< 8) ||| metadata_param buf avrcp 3) % 2 ^ 32
  if element_id ≠ ELEMENT_PLAYING then some (reject o buf avrcp E_INVALID_PARAM)
  else
    let b := set_code o buf avrcp CTYPE_STABLE
    let s : rsp_state := { i := 0, buf := b, rsp := List.replicate RSP_SIZE 0, rsp_i := 0 }
    let s := s.push (metadata_param b avrcp 4)
    match element_loop o avrcp fuel s with
    | none => none
    | some (.returned b1) => some b1
    | some (.fell_through b1) => some (get_play_status o b1 avrcp)

/-- The function `handle_metadata_pdu`, called with the header pointer `avrcp`.  Its
third argument `operand_count` only sizes the local array `rsp` (see `RSP_SIZE`) and
is left out. -/
def handle_metadata_pdu (o : byte_order) (fuel : Nat) (st : pdu_state) (avrcp : Nat) :
    Option pdu_state :=
  if (metadata_packet_type o).get (rd st.buf (metadata_ptr avrcp + 1)) ≠ AVCTP_PACKET_SINGLE then
    some { st with buf := set_code o st.buf avrcp CTYPE_NOT_IMPLEMENTED }
  else
    let id := metadata_pdu_id st.buf avrcp
    if id = GET_CAPABILITIES then some { st with buf := get_capabilities o st.buf avrcp }
    else if id = LIST_PLAYER_SETTING_ATTRIBUTES then
      some { st with buf := list_player_setting_attributes o st.ctl st.buf avrcp }
    else if id = LIST_PLAYER_SETTING_VALUES then
      some { st with buf := list_player_setting_values o st.ctl st.buf avrcp }
    else if id = GET_CURRENT_PLAYER_SETTING_VALUE then
      (get_current_player_setting_value o fuel st.ctl st.buf avrcp).map
        (fun b => { st with buf := b })
    else if id = SET_PLAYER_SETTING_VALUE then set_player_setting_value o fuel st avrcp
    else if id = GET_PLAYER_SETTING_ATTRIBUTE_TEXT ∨ id = GET_PLAYER_SETTING_VALUE_TEXT ∨
        id = INFORM_DISPLAYABLE_CHARSET ∨ id = INFORM_BATT_STATUS_OF_CT then
      some { st with buf := set_code o st.buf avrcp CTYPE_NOT_IMPLEMENTED }
    else if id = GET_ELEMENT_ATTRIBUTES then
      (get_element_attributes o fuel st.buf avrcp).map (fun b => { st with buf := b })
    else if id = GET_PLAY_STATUS then some { st with buf := get_play_status o st.buf avrcp }
    else some { st with buf := reject o st.buf avrcp E_INVALID_COMMAND }

/-! ## Session state -/

/-- The function `avctp_disconnected`, for a device that has a control record. -/
def avctp_disconnected (ctl : control) : control × List effect :=
  let r1 : control × List effect :=
    match ctl.io with
    | some chan => ({ ctl with io := none }, [effect.channel_shutdown chan])
    | none => (ctl, [])
  let r2 : control × List effect :=
    if r1.1.io_id ≠ 0 then
      ({ r1.1 with io_id := 0 },
        r1.2 ++ [effect.source_remove r1.1.io_id] ++
          (if r1.1.state = .AVCTP_STATE_CONNECTING then [effect.cancel_authorization] else []))
    else r1
  if r2.1.uinput ≥ 0 then
    ({ r2.1 with uinput := -1 }, r2.2 ++ [effect.uinput_destroy r2.1.uinput])
  else r2

/-- The function `avctp_set_state`. -/
def avctp_set_state (ctl : control) (new_state : avctp_state_t) : control × List effect :=
  let old_state := ctl.state
  let r : control × List effect :=
    match new_state with
    | .AVCTP_STATE_DISCONNECTED =>
      let d := avctp_disconnected ctl
      if old_state ≠ .AVCTP_STATE_CONNECTED then d
      else
        (d.1, d.2 ++ [effect.emit_signal "Disconnected",
                      effect.property_changed "Connected" (.boolean false),
                      effect.deauthorize_if_inactive])
    | .AVCTP_STATE_CONNECTING => (ctl, [])
    | .AVCTP_STATE_CONNECTED =>
      (ctl, [effect.emit_signal "Connected",
             effect.property_changed "Connected" (.boolean true)])
  ({ r.1 with state := new_state }, r.2 ++ [effect.state_callbacks old_state new_state])

/-! ## The dispatcher -/

/-- The outcome of one call of `control_cb`: the session record, the value returned
(`TRUE` keeps the watch), the bytes handed to `write(sock, buf, packet_size)` when the
call is reached, and the other actions in order. -/
structure cb_result where
  ctl : control
  ret : Bool
  written : Option (List Nat)
  out : List effect
deriving DecidableEq, Repr

/-- The label `failed:` of `control_cb`. -/
def control_cb_failed (ctl : control) : cb_result :=
  let r := avctp_set_state ctl .AVCTP_STATE_DISCONNECTED
  { ctl := r.1, ret := false, written := none, out := r.2 }

/-- The array `buf` of `control_cb` after `read` has stored `data` in it: the bytes
beyond the packet keep what the memory of the array held before, given by `stack`. -/
def fill (stack data : List Nat) : List Nat :=
  ((data ++ stack.drop data.length).map (fun b => b % 256) ++
    List.replicate BUF_SIZE 0).take BUF_SIZE

/-- The assignment `avctp->cr = v`. -/
def set_cr (o : byte_order) (buf : List Nat) (v : Nat) : List Nat :=
  wr buf 0 ((avctp_cr o).set (rd buf 0) v)

/-- The assignment `avctp->ipid = v`. -/
def set_ipid (o : byte_order) (buf : List Nat) (v : Nat) : List Nat :=
  wr buf 0 ((avctp_ipid o).set (rd buf 0) v)

/-- The end of `control_cb` when the `write` is reached. -/
def reply (ctl : control) (buf : List Nat) (packet_size : Nat) (out : List effect) : cb_result :=
  { ctl := ctl, ret := true, written := some (buf.take packet_size), out := out }

/-- The classification of `control_cb`, from the first `if` on the packet type to the
`return TRUE`, on the buffer `buf` holding a packet of `packet_size` bytes with
`operand_count` operand bytes. -/
def control_cb_dispatch (o : byte_order) (fuel : Nat) (ctl : control) (buf : List Nat)
    (packet_size operand_count : Nat) : Option cb_result :=
  let avrcp := AVCTP_HEADER_LENGTH
  let operands := AVCTP_HEADER_LENGTH + AVRCP_HEADER_LENGTH
  let cr := (avctp_cr o).get (rd buf 0)
  let code := get_code o buf avrcp
  let subunit_type := (avrcp_subunit_type o).get (rd buf (avrcp + 1))
  let opcode := avrcp_opcode buf avrcp
  if (avctp_packet_type o).get (rd buf 0) ≠ AVCTP_PACKET_SINGLE then
    let b := set_cr o buf AVCTP_RESPONSE
    let b := set_code o b avrcp CTYPE_NOT_IMPLEMENTED
    some (reply ctl b packet_size [])
  else if avctp_pid o buf ≠ htons o AV_REMOTE_SVCLASS_ID then
    let b := set_ipid o buf 1
    let b := set_cr o b AVCTP_RESPONSE
    let b := set_code o b avrcp CTYPE_REJECTED
    some (reply ctl b packet_size [])
  else if cr = AVCTP_COMMAND ∧ code = CTYPE_CONTROL ∧ subunit_type = SUBUNIT_PANEL ∧
      opcode = OP_PASSTHROUGH then
    let keys := handle_panel_passthrough ctl (buf.drop operands) operand_count
    let b := set_cr o buf AVCTP_RESPONSE
    let b := set_code o b avrcp CTYPE_ACCEPTED
    some (reply ctl b packet_size keys)
  else if cr = AVCTP_COMMAND ∧ code = CTYPE_STATUS ∧
      (opcode = OP_UNITINFO ∨ opcode = OP_SUBUNITINFO) then
    let b := set_cr o buf AVCTP_RESPONSE
    let b := set_code o b avrcp CTYPE_STABLE
    let b := if operand_count ≥ 1 ∧ opcode = OP_UNITINFO then wr b operands 0x07 else b
    let b := if operand_count ≥ 2 then wr b (operands + 1) (SUBUNIT_PANEL <<< 3) else b
    some (reply ctl b packet_size [])
  else if cr = AVCTP_COMMAND ∧ (code = CTYPE_STATUS ∨ code = CTYPE_CONTROL) ∧
      subunit_type = SUBUNIT_PANEL ∧ opcode = OP_VENDORDEPENDENT ∧ operand_count ≥ 3 then
    let company_id :=
      (rd buf operands <<< 16) ||| (rd buf (operands + 1) <<< 8) ||| rd buf (operands + 2)
    if company_id = IEEEID_BTSIG then
      let b := set_cr o buf AVCTP_RESPONSE
      match handle_metadata_pdu o fuel { ctl := ctl, buf := b, out := [] } avrcp with
      | none => none
      | some st => some (reply st.ctl st.buf packet_size st.out)
    else
      let b := set_cr o buf AVCTP_RESPONSE
      let b := set_code o b avrcp CTYPE_NOT_IMPLEMENTED
      some (reply ctl b packet_size [])
  else if cr = AVCTP_RESPONSE then
    some { ctl := ctl, ret := true, written := none, out := [] }
  else
    let b := set_cr o buf AVCTP_RESPONSE
    let b := set_code o b avrcp CTYPE_REJECTED
    some (reply ctl b packet_size [])

/-- The function `control_cb`.  `cond_err` says whether `cond` has one of `G_IO_ERR`,
`G_IO_HUP`, `G_IO_NVAL`; `rx` is what `read` delivers, `none` for a negative return
value and `some data` for the bytes of the packet, of which `read` stores at most
`sizeof(buf)`; `stack` is the content of `buf` before the `read`.  The result is
`none` when the step budget `fuel` runs out before the call returns. -/
def control_cb (o : byte_order) (fuel : Nat) (ctl : control) (cond_err : Bool)
    (stack : List Nat) (rx : Option (List Nat)) : Option cb_result :=
  if cond_err then some (control_cb_failed ctl)
  else
    match rx with
    | none => some (control_cb_failed ctl)
    | some packet =>
      let data := packet.take BUF_SIZE
      let ret := data.length
      if ret ≤ 0 then some (control_cb_failed ctl)
      else if ret < AVCTP_HEADER_LENGTH then some (control_cb_failed ctl)
      else
        let packet_size := ret
        let ret := ret - AVCTP_HEADER_LENGTH
        if ret < AVRCP_HEADER_LENGTH then some (control_cb_failed ctl)
        else
          let ret := ret - AVRCP_HEADER_LENGTH
          control_cb_dispatch o fuel ctl (fill stack data) packet_size ret

/-! ## The D-Bus method SetProperty -/

/-- One argument of a D-Bus method call, as far as `control_set_property` looks at it:
a string, a variant holding a value, or anything else. -/
inductive dbus_arg where
  | string (s : String)
  | variant (v : dbus_value)
  | other
deriving DecidableEq, Repr

/-- The reply of a D-Bus method: the method return or the error `InvalidArguments`. -/
inductive dbus_reply where
  | method_return
  | invalid_args
deriving DecidableEq, Repr

/-- The outcome of `control_set_property`. -/
structure set_property_result where
  ctl : control
  reply : dbus_reply
  out : List effect
deriving DecidableEq, Repr

/-- The function `control_set_property` on the argument list `msg` of the call. -/
def control_set_property (ctl : control) (msg : List dbus_arg) : set_property_result :=
  let invalid : set_property_result := { ctl := ctl, reply := .invalid_args, out := [] }
  match msg with
  | dbus_arg.string property :: dbus_arg.variant sub :: _ =>
    if property = "PlayerCapabilities" ∨ property = "PlayState" ∨ property = "MediaLength" then
      match sub with
      | .uint32 value =>
        let ctl1 :=
          if property = "PlayerCapabilities" then { ctl with mpris_caps := value }
          else if property = "PlayState" then { ctl with mpris_play_state := value }
          else if property = "MediaLength" then { ctl with mpris_total := value }
          else ctl
        { ctl := ctl1, reply := .method_return,
          out := [effect.property_changed property (.uint32 value)] }
      | _ => invalid
    else if property = "ShuffleState" ∨ property = "RepeatState" ∨
        property = "EndlessState" then
      match sub with
      | .boolean value =>
        let ctl1 :=
          if property = "ShuffleState" then { ctl with mpris_shuffle_state := value }
          else if property = "RepeatState" then { ctl with mpris_repeat_state := value }
          else if property = "EndlessState" then { ctl with mpris_endless_state := value }
          else ctl
        { ctl := ctl1, reply := .method_return,
          out := [effect.property_changed property (.boolean value)] }
      | _ => invalid
    else if property = "MediaTitle" ∨ property = "MediaArtist" ∨ property = "MediaAlbum" ∨
        property = "MediaNumber" ∨ property = "MediaGenre" then
      match sub with
      | .string value =>
        let ctl1 :=
          if property = "MediaTitle" then { ctl with mpris_title := some value }
          else if property = "MediaArtist" then { ctl with mpris_artist := some value }
          else if property = "MediaAlbum" then { ctl with mpris_album := some value }
          else if property = "MediaNumber" then { ctl with mpris_number := some value }
          else if property = "MediaGenre" then { ctl with mpris_genre := some value }
          else ctl
        { ctl := ctl1, reply := .method_return,
          out := [effect.property_changed property (.string value)] }
      | _ => invalid
    else invalid
  | _ => invalid

/-! ## The specification's view of a call -/

/-- The field `pid` of a frame as the wire carries it: 16 bits, most significant byte
first, in bytes 1 and 2. -/
def wire_pid (frame : List Nat) : Nat := 256 * rd frame 1 + rd frame 2

/-- The company id of a vendor-dependent frame as the wire carries it: 24 bits, most
significant byte first, in the first three operand bytes. -/
def wire_company_id (frame : List Nat) : Nat :=
  65536 * rd frame 6 + 256 * rd frame 7 + rd frame 8

/-- What the peer sees of one call of `control_cb`: no reply, or a reply with an AVRCP
code. -/
inductive outcome where
  | drop
  | reply (code : Nat)
deriving DecidableEq, Repr

/-- The outcome of a finished call of `control_cb`. -/
def outcome_of (o : byte_order) (r : cb_result) : outcome :=
  match r.written with
  | none => .drop
  | some w => .reply (get_code o w AVCTP_HEADER_LENGTH)

/-- The classification ladder in the words of the specification, first matching step
winning, on the buffer `buf` that holds the frame and for `operand_count` operand
bytes.  Step 6 hands the frame, marked as a response, to `handle_metadata_pdu` and
replies with the code that it leaves in the header. -/
def ladder (o : byte_order) (fuel : Nat) (ctl : control) (buf : List Nat)
    (operand_count : Nat) : Option outcome :=
  let packet_type := (avctp_packet_type o).get (rd buf 0)
  let cr := (avctp_cr o).get (rd buf 0)
  let code := (avrcp_code o).get (rd buf 3)
  let subunit_type := (avrcp_subunit_type o).get (rd buf 4)
  let opcode := rd buf 5
  if packet_type ≠ AVCTP_PACKET_SINGLE then some (.reply CTYPE_NOT_IMPLEMENTED)
  else if wire_pid buf ≠ 0x110E then some (.reply CTYPE_REJECTED)
  else if cr = AVCTP_RESPONSE then some .drop
  else if cr = AVCTP_COMMAND ∧ code = CTYPE_CONTROL ∧ subunit_type = SUBUNIT_PANEL ∧
      opcode = 0x7c then
    some (.reply CTYPE_ACCEPTED)
  else if cr = AVCTP_COMMAND ∧ code = CTYPE_STATUS ∧ (opcode = 0x30 ∨ opcode = 0x31) then
    some (.reply CTYPE_STABLE)
  else if cr = AVCTP_COMMAND ∧ (code = CTYPE_STATUS ∨ code = CTYPE_CONTROL) ∧
      subunit_type = SUBUNIT_PANEL ∧ opcode = 0x00 ∧ 3 ≤ operand_count then
    if wire_company_id buf = 0x001958 then
      (handle_metadata_pdu o fuel { ctl := ctl, buf := set_cr o buf AVCTP_RESPONSE, out := [] }
        AVCTP_HEADER_LENGTH).map (fun st => outcome.reply (get_code o st.buf AVCTP_HEADER_LENGTH))
    else some (.reply CTYPE_NOT_IMPLEMENTED)
  else some (.reply CTYPE_REJECTED)

/-- Every cell of a buffer is a byte. -/
def is_bytes (m : List Nat) : Prop := ∀ b ∈ m, b < 256

instance (m : List Nat) : Decidable (is_bytes m) := by
  unfold is_bytes; infer_instance

/-! ## Concrete inputs, and what the specification expects of an answer -/

/-- The first 32 bytes of the frame of `scan_loop_packet`: a single-packet command,
pid 0x110E, code Control, subunit Panel, opcode VENDORDEPENDENT, company id 0x001958,
and, where `handle_metadata_pdu` reads them (bytes 27 to 31), the metadata header of a
single-packet SET_PLAYER_SETTING_VALUE PDU with a non-zero parameter length and the
count byte 0xFF. -/
def scan_loop_head : List Nat :=
  [0x00, 0x11, 0x0E, 0x00, 0x48, 0x00, 0x00, 0x19, 0x58,
   0, 0, 0, 0, 0, 0, 0, 0, 0, 0, 0, 0, 0, 0, 0, 0, 0, 0,
   0x14, 0x00, 0x01, 0x01, 0xFF]

/-- A frame of 544 bytes: `scan_loop_head` followed by 256 pairs (Scan, Scan). -/
def scan_loop_packet : List Nat := scan_loop_head ++ List.replicate 512 ATTRIBUTE_SCAN

/-- A session whose player has the capability CanScan only. -/
def scan_loop_control : control := { control_init 0 with mpris_caps := MPRIS_CAN_SCAN }

/-- The buffer that `control_cb` hands to `handle_metadata_pdu` for `scan_loop_packet`. -/
def scan_loop_buf (o : byte_order) (stack : List Nat) : List Nat :=
  set_cr o (fill stack (scan_loop_packet.take BUF_SIZE)) AVCTP_RESPONSE

/-- The key mapping in the words of the specification: PLAY 0x44, STOP 0x45, PAUSE 0x46,
REWIND 0x48, FAST_FORWARD 0x49, FORWARD 0x4b, BACKWARD 0x4c, each with its host key. -/
def mapped_key (op : Nat) : Option input_code :=
  if op = 0x44 then some .KEY_PLAYCD
  else if op = 0x45 then some .KEY_STOPCD
  else if op = 0x46 then some .KEY_PAUSECD
  else if op = 0x48 then some .KEY_REWIND
  else if op = 0x49 then some .KEY_FASTFORWARD
  else if op = 0x4b then some .KEY_NEXTSONG
  else if op = 0x4c then some .KEY_PREVIOUSSONG
  else none

/-- The events that the key sink `fd` receives for one key report: the key event, then
the sync event. -/
def key_report (fd : Int) (key : input_code) (pressed : Bool) : List effect :=
  [effect.uinput_write fd .EV_KEY key (if pressed then 1 else 0),
   effect.uinput_write fd .EV_SYN .SYN_REPORT 0]

/-- The operand bytes that the specification gives to a UNITINFO or SUBUNITINFO reply:
operand 0 becomes 0x07 for UNITINFO, operand 1 becomes Panel shifted left by 3 for both,
every other operand is that of the request (an operand that the request does not have
is not added). -/
def unit_info_operands (opcode : Nat) (operands : List Nat) : List Nat :=
  (if opcode = OP_UNITINFO then operands.set 0 0x07 else operands).set 1 0x48

/-- A vendor-dependent frame with the company id 0x001958 that carries, where
`handle_metadata_pdu` reads it (from byte 27 on), the metadata header `pdu_id 00 00 01`
followed by `params`. -/
def metadata_frame (pdu_id : Nat) (params : List Nat) : List Nat :=
  [0x00, 0x11, 0x0E, 0x01, 0x48, 0x00, 0x00, 0x19, 0x58] ++ List.replicate 18 0 ++
    [pdu_id, 0x00, 0x00, 0x01] ++ params

/-- The first `n` bytes of the metadata body, `metadata_params[0]` to
`metadata_params[n - 1]`. -/
def metadata_body (buf : List Nat) (avrcp n : Nat) : List Nat :=
  (List.range n).map (fun k => metadata_param buf avrcp k)

/-- The attribute ids that the specification lists for the capabilities value `x`, in
order: Repeat when `x` has CanRepeat (bit 7) or CanLoop (bit 8), Shuffle when it has
CanShuffle (bit 9), Scan when it has CanScan (bit 10). -/
def listed_attributes (x : Nat) : List Nat :=
  (if x.testBit 7 = true ∨ x.testBit 8 = true then [0x2] else []) ++
    (if x.testBit 9 = true then [0x3] else []) ++ (if x.testBit 10 = true then [0x4] else [])

/-- The setting values that the specification lists for the attribute `a` under the
capabilities value `x`: for Repeat with CanRepeat or CanLoop, Off, then Single when
CanRepeat, then Group when CanLoop; for Shuffle with CanShuffle, Off and Group; for Scan
with CanScan, Off and Group; `none` when the capability is missing or `a` is none of
the three attributes. -/
def listed_values (x a : Nat) : Option (List Nat) :=
  if a = 0x2 then
    if x.testBit 7 = true ∨ x.testBit 8 = true then
      some ([0x1] ++ (if x.testBit 7 = true then [0x2] else []) ++
        (if x.testBit 8 = true then [0x4] else []))
    else none
  else if a = 0x3 then
    if x.testBit 9 = true then some [0x1, 0x3] else none
  else if a = 0x4 then
    if x.testBit 10 = true then some [0x1, 0x3] else none
  else none

/-- A vendor-dependent command frame of `size` bytes with the company id 0x001958 that
carries, where `handle_metadata_pdu` reads it (from byte 27 on), a single-packet
metadata header with the given `pdu_id` and parameter length bytes, then `params`, then
zero bytes. -/
def padded_frame (pdu_id len_hi len_lo : Nat) (params : List Nat) (size : Nat) : List Nat :=
  let frame := [0x00, 0x11, 0x0E, 0x00, 0x48, 0x00, 0x00, 0x19, 0x58] ++ List.replicate 18 0 ++
    [pdu_id, 0x00, len_hi, len_lo] ++ params
  frame ++ List.replicate (size - frame.length) 0

/-- A session whose player has the four capabilities CanRepeat, CanLoop, CanShuffle and
CanScan. -/
def capable_control : control := { control_init 0 with mpris_caps := 0x780 }

/-- What the peer reads of an answer of `handle_metadata_pdu`: the AVRCP code, the field
parameter_length and the first `n` body bytes. -/
def answer (o : byte_order) (n : Nat) (st : pdu_state) : Nat × Nat × List Nat :=
  (get_code o st.buf 3, metadata_parameter_length o st.buf 3, metadata_body st.buf 3 n)

/-- Whether the capabilities value `x` supports the attribute `a`, in the words of the
specification: Repeat needs CanRepeat (bit 7) or CanLoop (bit 8), Shuffle needs
CanShuffle (bit 9), Scan needs CanScan (bit 10). -/
def supports (x a : Nat) : Prop :=
  (a = 0x2 ∧ (x.testBit 7 = true ∨ x.testBit 8 = true)) ∨ (a = 0x3 ∧ x.testBit 9 = true) ∨
    (a = 0x4 ∧ x.testBit 10 = true)

instance (x a : Nat) : Decidable (supports x a) := by
  unfold supports; infer_instance

/-- The player state after the accepted pair (`a`, `v`) in the words of the
specification; `none` for a pair that the specification does not list. -/
def state_after_pair (ctl : control) (a v : Nat) : Option control :=
  if a = 0x2 ∧ v = 0x1 then
    some { ctl with mpris_repeat_state := false, mpris_endless_state := false }
  else if a = 0x2 ∧ v = 0x2 then
    some { ctl with mpris_repeat_state := true, mpris_endless_state := false }
  else if a = 0x2 ∧ v = 0x4 then
    some { ctl with mpris_repeat_state := false, mpris_endless_state := true }
  else if a = 0x3 ∧ v = 0x1 then some { ctl with mpris_shuffle_state := false }
  else if a = 0x3 ∧ v = 0x3 then some { ctl with mpris_shuffle_state := true }
  else if a = 0x4 then some ctl
  else none

/-- The loop state of SET_PLAYER_SETTING_VALUE at the pair (Repeat, Single) that heads
the body 01 02 02, on a player with every capability. -/
def repeat_single_state : set_state :=
  { i := 0,
    st := { ctl := capable_control, buf := fill [] (padded_frame 0x14 0x00 0x03 [1, 2, 2] 64),
            out := [] } }

/-- The state in which `handle_metadata_pdu` finds the frame `packet` on the session
`ctl`, the buffer having held zeros before. -/
def pdu_in (ctl : control) (packet : List Nat) : pdu_state :=
  { ctl := ctl, buf := fill [] packet, out := [] }

/-- The eleven PDU ids that the specification defines: 0x10 to 0x18, 0x20 and 0x30. -/
def defined_pdu_ids : List Nat :=
  [0x10, 0x11, 0x12, 0x13, 0x14, 0x15, 0x16, 0x17, 0x18, 0x20, 0x30]

/-- A vendor-dependent command frame whose metadata header, where `handle_metadata_pdu`
reads it, has the undefined pdu_id 0x99 and the packet type Start. -/
def fragment_frame : List Nat :=
  [0x00, 0x11, 0x0E, 0x00, 0x48, 0x00, 0x00, 0x19, 0x58] ++ List.replicate 18 0 ++
    [0x99, 0x01, 0x00, 0x00]

/-! ## The frame as a record of fields -/

/-- The reserved bit-field `_hdr0` of struct avrcp_header. -/
def avrcp_hdr0 (o : byte_order) : bitfield :=
  match o with
  | .little => place o 4 4
  | .big => place o 0 4

/-- The C function `ntohs`, on a host-order value. -/
def ntohs (o : byte_order) (v : Nat) : Nat :=
  match o with
  | .little => (v % 256) * 256 + v / 256 % 256
  | .big => v % 65536

/-- The record struct avctp_header, as the values of its fields; `pid` is the value of
the `uint16_t` field in host byte order. -/
structure avctp_header where
  ipid : Nat
  cr : Nat
  packet_type : Nat
  transaction : Nat
  pid : Nat
deriving DecidableEq

/-- The record struct avrcp_header, as the values of its fields. -/
structure avrcp_header where
  code : Nat
  _hdr0 : Nat
  subunit_id : Nat
  subunit_type : Nat
  opcode : Nat
deriving DecidableEq

/-- A packet as `control_cb` looks at it: the two headers laid over the first six bytes
and the operands after them. -/
structure frame where
  avctp : avctp_header
  avrcp : avrcp_header
  operands : List Nat
deriving DecidableEq

/-- The fields that `control_cb` reads through `avctp = (struct avctp_header *) buf`,
`avrcp = (struct avrcp_header *) (buf + sizeof(struct avctp_header))` and `operands`. -/
def decode (o : byte_order) (b : List Nat) : frame :=
  { avctp :=
      { ipid := (avctp_ipid o).get (rd b 0),
        cr := (avctp_cr o).get (rd b 0),
        packet_type := (avctp_packet_type o).get (rd b 0),
        transaction := (avctp_transaction o).get (rd b 0),
        pid := load16 o b 1 },
    avrcp :=
      { code := (avrcp_code o).get (rd b 3),
        _hdr0 := (avrcp_hdr0 o).get (rd b 3),
        subunit_id := (avrcp_subunit_id o).get (rd b 4),
        subunit_type := (avrcp_subunit_type o).get (rd b 4),
        opcode := rd b 5 },
    operands := b.drop 6 }

/-- The bytes of a frame built as `avctp_send_passthrough` builds one: the buffer is
cleared, then every field of the two headers is assigned, then the operands follow. -/
def encode (o : byte_order) (f : frame) : List Nat :=
  let b0 := (avctp_ipid o).set 0 f.avctp.ipid
  let b0 := (avctp_cr o).set b0 f.avctp.cr
  let b0 := (avctp_packet_type o).set b0 f.avctp.packet_type
  let b0 := (avctp_transaction o).set b0 f.avctp.transaction
  let b3 := (avrcp_code o).set 0 f.avrcp.code
  let b3 := (avrcp_hdr0 o).set b3 f.avrcp._hdr0
  let b4 := (avrcp_subunit_id o).set 0 f.avrcp.subunit_id
  let b4 := (avrcp_subunit_type o).set b4 f.avrcp.subunit_type
  store16 o [b0 % 256, 0, 0, b3 % 256, b4 % 256, f.avrcp.opcode % 256] 1 f.avctp.pid ++
    f.operands

/-- The fields of a decoded frame that the specification names: transaction,
packet_type, cr, ipid, pid, then code, subunit_type, subunit_id, opcode, then the
operands. -/
def named_fields (f : frame) : List Nat × List Nat :=
  ([f.avctp.transaction, f.avctp.packet_type, f.avctp.cr, f.avctp.ipid, f.avctp.pid,
    f.avrcp.code, f.avrcp.subunit_type, f.avrcp.subunit_id, f.avrcp.opcode], f.operands)

/-! ## Setting up and taking down a connection -/

/-- The statement `control->key_quirks[op] |= QUIRK_NO_RELEASE`. -/
def set_no_release (key_quirks : List Nat) (op : Nat) : List Nat :=
  wr key_quirks op (rd key_quirks op ||| QUIRK_NO_RELEASE)

/-- The function `init_uinput`; `name` is the name of the device and `fd` the value that
`uinput_create` returns, negative when it fails. -/
def init_uinput (ctl : control) (name : String) (fd : Int) : control :=
  let ctl :=
    if name = "Nokia CK-20W" then
      { ctl with
        key_quirks :=
          set_no_release (set_no_release (set_no_release (set_no_release ctl.key_quirks
            FORWARD_OP) BACKWARD_OP) PLAY_OP) PAUSE_OP }
    else ctl
  { ctl with uinput := fd }

/-- The function `avctp_connect_cb` for the channel `chan`; `err` tells whether the
argument `err` is set, `gerr` whether `bt_io_get` fails, `imtu` is the MTU that it
reports and `watch` the id that `g_io_add_watch` returns. -/
def avctp_connect_cb (ctl : control) (chan : Nat) (err gerr : Bool) (name : String)
    (fd : Int) (imtu watch : Nat) : control × List effect :=
  if err then avctp_set_state ctl .AVCTP_STATE_DISCONNECTED
  else if gerr then avctp_set_state ctl .AVCTP_STATE_DISCONNECTED
  else
    let ctl := if ctl.io = none then { ctl with io := some chan } else ctl
    let ctl := init_uinput ctl name fd
    let r := avctp_set_state ctl .AVCTP_STATE_CONNECTED
    ({ r.1 with mtu := imtu, io_id := watch }, r.2)

/-- The function `auth_cb`; `denied` tells whether `derr` is set, `accepted` whether
`bt_io_accept` succeeds. -/
def auth_cb (ctl : control) (denied accepted : Bool) : control × List effect :=
  let r : control × List effect :=
    if ctl.io_id ≠ 0 then ({ ctl with io_id := 0 }, [effect.source_remove ctl.io_id])
    else (ctl, [])
  if denied then
    let d := avctp_set_state r.1 .AVCTP_STATE_DISCONNECTED
    (d.1, r.2 ++ d.2)
  else if ¬ accepted then
    let d := avctp_set_state r.1 .AVCTP_STATE_DISCONNECTED
    (d.1, r.2 ++ d.2)
  else r

/-- The label `drop:` of `avctp_confirm_cb`; `ctl` is the local variable `control`, `none`
while it is `NULL`. -/
def avctp_confirm_drop (ctl : Option control) (chan : Nat) :
    Option control × List effect :=
  let shut : List effect :=
    match ctl with
    | none => [effect.channel_shutdown chan]
    | some c => if c.io = none then [effect.channel_shutdown chan] else []
  match ctl with
  | none => (none, shut)
  | some c =>
    let d := avctp_set_state c .AVCTP_STATE_DISCONNECTED
    (some d.1, shut ++ d.2)

/-- The function `avctp_confirm_cb` for the new channel `chan`; `get_err` tells whether
`bt_io_get` fails, `dev_control` is the control record of the device that
`manager_get_device` finds, after `btd_device_add_uuid` when it had none (`none` without
device or without record), `auth` the value that `audio_device_request_authorization`
returns and `watch` the id that `g_io_add_watch` returns.  The result is the record of
the device afterwards. -/
def avctp_confirm_cb (dev_control : Option control) (chan : Nat) (get_err : Bool)
    (auth : Int) (watch : Nat) : Option control × List effect :=
  if get_err then (dev_control, [effect.channel_shutdown chan])
  else
    match dev_control with
    | none => avctp_confirm_drop none chan
    | some c =>
      if c.io ≠ none then avctp_confirm_drop (some c) chan
      else
        let r := avctp_set_state c .AVCTP_STATE_CONNECTING
        let c := { r.1 with io := some chan }
        if auth < 0 then
          let d := avctp_confirm_drop (some c) chan
          (d.1, r.2 ++ d.2)
        else (some { c with io_id := watch }, r.2)

/-- The function `avrcp_connect`; `io` is the channel that `bt_io_connect` returns,
`none` when it sets `err`.  The third component is the return value.  Disconnected is
the first value of the enum, so `control->state > AVCTP_STATE_DISCONNECTED` says that the
state is not Disconnected. -/
def avrcp_connect (ctl : control) (io : Option Nat) : control × List effect × Bool :=
  if ctl.state ≠ .AVCTP_STATE_DISCONNECTED then (ctl, [], true)
  else
    let r := avctp_set_state ctl .AVCTP_STATE_CONNECTING
    match io with
    | none =>
      let d := avctp_set_state r.1 .AVCTP_STATE_DISCONNECTED
      (d.1, r.2 ++ d.2, false)
    | some chan => ({ r.1 with io := some chan }, r.2, true)

/-- The function `avrcp_disconnect`, for a device that has a control record. -/
def avrcp_disconnect (ctl : control) : control × List effect :=
  if ctl.io = none then (ctl, [])
  else avctp_set_state ctl .AVCTP_STATE_DISCONNECTED

/-- The end of `control_cb` from `ret = write(sock, buf, packet_size)` on: `ret` takes
the value `write_ret` that `write` returns, negative when the write fails, and is not
read again; the call returns `TRUE`. -/
def control_cb_after_write (r : cb_result) (write_ret : Int) : cb_result :=
  let _ret := write_ret
  { r with ret := true }

/-- One call of one of the functions that act on a session record, with whatever the
outside world answers. -/
inductive session_step : control → control → Prop where
  | connect (c : control) (io : Option Nat) : session_step c (avrcp_connect c io).1
  | confirm (c c1 : control) (chan : Nat) (get_err : Bool) (auth : Int) (watch : Nat)
      (h : (avctp_confirm_cb (some c) chan get_err auth watch).1 = some c1) :
      session_step c c1
  | auth (c : control) (denied accepted : Bool) : session_step c (auth_cb c denied accepted).1
  | connected (c : control) (chan : Nat) (err gerr : Bool) (name : String) (fd : Int)
      (imtu watch : Nat) :
      session_step c (avctp_connect_cb c chan err gerr name fd imtu watch).1
  | data (o : byte_order) (fuel : Nat) (c : control) (cond_err : Bool) (stack : List Nat)
      (rx : Option (List Nat)) (r : cb_result)
      (h : control_cb o fuel c cond_err stack rx = some r) : session_step c r.ctl
  | disconnect (c : control) : session_step c (avrcp_disconnect c).1

/-- The session records that calls of `avrcp_connect`, `avctp_confirm_cb`, `auth_cb`,
`avctp_connect_cb`, `control_cb` and `avrcp_disconnect` reach from the record that
`control_init` makes. -/
inductive reachable (uuid16 : Nat) : control → Prop where
  | init : reachable uuid16 (control_init uuid16)
  | step (c c1 : control) (h : reachable uuid16 c) (s : session_step c c1) :
      reachable uuid16 c1

/-! ## Sending a key to the peer -/

/-- The outcome of one call of `avctp_send_passthrough`: the return value, the static
counter `transaction` afterwards and the buffers handed to `write`, in order. -/
structure passthrough_result where
  ret : Int
  transaction : Nat
  written : List (List Nat)
deriving DecidableEq, Repr

/-- The function `avctp_send_passthrough`; `transaction` is the value of the static
`uint8_t` counter at the call, `w1` and `w2` are the values that the first and the second
`write` return. -/
def avctp_send_passthrough (o : byte_order) (transaction op : Nat) (w1 w2 : Int) :
    passthrough_result :=
  let buf := List.replicate (AVCTP_HEADER_LENGTH + AVRCP_HEADER_LENGTH + 2) 0
  let avrcp := AVCTP_HEADER_LENGTH
  let operands := AVCTP_HEADER_LENGTH + AVRCP_HEADER_LENGTH
  let buf := wr buf 0 ((avctp_transaction o).set (rd buf 0) transaction)
  let transaction := (transaction + 1) % 256
  let buf := wr buf 0 ((avctp_packet_type o).set (rd buf 0) AVCTP_PACKET_SINGLE)
  let buf := set_cr o buf AVCTP_COMMAND
  let buf := store16 o buf 1 (htons o AV_REMOTE_SVCLASS_ID)
  let buf := set_code o buf avrcp CTYPE_CONTROL
  let buf := wr buf (avrcp + 1) ((avrcp_subunit_type o).set (rd buf (avrcp + 1)) SUBUNIT_PANEL)
  let buf := wr buf (avrcp + 2) OP_PASSTHROUGH
  let buf := wr buf operands (op % 256 &&& 0x7f)
  let buf := wr buf (operands + 1) 0
  if w1 < 0 then { ret := w1, transaction := transaction, written := [buf] }
  else
    let buf2 := wr buf 0 ((avctp_transaction o).set (rd buf 0) transaction)
    let transaction := (transaction + 1) % 256
    let buf2 := wr buf2 operands (rd buf2 operands ||| 0x80)
    { ret := w2, transaction := transaction, written := [buf, buf2] }

/-- The state, the transport and the key sink of a session record. -/
def session_of (c : control) : avctp_state_t × Option Nat × Int := (c.state, c.io, c.uinput)

/-- A session in state Connected, with the transport 1, the watch 1 and the key sink 5,
whose player has the four capabilities CanRepeat, CanLoop, CanShuffle and CanScan. -/
def connected_session : control :=
  { capable_control with state := .AVCTP_STATE_CONNECTED, io := some 1, io_id := 1, uinput := 5,
                         mtu := 672 }

/-- A vendor-dependent Status frame of 64 bytes with the company id 0x001958 that carries
the GET_CAPABILITIES PDU where the specification places it: the metadata header
`10 00 00 01` in operands[3..7] (bytes 9 to 12) and the capability id 3 in operands[7]
(byte 13); zero bytes follow. -/
def wire_format_frame : List Nat :=
  [0x00, 0x11, 0x0E, 0x01, 0x48, 0x00, 0x00, 0x19, 0x58, 0x10, 0x00, 0x00, 0x01, 0x03] ++
    List.replicate 50 0

/-- A UNITINFO Status command of eight bytes. -/
def unit_info_frame : List Nat := [0x00, 0x11, 0x0E, 0x01, 0x48, 0x30, 0xFF, 0xFF]

/-- The session after `avrcp_connect` has opened the channel 1 and `avctp_connect_cb` has
run for it with an empty device name, `uinput_create` returning `fd`, the MTU 672 and
the watch 1. -/
def session_after_connect (fd : Int) : control :=
  (avctp_connect_cb (avrcp_connect (control_init 0) (some 1)).1 1 false false "" fd 672 1).1

/-! ## The player state -/

/-- The predicate of the specification on the player state: repeat and endless are not
both true. -/
def repeat_exclusive (c : control) : Prop :=
  ¬ (c.mpris_repeat_state = true ∧ c.mpris_endless_state = true)

instance (c : control) : Decidable (repeat_exclusive c) := by
  unfold repeat_exclusive; infer_instance

/-- The call SetProperty(`property`, `value`) with a boolean value. -/
def set_boolean (ctl : control) (property : String) (value : Bool) : set_property_result :=
  control_set_property ctl [.string property, .variant (.boolean value)]

/-- The call SetProperty(`property`, `value`) with a 32-bit unsigned value. -/
def set_uint32 (ctl : control) (property : String) (value : Nat) : set_property_result :=
  control_set_property ctl [.string property, .variant (.uint32 value)]

/-! ## What a reply keeps of the frame -/

/-- The bits of the two headers of a frame that are neither cr, ipid nor code: the
transaction label, packet_type, the two bytes of pid, the reserved bits `_hdr0`, the byte
of subunit_type and subunit_id, and opcode. -/
def header_rest (o : byte_order) (buf : List Nat) : List Nat :=
  [(avctp_transaction o).get (rd buf 0), (avctp_packet_type o).get (rd buf 0), rd buf 1,
   rd buf 2, (avrcp_hdr0 o).get (rd buf 3), rd buf 4, rd buf 5]

/-- The condition under which `control_cb` takes its UNITINFO / SUBUNITINFO branch, on the
fields of the frame received. -/
def unit_info_branch (o : byte_order) (b : List Nat) : Prop :=
  (decode o b).avctp.packet_type = AVCTP_PACKET_SINGLE ∧
  (decode o b).avctp.pid = htons o AV_REMOTE_SVCLASS_ID ∧
  (decode o b).avctp.cr = AVCTP_COMMAND ∧ (decode o b).avrcp.code = CTYPE_STATUS ∧
  ((decode o b).avrcp.opcode = OP_UNITINFO ∨ (decode o b).avrcp.opcode = OP_SUBUNITINFO)

instance (o : byte_order) (b : List Nat) : Decidable (unit_info_branch o b) := by
  unfold unit_info_branch; infer_instance

/-- The condition under which `control_cb` hands the frame received to
`handle_metadata_pdu`, on the fields of the frame. -/
def metadata_branch (o : byte_order) (b : List Nat) : Prop :=
  (decode o b).avctp.packet_type = AVCTP_PACKET_SINGLE ∧
  (decode o b).avctp.pid = htons o AV_REMOTE_SVCLASS_ID ∧
  (decode o b).avctp.cr = AVCTP_COMMAND ∧
  ((decode o b).avrcp.code = CTYPE_STATUS ∨ (decode o b).avrcp.code = CTYPE_CONTROL) ∧
  (decode o b).avrcp.subunit_type = SUBUNIT_PANEL ∧
  (decode o b).avrcp.opcode = OP_VENDORDEPENDENT ∧ 3 ≤ (decode o b).operands.length ∧
  (rd b 6 <<< 16) ||| (rd b 7 <<< 8) ||| rd b 8 = IEEEID_BTSIG

instance (o : byte_order) (b : List Nat) : Decidable (metadata_branch o b) := by
  unfold metadata_branch; infer_instance

/-! ## A metadata PDU as the wire carries it -/

/-- A vendor-dependent command frame of `size` bytes with the AVRCP code `code` and the
company id 0x001958 that carries a metadata PDU where the specification places it: the
header in operands[3..7] (pdu_id in byte 9, packet_type in byte 10, parameter_length, the
number of parameter bytes, most significant byte first in bytes 11 and 12) and the
parameters `params` from operands[7] (byte 13) on; zero bytes follow. -/
def wire_pdu_frame (code pdu_id packet_type : Nat) (params : List Nat) (size : Nat) :
    List Nat :=
  let frame := [0x00, 0x11, 0x0E, code, 0x48, 0x00, 0x00, 0x19, 0x58, pdu_id, packet_type,
    params.length / 256 % 256, params.length % 256] ++ params
  frame ++ List.replicate (size - frame.length) 0

/-- What the peer reads of a reply in that layout: the AVRCP code, parameter_length from
bytes 11 and 12, most significant byte first, and the first `n` bytes of the body, from
byte 13 on. -/
def wire_answer (o : byte_order) (n : Nat) (w : List Nat) : Nat × Nat × List Nat :=
  (get_code o w 3, 256 * rd w 11 + rd w 12, (w.drop 13).take n)

/-- What `control_cb` on the session `ctl` makes of the frame `packet`, the buffer having
held zeros: the answer as the peer reads it (`none` when nothing is written), the bytes 27
to 31 of the reply, where the code keeps its own metadata header and first parameter,
the player fields repeat, endless and shuffle afterwards, and the signals emitted. -/
def wire_exchange (o : byte_order) (fuel n : Nat) (ctl : control) (packet : List Nat) :
    Option (Option (Nat × Nat × List Nat) × Option (List Nat) × (Bool × Bool × Bool) ×
      List effect) :=
  (control_cb o fuel ctl false [] (some packet)).map
    (fun r => (r.written.map (wire_answer o n), r.written.map (fun w => (w.drop 27).take 5),
      (r.ctl.mpris_repeat_state, r.ctl.mpris_endless_state, r.ctl.mpris_shuffle_state),
      r.out))

/-! ## Lemmas on bytes and buffers -/

theorem length_wr (m : List Nat) (i v : Nat) : (wr m i v).length = m.length := by
  simp [wr]

theorem rd_wr (m : List Nat) (i v j : Nat) :
    rd (wr m i v) j = if i = j ∧ i < m.length then v % 256 else rd m j := by
  unfold rd wr
  rw [List.getD_eq_getElem?_getD, List.getD_eq_getElem?_getD, List.getElem?_set]
  by_cases h : i = j
  · subst h
    by_cases h2 : i < m.length
    · simp [h2]
    · have h3 : m[i]? = none := by simp; omega
      simp [h2, h3]
  · simp [h]

theorem rd_wr_ne (m : List Nat) (i v j : Nat) (h : i ≠ j) : rd (wr m i v) j = rd m j := by
  rw [rd_wr]; simp [h]

theorem rd_wr_self (m : List Nat) (i v : Nat) (h : i < m.length) :
    rd (wr m i v) i = v % 256 := by
  rw [rd_wr]; simp [h]

theorem rd_take (m : List Nat) (n i : Nat) (h : i < n) : rd (m.take n) i = rd m i := by
  unfold rd
  simp [List.getD_eq_getElem?_getD, List.getElem?_take, h]

theorem rd_drop (m : List Nat) (n i : Nat) : rd (m.drop n) i = rd m (n + i) := by
  unfold rd
  simp [List.getD_eq_getElem?_getD, List.getElem?_drop]

theorem length_fill (stack data : List Nat) : (fill stack data).length = BUF_SIZE := by
  simp only [fill, List.length_take, List.length_append, List.length_replicate,
    List.length_map]
  omega

theorem rd_fill (stack data : List Nat) (i : Nat) (h : i < data.length)
    (h2 : data.length ≤ BUF_SIZE) : rd (fill stack data) i = rd data i % 256 := by
  unfold rd fill
  have h3 : i < BUF_SIZE := by omega
  rw [List.getD_eq_getElem?_getD, List.getD_eq_getElem?_getD, List.getElem?_take_of_lt h3,
    List.getElem?_append_left (by simp; omega), List.getElem?_map,
    List.getElem?_append_left h]
  cases hd : data[i]? with
  | none => simp
  | some x => simp

theorem rd_lt_of_is_bytes (m : List Nat) (h : is_bytes m) (i : Nat) : rd m i < 256 := by
  unfold rd
  rw [List.getD_eq_getElem?_getD]
  cases hi : m[i]? with
  | none => simp
  | some x =>
    simp only [Option.getD_some]
    exact h x (List.getElem?_mem hi)

theorem is_bytes_wr (m : List Nat) (h : is_bytes m) (i v : Nat) : is_bytes (wr m i v) := by
  intro b hb
  unfold wr at hb
  rcases List.mem_or_eq_of_mem_set hb with h1 | h1
  · exact h b h1
  · subst h1; omega

theorem is_bytes_fill (stack data : List Nat) : is_bytes (fill stack data) := by
  intro b hb
  unfold fill at hb
  have hb2 := List.mem_of_mem_take hb
  rcases List.mem_append.mp hb2 with h1 | h1
  · rcases List.mem_map.mp h1 with ⟨x, _, hx⟩
    omega
  · have := (List.mem_replicate.mp h1).2
    omega

/-! ## Lemmas on header fields -/

theorem length_set_cr (o : byte_order) (b : List Nat) (v : Nat) :
    (set_cr o b v).length = b.length := by simp [set_cr, length_wr]

theorem length_set_ipid (o : byte_order) (b : List Nat) (v : Nat) :
    (set_ipid o b v).length = b.length := by simp [set_ipid, length_wr]

theorem length_set_code (o : byte_order) (b : List Nat) (a v : Nat) :
    (set_code o b a v).length = b.length := by simp [set_code, length_wr]

theorem code_get_set (o : byte_order) (b v : Nat) :
    (avrcp_code o).get ((avrcp_code o).set b v % 256) = v % 16 := by
  cases o <;> simp [avrcp_code, place, bitfield.get, bitfield.set] <;> omega

theorem get_code_set_code (o : byte_order) (b : List Nat) (a v : Nat) (h : a < b.length) :
    get_code o (set_code o b a v) a = v % 16 := by
  unfold get_code set_code
  rw [rd_wr_self _ _ _ h, code_get_set]

theorem get_code_take (o : byte_order) (b : List Nat) (n a : Nat) (h : a < n) :
    get_code o (b.take n) a = get_code o b a := by
  unfold get_code; rw [rd_take _ _ _ h]

theorem get_code_wr_ne (o : byte_order) (b : List Nat) (i v a : Nat) (h : i ≠ a) :
    get_code o (wr b i v) a = get_code o b a := by
  unfold get_code; rw [rd_wr_ne _ _ _ _ h]

/-! ## Lemmas on the dispatcher -/

theorem pid_test_iff (o : byte_order) (buf : List Nat) (h : is_bytes buf) :
    avctp_pid o buf ≠ htons o AV_REMOTE_SVCLASS_ID ↔ wire_pid buf ≠ 0x110E := by
  have h1 := rd_lt_of_is_bytes buf h 1
  have h2 := rd_lt_of_is_bytes buf h 2
  cases o <;> simp only [avctp_pid, load16, htons, AV_REMOTE_SVCLASS_ID, wire_pid, Nat.reduceAdd]
  all_goals omega

theorem company_id_eq (buf : List Nat) (h : is_bytes buf) :
    (rd buf 6 <<< 16) ||| (rd buf 7 <<< 8) ||| rd buf 8 = wire_company_id buf := by
  have h7 := rd_lt_of_is_bytes buf h 7
  have h8 := rd_lt_of_is_bytes buf h 8
  unfold wire_company_id
  generalize rd buf 6 = a at *
  generalize rd buf 7 = b at *
  generalize rd buf 8 = c at *
  have e1 : a <<< 16 ||| b <<< 8 = 2 ^ 8 * (a * 256 + b) := by
    have := Nat.mul_add_lt_is_or (show b <<< 8 < 2 ^ 16 by rw [Nat.shiftLeft_eq]; omega) a
    rw [Nat.shiftLeft_eq a 16, Nat.mul_comm a (2 ^ 16), ← this, Nat.shiftLeft_eq]
    omega
  rw [e1, ← Nat.mul_add_lt_is_or (show c < 2 ^ 8 by omega)]
  omega

theorem cr_lt (o : byte_order) (b : Nat) : (avctp_cr o).get b < 2 := by
  cases o <;> simp [avctp_cr, place, bitfield.get] <;> omega

theorem get_code_set_cr (o : byte_order) (b : List Nat) (v a : Nat) (h : a ≠ 0) :
    get_code o (set_cr o b v) a = get_code o b a := by
  unfold set_cr; exact get_code_wr_ne _ _ _ _ _ (Ne.symm h)

theorem get_code_set_ipid (o : byte_order) (b : List Nat) (v a : Nat) (h : a ≠ 0) :
    get_code o (set_ipid o b v) a = get_code o b a := by
  unfold set_ipid; exact get_code_wr_ne _ _ _ _ _ (Ne.symm h)

theorem outcome_of_reply (o : byte_order) (ctl : control) (b : List Nat) (n : Nat)
    (out : List effect) (h : 6 ≤ n) :
    outcome_of o (reply ctl b n out) = .reply (get_code o b 3) := by
  simp only [outcome_of, reply, AVCTP_HEADER_LENGTH]
  rw [get_code_take _ _ _ _ (by omega)]

theorem dispatch_outcome (o : byte_order) (fuel : Nat) (ctl : control) (buf : List Nat)
    (n k : Nat) (hb : is_bytes buf) (hl : buf.length = BUF_SIZE) (hn : 6 ≤ n) :
    (control_cb_dispatch o fuel ctl buf n k).map (outcome_of o) = ladder o fuel ctl buf k := by
  have hcr := cr_lt o (rd buf 0)
  have hl3 : 3 < buf.length := by rw [hl]; decide
  unfold control_cb_dispatch ladder
  simp only [pid_test_iff o buf hb, company_id_eq buf hb, AVCTP_HEADER_LENGTH,
    AVRCP_HEADER_LENGTH, get_code, avrcp_opcode]
  simp only [Nat.reduceAdd, OP_PASSTHROUGH, OP_UNITINFO, OP_SUBUNITINFO, OP_VENDORDEPENDENT,
    IEEEID_BTSIG, AVCTP_RESPONSE, AVCTP_COMMAND, ge_iff_le]
  have hlen : ∀ v, 3 < (set_cr o buf v).length := by
    intro v; rw [length_set_cr]; exact hl3
  have hlen2 : ∀ v w, 3 < (set_cr o (set_ipid o buf w) v).length := by
    intro v w; rw [length_set_cr, length_set_ipid]; exact hl3
  have hdrop : outcome_of o { ctl := ctl, ret := true, written := none, out := [] } = .drop := rfl
  have hk : ¬ (CTYPE_STATUS = CTYPE_CONTROL) := by decide
  split_ifs <;>
    simp_all [outcome_of_reply, get_code_set_code, get_code_wr_ne, CTYPE_NOT_IMPLEMENTED,
      CTYPE_REJECTED, CTYPE_ACCEPTED, CTYPE_STABLE, length_wr, length_set_code]
  cases handle_metadata_pdu o fuel { ctl := ctl, buf := set_cr o buf 1, out := [] } 3 with
  | none => rfl
  | some st => simp [outcome_of_reply _ _ _ _ _ hn, get_code]

theorem control_cb_eq_dispatch (o : byte_order) (fuel : Nat) (ctl : control)
    (stack packet : List Nat) (h : 6 ≤ packet.length) :
    control_cb o fuel ctl false stack (some packet) =
      control_cb_dispatch o fuel ctl (fill stack (packet.take BUF_SIZE))
        (packet.take BUF_SIZE).length ((packet.take BUF_SIZE).length - 6) := by
  have h6 : 6 ≤ (packet.take BUF_SIZE).length := by
    rw [List.length_take]; unfold BUF_SIZE; omega
  unfold control_cb
  simp only [AVCTP_HEADER_LENGTH, AVRCP_HEADER_LENGTH]
  rw [if_neg (by simp), if_neg (by omega), if_neg (by omega), if_neg (by omega)]
  congr 1

/-! ## The claims -/

/-- C1: for every received frame of at least 6 bytes, what the peer sees of `control_cb`
(no reply, or a reply and its AVRCP code) is what the seven-step ladder of the
specification gives, the first matching step winning; in the metadata step the reply
exists exactly when `handle_metadata_pdu` returns and carries the code it chose. -/
theorem C1_control_cb_follows_ladder (o : byte_order) (fuel : Nat) (ctl : control)
    (stack packet : List Nat) (h : 6 ≤ packet.length) :
    (control_cb o fuel ctl false stack (some packet)).map (outcome_of o) =
      ladder o fuel ctl (fill stack (packet.take BUF_SIZE))
        ((packet.take BUF_SIZE).length - 6) := by
  have h6 : 6 ≤ (packet.take BUF_SIZE).length := by
    rw [List.length_take]; unfold BUF_SIZE; omega
  rw [control_cb_eq_dispatch o fuel ctl stack packet h]
  exact dispatch_outcome o fuel ctl _ _ _ (is_bytes_fill _ _) (length_fill _ _) h6
theorem rd_frame (stack packet : List Nat) (i : Nat) (hb : is_bytes packet)
    (hi : i < packet.length) (hi2 : i < BUF_SIZE) :
    rd (fill stack (packet.take BUF_SIZE)) i = rd packet i := by
  rw [rd_fill _ _ _ (by rw [List.length_take]; omega) (by rw [List.length_take]; omega),
    rd_take _ _ _ hi2]
  exact Nat.mod_eq_of_lt (rd_lt_of_is_bytes packet hb i)

theorem wire_pid_frame (stack packet : List Nat) (hb : is_bytes packet)
    (h6 : 6 ≤ packet.length) :
    wire_pid (fill stack (packet.take BUF_SIZE)) = wire_pid packet := by
  unfold wire_pid
  rw [rd_frame _ _ 1 hb (by omega) (by decide), rd_frame _ _ 2 hb (by omega) (by decide)]

theorem rd_set_cr (o : byte_order) (b : List Nat) (v i : Nat) :
    rd (set_cr o b v) i =
      if 0 = i ∧ 0 < b.length then (avctp_cr o).set (rd b 0) v % 256 else rd b i := by
  unfold set_cr; rw [rd_wr]

theorem rd_set_ipid (o : byte_order) (b : List Nat) (v i : Nat) :
    rd (set_ipid o b v) i =
      if 0 = i ∧ 0 < b.length then (avctp_ipid o).set (rd b 0) v % 256 else rd b i := by
  unfold set_ipid; rw [rd_wr]

theorem rd_set_code (o : byte_order) (b : List Nat) (a v i : Nat) :
    rd (set_code o b a v) i =
      if a = i ∧ a < b.length then (avrcp_code o).set (rd b a) v % 256 else rd b i := by
  unfold set_code; rw [rd_wr]

theorem ipid_after_ipid_cr (o : byte_order) (x : Nat) :
    (avctp_ipid o).get ((avctp_cr o).set ((avctp_ipid o).set x 1 % 256) 1 % 256) = 1 := by
  cases o <;> simp [avctp_ipid, avctp_cr, place, bitfield.get, bitfield.set] <;> omega

theorem cr_after_set (o : byte_order) (x : Nat) :
    (avctp_cr o).get ((avctp_cr o).set x 1 % 256) = 1 := by
  cases o <;> simp [avctp_cr, place, bitfield.get, bitfield.set] <;> omega

/-- C2 (amended): for every received single-packet frame of at least 6 bytes whose pid is
not 0x110E, `control_cb` writes a reply that has ipid = 1 and AVRCP code Rejected. -/
theorem C2_single_frame_wrong_pid_rejected (o : byte_order) (fuel : Nat) (ctl : control)
    (stack packet : List Nat) (hb : is_bytes packet) (h6 : 6 ≤ packet.length)
    (hs : (avctp_packet_type o).get (rd packet 0) = AVCTP_PACKET_SINGLE)
    (hp : wire_pid packet ≠ 0x110E) :
    ∃ r w, control_cb o fuel ctl false stack (some packet) = some r ∧ r.written = some w ∧
      (avctp_ipid o).get (rd w 0) = 1 ∧ get_code o w 3 = CTYPE_REJECTED := by
  have h6t : 6 ≤ (packet.take BUF_SIZE).length := by
    rw [List.length_take]; unfold BUF_SIZE; omega
  have hl := length_fill stack (packet.take BUF_SIZE)
  have hl0 : 0 < (fill stack (packet.take BUF_SIZE)).length := by rw [hl]; decide
  have hl3 : 3 < (fill stack (packet.take BUF_SIZE)).length := by rw [hl]; decide
  rw [control_cb_eq_dispatch o fuel ctl stack packet h6]
  unfold control_cb_dispatch
  simp only [AVCTP_HEADER_LENGTH]
  rw [if_neg (by rw [rd_frame _ _ 0 hb (by omega) (by decide)]; simp [hs]),
    if_pos (by rw [pid_test_iff _ _ (is_bytes_fill _ _), wire_pid_frame _ _ hb h6]; exact hp)]
  refine ⟨_, _, rfl, rfl, ?_, ?_⟩
  · rw [rd_take _ _ _ (by omega), rd_set_code, if_neg (by simp), rd_set_cr,
      if_pos ⟨rfl, by rw [length_set_ipid]; exact hl0⟩, rd_set_ipid, if_pos ⟨rfl, hl0⟩]
    exact ipid_after_ipid_cr o _
  · rw [get_code_take _ _ _ _ (by omega), get_code_set_code _ _ _ _
      (by rw [length_set_cr, length_set_ipid]; exact hl3)]
    rfl

/-- Witness of C2 (amended): a single-packet frame with pid 0x110F. -/
theorem C2_single_frame_wrong_pid_rejected_witness :
    ∃ r w, control_cb .little 0 (control_init 0) false [] (some [0, 0x11, 0x0F, 0, 0x48, 0x7c]) =
        some r ∧ r.written = some w ∧
      (avctp_ipid .little).get (rd w 0) = 1 ∧ get_code .little w 3 = CTYPE_REJECTED :=
  C2_single_frame_wrong_pid_rejected .little 0 (control_init 0) [] [0, 0x11, 0x0F, 0, 0x48, 0x7c]
    (by decide) (by decide) (by decide) (by decide)

/-- C2 as stated fails: the frame 04 00 00 00 00 00 has 6 bytes and pid 0x0000, but its
packet type is Start, so the reply 06 00 00 08 00 00 has ipid = 0 and code
NotImplemented. -/
theorem C2_counterexample :
    is_bytes [4, 0, 0, 0, 0, 0] ∧ 6 ≤ [4, 0, 0, 0, 0, 0].length ∧
    wire_pid [4, 0, 0, 0, 0, 0] ≠ 0x110E ∧
    (control_cb .little 0 (control_init 0) false [] (some [4, 0, 0, 0, 0, 0])).map
        (fun r => r.written) = some (some [6, 0, 0, 8, 0, 0]) ∧
    (avctp_ipid .little).get (rd [6, 0, 0, 8, 0, 0] 0) = 0 ∧
    get_code .little [6, 0, 0, 8, 0, 0] 3 = CTYPE_NOT_IMPLEMENTED :=
  ⟨by decide, by decide, by decide, by rfl, by decide, by decide⟩

theorem length_scan_loop_head : scan_loop_head.length = 32 := rfl

theorem rd_scan_loop_head (i : Nat) (h : i < 32) :
    rd scan_loop_packet i = rd scan_loop_head i := by
  unfold rd scan_loop_packet
  rw [List.getD_eq_getElem?_getD, List.getD_eq_getElem?_getD,
    List.getElem?_append_left (by rw [length_scan_loop_head]; exact h)]

theorem rd_scan_loop_tail (i : Nat) (h : i < 512) :
    rd scan_loop_packet (32 + i) = ATTRIBUTE_SCAN := by
  unfold rd scan_loop_packet
  rw [List.getD_eq_getElem?_getD,
    List.getElem?_append_right (by rw [length_scan_loop_head]; omega),
    length_scan_loop_head, List.getElem?_replicate, if_pos (by omega)]
  rfl

theorem is_bytes_scan_loop_packet : is_bytes scan_loop_packet := by
  intro b hb
  unfold scan_loop_packet at hb
  rcases List.mem_append.mp hb with h1 | h1
  · have h2 : ∀ x ∈ scan_loop_head, x < 256 := by decide
    exact h2 b h1
  · rw [(List.mem_replicate.mp h1).2]; decide

theorem length_scan_loop_packet : scan_loop_packet.length = 544 := by
  rw [scan_loop_packet, List.length_append, length_scan_loop_head, List.length_replicate]

theorem rd_scan_loop_frame (stack : List Nat) (i : Nat) (h : i < 544) :
    rd (fill stack (scan_loop_packet.take BUF_SIZE)) i = rd scan_loop_packet i :=
  rd_frame stack scan_loop_packet i is_bytes_scan_loop_packet
    (by rw [length_scan_loop_packet]; exact h) (by unfold BUF_SIZE; omega)

theorem rd_scan_loop_buf (o : byte_order) (stack : List Nat) (i : Nat) (h0 : 0 < i)
    (h : i < 544) : rd (scan_loop_buf o stack) i = rd scan_loop_packet i := by
  unfold scan_loop_buf
  rw [rd_set_cr, if_neg (by omega), rd_scan_loop_frame stack i h]

theorem scan_loop_body (o : byte_order) (stack : List Nat) (i : Nat) (h : i < 256) :
    set_body o 3 { i := i, st := { ctl := scan_loop_control, buf := scan_loop_buf o stack, out := [] } } =
      { i := i, st := { ctl := scan_loop_control, buf := scan_loop_buf o stack, out := [] } } := by
  have h1 : metadata_param (scan_loop_buf o stack) 3 (2 * i + 1) = ATTRIBUTE_SCAN := by
    unfold metadata_param
    have e : metadata_params_ptr 3 + (2 * i + 1) = 32 + 2 * i := by
      simp only [metadata_params_ptr, metadata_ptr, AVRCP_HEADER_LENGTH, SIZEOF_METADATA_HEADER,
        METADATA_HEADER_LENGTH]
      omega
    rw [e, rd_scan_loop_buf o stack _ (by omega) (by omega), rd_scan_loop_tail _ (by omega)]
  have h2 : has scan_loop_control.mpris_caps MPRIS_CAN_SCAN = true := by decide
  unfold set_body
  simp only [h1, h2]
  simp [ATTRIBUTE_SCAN, ATTRIBUTE_REPEAT, ATTRIBUTE_SHUFFLE]

theorem scan_loop_count (o : byte_order) (stack : List Nat) :
    metadata_param (scan_loop_buf o stack) 3 0 = 0xFF := by
  unfold metadata_param
  have e : metadata_params_ptr 3 + 0 = 31 := by decide
  rw [e, rd_scan_loop_buf o stack _ (by omega) (by omega), rd_scan_loop_head _ (by omega)]
  rfl

theorem scan_loop_never_ends (o : byte_order) (stack : List Nat) (fuel : Nat) :
    ∀ i, i < 256 →
      set_loop o 3 fuel
        { i := i, st := { ctl := scan_loop_control, buf := scan_loop_buf o stack, out := [] } } =
        none := by
  induction fuel with
  | zero => intro i _; rfl
  | succ n ih =>
    intro i hi
    unfold set_loop
    simp only [scan_loop_count, scan_loop_body o stack i hi]
    rw [if_pos (by omega)]
    exact ih _ (Nat.mod_lt _ (by decide))

theorem scan_loop_handle (o : byte_order) (stack : List Nat) (fuel : Nat) :
    handle_metadata_pdu o fuel
      { ctl := scan_loop_control, buf := scan_loop_buf o stack, out := [] } 3 = none := by
  have r27 : rd (scan_loop_buf o stack) 27 = 0x14 := by
    rw [rd_scan_loop_buf o stack _ (by omega) (by omega), rd_scan_loop_head _ (by omega)]; rfl
  have r28 : rd (scan_loop_buf o stack) 28 = 0 := by
    rw [rd_scan_loop_buf o stack _ (by omega) (by omega), rd_scan_loop_head _ (by omega)]; rfl
  have r29 : rd (scan_loop_buf o stack) 29 = 1 := by
    rw [rd_scan_loop_buf o stack _ (by omega) (by omega), rd_scan_loop_head _ (by omega)]; rfl
  have r30 : rd (scan_loop_buf o stack) 30 = 1 := by
    rw [rd_scan_loop_buf o stack _ (by omega) (by omega), rd_scan_loop_head _ (by omega)]; rfl
  have hpt : (metadata_packet_type o).get 0 = AVCTP_PACKET_SINGLE := by cases o <;> decide
  have hlen : ¬ metadata_parameter_length o (scan_loop_buf o stack) 3 < 1 := by
    have e : metadata_ptr 3 + 2 = 29 := by decide
    unfold metadata_parameter_length
    rw [e]
    cases o <;> simp only [load16, r29, r30] <;> omega
  have hid : metadata_pdu_id (scan_loop_buf o stack) 3 = SET_PLAYER_SETTING_VALUE := by
    have e : metadata_ptr 3 = 27 := by decide
    unfold metadata_pdu_id
    rw [e, r27]; decide
  have e28 : metadata_ptr 3 + 1 = 28 := by decide
  unfold handle_metadata_pdu
  simp only [e28, r28, hpt, hid]
  simp only [ne_eq, not_true_eq_false, ↓reduceIte, set_player_setting_value, hlen,
    scan_loop_never_ends o stack fuel 0 (by decide)]
  rw [if_neg (by decide), if_neg (by decide), if_neg (by decide), if_neg (by decide)]

/-- C3 fails on the code: for the frame `scan_loop_packet`, a single-packet command of 544
bytes, `control_cb` never reaches its `write`, whatever the step budget, byte order and
prior content of the buffer: the loop of `case SET_PLAYER_SETTING_VALUE` does not
end. -/
theorem C3_no_reply_to_set_with_count_255 (o : byte_order) (stack : List Nat) (fuel : Nat) :
    control_cb o fuel scan_loop_control false stack (some scan_loop_packet) = none := by
  have hb := is_bytes_scan_loop_packet
  have r : ∀ i, i < 32 → rd (fill stack (scan_loop_packet.take BUF_SIZE)) i =
      rd scan_loop_head i := by
    intro i hi
    rw [rd_scan_loop_frame stack i (by omega), rd_scan_loop_head i hi]
  rw [control_cb_eq_dispatch o fuel _ stack _ (by rw [length_scan_loop_packet]; omega)]
  have hlen : (scan_loop_packet.take BUF_SIZE).length = 544 := by
    rw [List.length_take, length_scan_loop_packet]; decide
  unfold control_cb_dispatch
  simp only [pid_test_iff o _ (is_bytes_fill _ _), company_id_eq _ (is_bytes_fill _ _),
    wire_pid, wire_company_id, get_code, avrcp_opcode, AVCTP_HEADER_LENGTH,
    AVRCP_HEADER_LENGTH, Nat.reduceAdd, hlen]
  rw [r 0 (by omega), r 1 (by omega), r 2 (by omega), r 3 (by omega), r 4 (by omega),
    r 5 (by omega), r 6 (by omega), r 7 (by omega), r 8 (by omega)]
  have hh := scan_loop_handle o stack fuel
  simp only [scan_loop_buf, AVCTP_RESPONSE] at hh
  cases o <;> simp [hh, scan_loop_head, rd, avctp_packet_type, avctp_cr, avrcp_code,
    avrcp_subunit_type, place, bitfield.get, AVCTP_PACKET_SINGLE, AVCTP_COMMAND,
    CTYPE_CONTROL, CTYPE_STATUS, SUBUNIT_PANEL, OP_PASSTHROUGH, OP_UNITINFO, OP_SUBUNITINFO,
    OP_VENDORDEPENDENT, IEEEID_BTSIG, AVCTP_RESPONSE]

theorem and_0x80_ne_zero (b : Nat) : (b &&& 0x80 ≠ 0) ↔ b.testBit 7 = true := by
  have h := Nat.and_two_pow b 7
  have e : (0x80 : Nat) = 2 ^ 7 := by norm_num
  rw [e, h]
  cases b.testBit 7 <;> simp

theorem panel_loop_key_map (ctl : control) (b : Nat) (pressed : Int) :
    panel_loop ctl b pressed key_map =
      match mapped_key (b &&& 0x7F) with
      | none => []
      | some key =>
        if rd ctl.key_quirks (b &&& 0x7F) &&& QUIRK_NO_RELEASE ≠ 0 then
          if pressed = 0 then []
          else send_key ctl.uinput key 1 ++ send_key ctl.uinput key 0
        else send_key ctl.uinput key pressed := by
  simp only [key_map, panel_loop, PLAY_OP, STOP_OP, PAUSE_OP, FORWARD_OP, BACKWARD_OP,
    REWIND_OP, FAST_FORWARD_OP]
  generalize b &&& 0x7F = op
  by_cases h1 : op = 0x44
  · subst h1; simp [mapped_key]
  by_cases h2 : op = 0x45
  · subst h2; simp [mapped_key]
  by_cases h3 : op = 0x46
  · subst h3; simp [mapped_key]
  by_cases h4 : op = 0x4b
  · subst h4; simp [mapped_key]
  by_cases h5 : op = 0x4c
  · subst h5; simp [mapped_key]
  by_cases h6 : op = 0x48
  · subst h6; simp [mapped_key]
  by_cases h7 : op = 0x49
  · subst h7; simp [mapped_key]
  simp [mapped_key, h1, h2, h3, h4, h5, h6, h7]

/-- C4: on a session with an open key sink and no NoRelease quirk for the key, a
passthrough operand byte `b` whose low 7 bits are one of the seven mapped opcodes makes
`handle_panel_passthrough` emit one key event for the mapped host key, pressed exactly
when bit 7 of `b` is 0, then one sync event; any other byte makes it emit nothing. -/
theorem C4_passthrough_emits_mapped_key (ctl : control) (operands : List Nat)
    (operand_count : Nat) (hcount : 0 < operand_count) (hopen : 0 ≤ ctl.uinput)
    (hquirk : rd ctl.key_quirks (rd operands 0 &&& 0x7F) &&& QUIRK_NO_RELEASE = 0) :
    handle_panel_passthrough ctl operands operand_count =
      match mapped_key (rd operands 0 &&& 0x7F) with
      | some key => key_report ctl.uinput key (!(rd operands 0).testBit 7)
      | none => [] := by
  unfold handle_panel_passthrough
  rw [if_neg (by omega), panel_loop_key_map]
  cases hk : mapped_key (rd operands 0 &&& 0x7F) with
  | none => rfl
  | some key =>
    simp only [hquirk, ne_eq, not_true_eq_false, ↓reduceIte, send_key, send_event, key_report]
    rw [if_neg (by omega)]
    by_cases h7 : (rd operands 0).testBit 7 = true
    · have := (and_0x80_ne_zero (rd operands 0)).mpr h7
      simp [h7, this]
    · have h8 : ¬ (rd operands 0 &&& 0x80 ≠ 0) := fun h => h7 ((and_0x80_ne_zero _).mp h)
      simp only [ne_eq, not_not] at h8
      simp [h7, h8]

/-- Witness of C4: the operands 44 00 give PLAYCD pressed, then SYN. -/
theorem C4_passthrough_emits_mapped_key_witness :
    handle_panel_passthrough { control_init 0 with uinput := 5 } [0x44, 0x00] 2 =
      [effect.uinput_write 5 .EV_KEY .KEY_PLAYCD 1, effect.uinput_write 5 .EV_SYN .SYN_REPORT 0] :=
  C4_passthrough_emits_mapped_key { control_init 0 with uinput := 5 } [0x44, 0x00] 2
    (by decide) (by decide) (by decide)

/-- C5 (amended): on a session with an open key sink, for every mapped key whose quirk
entry has NoRelease set, an operand with bit 7 clear makes `handle_panel_passthrough`
emit the key pressed, a sync event, the key released and a sync event; an operand with
bit 7 set makes it emit nothing. -/
theorem C5_no_release_press_and_release (ctl : control) (operands : List Nat)
    (operand_count : Nat) (key : input_code) (hcount : 0 < operand_count)
    (hopen : 0 ≤ ctl.uinput) (hkey : mapped_key (rd operands 0 &&& 0x7F) = some key)
    (hquirk : rd ctl.key_quirks (rd operands 0 &&& 0x7F) &&& QUIRK_NO_RELEASE ≠ 0) :
    ((rd operands 0).testBit 7 = false →
      handle_panel_passthrough ctl operands operand_count =
        key_report ctl.uinput key true ++ key_report ctl.uinput key false) ∧
    ((rd operands 0).testBit 7 = true →
      handle_panel_passthrough ctl operands operand_count = []) := by
  have hneg : ¬ ctl.uinput < 0 := by omega
  unfold handle_panel_passthrough
  rw [if_neg (by omega), panel_loop_key_map, hkey]
  simp only [hquirk, ne_eq, not_false_eq_true, ↓reduceIte, send_key, send_event, key_report,
    hneg]
  constructor
  · intro h7
    have h8 : ¬ (rd operands 0 &&& 0x80 ≠ 0) := by
      intro h; rw [(and_0x80_ne_zero _).mp h] at h7; exact Bool.noConfusion h7
    simp only [ne_eq, not_not] at h8
    simp [h8]
  · intro h7
    have := (and_0x80_ne_zero (rd operands 0)).mpr h7
    simp [this]

/-- Witness of C5 (amended): PLAY with the NoRelease quirk, press 44 00 and release
C4 00. -/
theorem C5_no_release_press_and_release_witness :
    handle_panel_passthrough
        { control_init 0 with uinput := 5, key_quirks := wr (List.replicate 256 0) 0x44 1 }
        [0x44, 0x00] 2 =
      [effect.uinput_write 5 .EV_KEY .KEY_PLAYCD 1, effect.uinput_write 5 .EV_SYN .SYN_REPORT 0,
       effect.uinput_write 5 .EV_KEY .KEY_PLAYCD 0, effect.uinput_write 5 .EV_SYN .SYN_REPORT 0] :=
  (C5_no_release_press_and_release
    { control_init 0 with uinput := 5, key_quirks := wr (List.replicate 256 0) 0x44 1 }
    [0x44, 0x00] 2 .KEY_PLAYCD (by decide) (by decide) (by decide) (by decide)).1 (by decide)

/-- C5 as stated fails: on the session that `control_init` creates (no uinput device,
`uinput = -1`) with the NoRelease quirk for PLAY, the press 44 00 emits nothing. -/
theorem C5_counterexample :
    mapped_key (0x44 &&& 0x7F) = some .KEY_PLAYCD ∧
    rd (wr (List.replicate 256 0) 0x44 1) 0x44 &&& QUIRK_NO_RELEASE ≠ 0 ∧
    (0x44 : Nat).testBit 7 = false ∧
    handle_panel_passthrough
        { control_init 0 with key_quirks := wr (List.replicate 256 0) 0x44 1 }
        [0x44, 0x00] 2 = [] :=
  ⟨by decide, by decide, by decide, by decide⟩

theorem take_fill (stack data : List Nat) (hb : is_bytes data) (hl : data.length ≤ BUF_SIZE) :
    (fill stack data).take data.length = data := by
  unfold fill
  rw [List.take_take, Nat.min_eq_left hl, List.map_append, List.append_assoc,
    List.take_left' (by rw [List.length_map])]
  have e : data.map (fun b => b % 256) = data.map (fun b => b) :=
    List.map_congr_left (fun a ha => Nat.mod_eq_of_lt (hb a ha))
  rw [e]
  simp

theorem is_bytes_take (m : List Nat) (h : is_bytes m) (n : Nat) : is_bytes (m.take n) :=
  fun b hb => h b (List.mem_of_mem_take hb)

theorem bits_frame (stack packet : List Nat) (hb : is_bytes packet) (h6 : 6 ≤ packet.length)
    (i : Nat) (hi : i < 6) :
    rd (fill stack (packet.take BUF_SIZE)) i = rd packet i :=
  rd_frame stack packet i hb (by omega) (by unfold BUF_SIZE; omega)

/-- C6: for every single-packet command frame with pid 0x110E, code Control, subunit
type Panel and opcode PASSTHROUGH, whatever its operands, `control_cb` writes a reply
whose code is Accepted and whose operand bytes are those of the frame received. -/
theorem C6_passthrough_accepted_operands_echoed (o : byte_order) (fuel : Nat) (ctl : control)
    (stack packet : List Nat) (hb : is_bytes packet) (h6 : 6 ≤ packet.length)
    (hs : (avctp_packet_type o).get (rd packet 0) = AVCTP_PACKET_SINGLE)
    (hcr : (avctp_cr o).get (rd packet 0) = AVCTP_COMMAND)
    (hp : wire_pid packet = 0x110E)
    (hcode : (avrcp_code o).get (rd packet 3) = CTYPE_CONTROL)
    (hsub : (avrcp_subunit_type o).get (rd packet 4) = SUBUNIT_PANEL)
    (hop : rd packet 5 = OP_PASSTHROUGH) :
    ∃ r w, control_cb o fuel ctl false stack (some packet) = some r ∧ r.written = some w ∧
      get_code o w 3 = CTYPE_ACCEPTED ∧ w.drop 6 = (packet.take BUF_SIZE).drop 6 := by
  have h6t : 6 ≤ (packet.take BUF_SIZE).length := by
    rw [List.length_take]; unfold BUF_SIZE; omega
  have hl := length_fill stack (packet.take BUF_SIZE)
  have hl3 : 3 < (fill stack (packet.take BUF_SIZE)).length := by rw [hl]; decide
  have hr := bits_frame stack packet hb h6
  rw [control_cb_eq_dispatch o fuel ctl stack packet h6]
  unfold control_cb_dispatch
  simp only [AVCTP_HEADER_LENGTH, AVRCP_HEADER_LENGTH, get_code, avrcp_opcode, Nat.reduceAdd]
  rw [if_neg (by rw [hr 0 (by omega)]; simp [hs]),
    if_neg (by
      rw [pid_test_iff _ _ (is_bytes_fill _ _), wire_pid_frame _ _ hb h6]; simp [hp]),
    if_pos (by
      rw [hr 0 (by omega), hr 3 (by omega), hr 4 (by omega), hr 5 (by omega)]
      exact ⟨hcr, hcode, hsub, hop⟩)]
  refine ⟨_, _, rfl, rfl, ?_, ?_⟩
  · show get_code o _ 3 = _
    rw [get_code_take _ _ _ _ (by omega), get_code_set_code _ _ _ _
      (by rw [length_set_cr]; exact hl3)]
    rfl
  · unfold set_code set_cr wr
    rw [List.set_take, List.set_take, List.drop_set_of_lt _ _ (by omega),
      List.drop_set_of_lt _ _ (by omega),
      take_fill _ _ (is_bytes_take _ hb _) (by rw [List.length_take]; omega)]

/-- Witness of C6: the frame 00 11 0E 00 48 7C 7F 00, whose key opcode 0x7F is not
mapped. -/
theorem C6_passthrough_accepted_operands_echoed_witness :
    ∃ r w, control_cb .little 0 (control_init 0) false []
        (some [0x00, 0x11, 0x0E, 0x00, 0x48, 0x7C, 0x7F, 0x00]) = some r ∧
      r.written = some w ∧ get_code .little w 3 = CTYPE_ACCEPTED ∧
      w.drop 6 = ([0x00, 0x11, 0x0E, 0x00, 0x48, 0x7C, 0x7F, 0x00].take BUF_SIZE).drop 6 :=
  C6_passthrough_accepted_operands_echoed .little 0 (control_init 0) []
    [0x00, 0x11, 0x0E, 0x00, 0x48, 0x7C, 0x7F, 0x00]
    (by decide) (by decide) (by decide) (by decide) (by decide) (by decide) (by decide)
    (by decide)

theorem drop_take_wr (m : List Nat) (n i v : Nat) :
    ((wr m (6 + i) v).take n).drop 6 = ((m.take n).drop 6).set i (v % 256) := by
  unfold wr
  rw [List.set_take, List.drop_set, if_neg (by omega)]
  congr 1
  omega

theorem take_wr_of_le (m : List Nat) (n i v : Nat) (h : n ≤ i) :
    (wr m i v).take n = m.take n := by
  unfold wr
  rw [List.set_take]
  exact List.set_eq_of_length_le (by rw [List.length_take]; omega)

/-- C7: for every single-packet command frame with pid 0x110E, code Status and opcode
UNITINFO or SUBUNITINFO, `control_cb` writes a reply with code Stable whose operands are
those of the frame received, except operand 0, which is 0x07 for UNITINFO, and operand 1,
which is 0x48 for both. -/
theorem C7_unit_info_reply (o : byte_order) (fuel : Nat) (ctl : control)
    (stack packet : List Nat) (hb : is_bytes packet) (h6 : 6 ≤ packet.length)
    (hs : (avctp_packet_type o).get (rd packet 0) = AVCTP_PACKET_SINGLE)
    (hcr : (avctp_cr o).get (rd packet 0) = AVCTP_COMMAND)
    (hp : wire_pid packet = 0x110E)
    (hcode : (avrcp_code o).get (rd packet 3) = CTYPE_STATUS)
    (hop : rd packet 5 = OP_UNITINFO ∨ rd packet 5 = OP_SUBUNITINFO) :
    ∃ r w, control_cb o fuel ctl false stack (some packet) = some r ∧ r.written = some w ∧
      get_code o w 3 = CTYPE_STABLE ∧
      w.drop 6 = unit_info_operands (rd packet 5) ((packet.take BUF_SIZE).drop 6) := by
  have h6t : 6 ≤ (packet.take BUF_SIZE).length := by
    rw [List.length_take]; unfold BUF_SIZE; omega
  have hl := length_fill stack (packet.take BUF_SIZE)
  have hl3 : 3 < (fill stack (packet.take BUF_SIZE)).length := by rw [hl]; decide
  have hr := bits_frame stack packet hb h6
  have hne : ¬ (CTYPE_STATUS = CTYPE_CONTROL) := by decide
  rw [control_cb_eq_dispatch o fuel ctl stack packet h6]
  unfold control_cb_dispatch
  simp only [AVCTP_HEADER_LENGTH, AVRCP_HEADER_LENGTH, get_code, avrcp_opcode, Nat.reduceAdd]
  rw [if_neg (by rw [hr 0 (by omega)]; simp [hs]),
    if_neg (by
      rw [pid_test_iff _ _ (is_bytes_fill _ _), wire_pid_frame _ _ hb h6]; simp [hp]),
    if_neg (by rw [hr 3 (by omega), hcode]; simp [hne]),
    if_pos (by
      rw [hr 0 (by omega), hr 3 (by omega), hr 5 (by omega)]
      exact ⟨hcr, hcode, hop⟩)]
  rw [hr 5 (by omega)]
  generalize hB : set_code o (set_cr o (fill stack (packet.take BUF_SIZE)) AVCTP_RESPONSE) 3
    CTYPE_STABLE = B
  have hcodeB : get_code o B 3 = CTYPE_STABLE := by
    rw [← hB, get_code_set_code _ _ _ _ (by rw [length_set_cr]; exact hl3)]; rfl
  have hopsB : (B.take (packet.take BUF_SIZE).length).drop 6 = (packet.take BUF_SIZE).drop 6 := by
    rw [← hB]
    unfold set_code set_cr wr
    rw [List.set_take, List.set_take, List.drop_set_of_lt _ _ (by omega),
      List.drop_set_of_lt _ _ (by omega),
      take_fill _ _ (is_bytes_take _ hb _) (by rw [List.length_take]; omega)]
  generalize hn : (packet.take BUF_SIZE).length = n at *
  refine ⟨_, _, rfl, rfl, ?_, ?_⟩
  · show get_code o _ 3 = _
    rw [get_code_take _ _ _ _ (by omega)]
    split_ifs <;> simp only [get_code_wr_ne _ _ _ _ _ (show (7:Nat) ≠ 3 by decide), get_code_wr_ne _ _ _ _ _ (show (6:Nat) ≠ 3 by decide), hcodeB]
  · show List.drop 6 (List.take n _) = _
    unfold unit_info_operands
    have e0 : ∀ (X : List Nat) (v : Nat), ((wr X 6 v).take n).drop 6 =
        ((X.take n).drop 6).set 0 (v % 256) := fun X v => drop_take_wr X n 0 v
    have e1 : ∀ (X : List Nat) (v : Nat), ((wr X 7 v).take n).drop 6 =
        ((X.take n).drop 6).set 1 (v % 256) := fun X v => drop_take_wr X n 1 v
    have hlen : ((packet.take BUF_SIZE).drop 6).length = n - 6 := by
      rw [List.length_drop, hn]
    have h7 : (7 : Nat) % 256 = 0x07 := rfl
    have h48 : (SUBUNIT_PANEL <<< 3) % 256 = 0x48 := rfl
    by_cases hu : rd packet 5 = OP_UNITINFO <;> by_cases h2 : n - 6 ≥ 2 <;>
      by_cases h1 : n - 6 ≥ 1 <;>
      simp only [hu, h2, h1, and_self, and_true, and_false, true_and, ↓reduceIte, e0, e1,
        hopsB, h7, h48]
    all_goals first
      | omega
      | rw [List.set_eq_of_length_le (l := List.set _ _ _)
          (by rw [List.length_set, hlen]; omega),
          List.set_eq_of_length_le (by rw [hlen]; omega)]
      | rw [List.set_eq_of_length_le (l := List.set _ _ _)
          (by rw [List.length_set, hlen]; omega)]
      | rw [List.set_eq_of_length_le (by rw [hlen]; omega)]

/-- Witness of C7: the request 00 11 0E 01 48 30 FF FF FF FF FF is answered with code
Stable and the operands 07 48 FF FF FF. -/
theorem C7_unit_info_reply_witness :
    ∃ r w, control_cb .little 0 (control_init 0) false []
        (some [0x00, 0x11, 0x0E, 0x01, 0x48, 0x30, 0xFF, 0xFF, 0xFF, 0xFF, 0xFF]) = some r ∧
      r.written = some w ∧ get_code .little w 3 = CTYPE_STABLE ∧
      w.drop 6 = [0x07, 0x48, 0xFF, 0xFF, 0xFF] :=
  C7_unit_info_reply .little 0 (control_init 0) []
    [0x00, 0x11, 0x0E, 0x01, 0x48, 0x30, 0xFF, 0xFF, 0xFF, 0xFF, 0xFF]
    (by decide) (by decide) (by decide) (by decide) (by decide) (by decide) (by decide)

/-- Witness of C1: a GET_CAPABILITIES PDU for the supported events reaches step 6 and
is answered with code Stable. -/
theorem C1_control_cb_follows_ladder_witness :
    6 ≤ (metadata_frame 0x10 [0x03, 0, 0, 0, 0]).length ∧
    (control_cb .big 0 (control_init 0) false [] (some (metadata_frame 0x10 [0x03, 0, 0, 0, 0]))).map
      (outcome_of .big) = some (.reply CTYPE_STABLE) :=
  ⟨by decide, C1_control_cb_follows_ladder .big 0 (control_init 0) []
    (metadata_frame 0x10 [0x03, 0, 0, 0, 0]) (by decide)⟩

theorem code_set_lt (o : byte_order) (b v : Nat) (hb : b < 256) :
    (avrcp_code o).set b v < 256 := by
  cases o <;> simp [avrcp_code, place, bitfield.get, bitfield.set] <;> omega

theorem code_get_set_lt (o : byte_order) (b v : Nat) (hv : v < 16) :
    (avrcp_code o).get ((avrcp_code o).set b v % 256) = v := by
  rw [code_get_set]; omega

/-- Where `handle_metadata_pdu` reads the PDU (header at byte 27, parameter_length in host
order): for a single-packet GET_CAPABILITIES PDU with at least one parameter byte whose
capability id is CAP_EVENTS_SUPPORTED, `handle_metadata_pdu` returns with code Stable,
parameter_length 5 and the body 03 03 01 02 03; for every capability id other than 0x2
and 0x3 it returns with code Rejected, parameter_length 1 and the one-byte body
E_INVALID_PARAM. -/
theorem get_capabilities_where_read (o : byte_order) (fuel : Nat) (st : pdu_state)
    (hlen : 36 ≤ st.buf.length)
    (hsingle : (metadata_packet_type o).get (rd st.buf (metadata_ptr 3 + 1)) = AVCTP_PACKET_SINGLE)
    (hid : metadata_pdu_id st.buf 3 = GET_CAPABILITIES) :
    (1 ≤ metadata_parameter_length o st.buf 3 →
      metadata_param st.buf 3 0 = CAP_EVENTS_SUPPORTED →
      ∃ st1, handle_metadata_pdu o fuel st 3 = some st1 ∧
        get_code o st1.buf 3 = CTYPE_STABLE ∧
        metadata_parameter_length o st1.buf 3 = 5 ∧
        metadata_body st1.buf 3 5 = [0x03, 0x03, 0x01, 0x02, 0x03]) ∧
    (metadata_param st.buf 3 0 ≠ CAP_COMPANY_ID →
      metadata_param st.buf 3 0 ≠ CAP_EVENTS_SUPPORTED →
      ∃ st1, handle_metadata_pdu o fuel st 3 = some st1 ∧
        get_code o st1.buf 3 = CTYPE_REJECTED ∧
        metadata_parameter_length o st1.buf 3 = 1 ∧
        metadata_body st1.buf 3 1 = [E_INVALID_PARAM]) := by
  have h3 : 3 < st.buf.length := by omega
  have h29 : 29 < st.buf.length := by omega
  have h30 : 30 < st.buf.length := by omega
  have h31 : 31 < st.buf.length := by omega
  have h32 : 32 < st.buf.length := by omega
  have h33 : 33 < st.buf.length := by omega
  have h34 : 34 < st.buf.length := by omega
  have h35 : 35 < st.buf.length := by omega
  have hc : ∀ b v, v < 16 → (avrcp_code o).get ((avrcp_code o).set b v % 256) = v :=
    fun b v hv => code_get_set_lt o b v hv
  unfold handle_metadata_pdu
  rw [if_neg (by simp [hsingle]), hid]
  simp only [↓reduceIte]
  constructor
  · intro hpl h0
    refine ⟨_, rfl, ?_⟩
    unfold get_capabilities
    rw [if_neg (by omega), if_neg (by rw [h0]; decide), if_pos h0]
    cases o <;>
      simp [metadata_body, List.range, List.range.loop, metadata_param, set_metadata_param,
        metadata_params_ptr, metadata_ptr, set_parameter_length, metadata_parameter_length,
        load16, store16, get_code, set_code, rd_wr, length_wr, AVRCP_HEADER_LENGTH,
        SIZEOF_METADATA_HEADER, METADATA_HEADER_LENGTH, h3, h29, h30, h31, h32, h33, h34, h35,
        hc, CTYPE_STABLE, EVENT_PLAYBACK_STATUS_CHANGED, EVENT_TRACK_CHANGED,
        EVENT_TRACK_REACHED_END] <;>
      simpa [metadata_param, metadata_params_ptr, metadata_ptr, AVRCP_HEADER_LENGTH,
        SIZEOF_METADATA_HEADER, METADATA_HEADER_LENGTH, CAP_EVENTS_SUPPORTED] using h0
  · intro h2 h3'
    refine ⟨_, rfl, ?_⟩
    have hrej : get_capabilities o st.buf 3 = reject o st.buf 3 E_INVALID_PARAM := by
      unfold get_capabilities
      split_ifs <;> rfl
    rw [hrej]
    cases o <;>
      simp [metadata_body, List.range, List.range.loop, metadata_param, set_metadata_param,
        metadata_params_ptr, metadata_ptr, set_parameter_length, metadata_parameter_length,
        load16, store16, get_code, set_code, rd_wr, length_wr, AVRCP_HEADER_LENGTH,
        SIZEOF_METADATA_HEADER, METADATA_HEADER_LENGTH, h3, h29, h30, h31, hc, reject,
        CTYPE_REJECTED, E_INVALID_PARAM]

/-- An instance of `get_capabilities_where_read`: the capability ids 0x03 and 0x07, in the buffer that `control_cb`
fills. -/
theorem get_capabilities_where_read_example :
    (∃ st1, handle_metadata_pdu .big 0
        { ctl := control_init 0, buf := fill [] (metadata_frame 0x10 [0x03, 0, 0, 0, 0]),
          out := [] } 3 = some st1 ∧
      get_code .big st1.buf 3 = CTYPE_STABLE ∧
      metadata_parameter_length .big st1.buf 3 = 5 ∧
      metadata_body st1.buf 3 5 = [0x03, 0x03, 0x01, 0x02, 0x03]) ∧
    (∃ st1, handle_metadata_pdu .big 0
        { ctl := control_init 0, buf := fill [] (metadata_frame 0x10 [0x07, 0, 0, 0, 0]),
          out := [] } 3 = some st1 ∧
      get_code .big st1.buf 3 = CTYPE_REJECTED ∧
      metadata_parameter_length .big st1.buf 3 = 1 ∧
      metadata_body st1.buf 3 1 = [E_INVALID_PARAM]) :=
  ⟨(get_capabilities_where_read .big 0
      { ctl := control_init 0, buf := fill [] (metadata_frame 0x10 [0x03, 0, 0, 0, 0]),
        out := [] }
      (by rw [length_fill]; decide) (by decide) (by decide)).1 (by decide) (by decide),
   (get_capabilities_where_read .big 0
      { ctl := control_init 0, buf := fill [] (metadata_frame 0x10 [0x07, 0, 0, 0, 0]),
        out := [] }
      (by rw [length_fill]; decide) (by decide) (by decide)).2 (by decide) (by decide)⟩

/-- C8 fails on the code: for a GET_CAPABILITIES PDU with the capability id
CAP_COMPANY_ID, `handle_metadata_pdu` sets code Stable and the body 02 01 00 00 58, on
both byte orders: the two upper bytes of the company id 0x001958 come out as 00 00,
not as 00 19. -/
theorem C8_company_id_upper_bytes_zero :
    (handle_metadata_pdu .big 0
        { ctl := control_init 0, buf := fill [] (metadata_frame 0x10 [0x02, 0, 0, 0, 0]),
          out := [] } 3).map (fun st1 => (get_code .big st1.buf 3, metadata_body st1.buf 3 5)) =
      some (CTYPE_STABLE, [0x02, 0x01, 0x00, 0x00, 0x58]) ∧
    (handle_metadata_pdu .little 0
        { ctl := control_init 0, buf := fill [] (metadata_frame 0x10 [0x02, 0, 0, 0, 0]),
          out := [] } 3).map
        (fun st1 => (get_code .little st1.buf 3, metadata_body st1.buf 3 5)) =
      some (CTYPE_STABLE, [0x02, 0x01, 0x00, 0x00, 0x58]) :=
  ⟨by rfl, by rfl⟩

theorem has_eq_testBit (x i : Nat) : has x (1 <<< i) = x.testBit i := by
  unfold has
  rw [Nat.one_shiftLeft, Nat.and_two_pow]
  cases x.testBit i <;> simp

theorem set_property_caps (ctl : control) (x : Nat) :
    (control_set_property ctl
      [dbus_arg.string "PlayerCapabilities", dbus_arg.variant (.uint32 x)]).ctl =
      { ctl with mpris_caps := x } := by
  simp [control_set_property]

/-- Where `handle_metadata_pdu` reads the PDU (header at byte 27, parameter_length in host
order): after SetProperty(PlayerCapabilities, x), it answers a single-packet
LIST_PLAYER_SETTING_ATTRIBUTES PDU with code Stable and a body made of a
count byte followed by the attribute ids that the specification lists for `x`, in
order; the count is their number and parameter_length is the count plus one. -/
theorem list_attributes_where_read (o : byte_order) (fuel : Nat) (ctl : control)
    (x : Nat) (buf : List Nat) (out : List effect) (hlen : 35 ≤ buf.length)
    (hsingle : (metadata_packet_type o).get (rd buf (metadata_ptr 3 + 1)) = AVCTP_PACKET_SINGLE)
    (hid : metadata_pdu_id buf 3 = LIST_PLAYER_SETTING_ATTRIBUTES) :
    ∃ st1, handle_metadata_pdu o fuel
        { ctl := (control_set_property ctl
            [dbus_arg.string "PlayerCapabilities", dbus_arg.variant (.uint32 x)]).ctl,
          buf := buf, out := out } 3 = some st1 ∧
      get_code o st1.buf 3 = CTYPE_STABLE ∧
      metadata_body st1.buf 3 ((listed_attributes x).length + 1) =
        (listed_attributes x).length :: listed_attributes x ∧
      metadata_parameter_length o st1.buf 3 = (listed_attributes x).length + 1 := by
  have h3 : 3 < buf.length := by omega
  have h29 : 29 < buf.length := by omega
  have h30 : 30 < buf.length := by omega
  have h31 : 31 < buf.length := by omega
  have h32 : 32 < buf.length := by omega
  have h33 : 33 < buf.length := by omega
  have h34 : 34 < buf.length := by omega
  have hc : ∀ b v, v < 16 → (avrcp_code o).get ((avrcp_code o).set b v % 256) = v :=
    fun b v hv => code_get_set_lt o b v hv
  rw [set_property_caps]
  unfold handle_metadata_pdu
  rw [if_neg (by simp [hsingle]), hid]
  simp only [LIST_PLAYER_SETTING_ATTRIBUTES, GET_CAPABILITIES, ↓reduceIte]
  rw [if_neg (by decide)]
  refine ⟨_, rfl, ?_⟩
  unfold list_player_setting_attributes listed_attributes
  simp only [MPRIS_CAN_REPEAT, MPRIS_CAN_LOOP, MPRIS_CAN_SHUFFLE, MPRIS_CAN_SCAN,
    has_eq_testBit]
  cases o <;> cases x.testBit 7 <;> cases x.testBit 8 <;> cases x.testBit 9 <;>
    cases x.testBit 10 <;>
    simp [metadata_body, List.range, List.range.loop, metadata_param, set_metadata_param,
      metadata_params_ptr, metadata_ptr, set_parameter_length, metadata_parameter_length,
      load16, store16, get_code, set_code, rd_wr, length_wr, AVRCP_HEADER_LENGTH,
      SIZEOF_METADATA_HEADER, METADATA_HEADER_LENGTH, h3, h29, h30, h31, h32, h33, h34,
      hc, CTYPE_STABLE, append_param, ATTRIBUTE_REPEAT, ATTRIBUTE_SHUFFLE, ATTRIBUTE_SCAN]

/-- An instance of `list_attributes_where_read`: the capabilities CanRepeat and CanScan (0x480) give the body
02 02 04 and parameter_length 3. -/
theorem list_attributes_where_read_example :
    ∃ st1, handle_metadata_pdu .big 0
        { ctl := (control_set_property (control_init 0)
            [dbus_arg.string "PlayerCapabilities", dbus_arg.variant (.uint32 0x480)]).ctl,
          buf := fill [] (metadata_frame 0x11 []), out := [] } 3 = some st1 ∧
      get_code .big st1.buf 3 = CTYPE_STABLE ∧
      metadata_body st1.buf 3 3 = [0x02, 0x02, 0x04] ∧
      metadata_parameter_length .big st1.buf 3 = 3 :=
  list_attributes_where_read .big 0 (control_init 0) 0x480
    (fill [] (metadata_frame 0x11 [])) [] (by rw [length_fill]; decide) (by decide) (by decide)

/-- Where `handle_metadata_pdu` reads the PDU (header at byte 27, parameter_length in host
order): for a single-packet LIST_PLAYER_SETTING_VALUES PDU with its attribute id byte,
it returns, for the values that the specification lists, code Stable,
a body made of their count followed by them and parameter_length equal to the count plus
one; when the specification lists nothing (capability missing or unknown attribute), code
Rejected, parameter_length 1 and the one-byte body E_INVALID_PARAM. -/
theorem list_values_where_read (o : byte_order) (fuel : Nat) (st : pdu_state)
    (hlen : 35 ≤ st.buf.length)
    (hsingle : (metadata_packet_type o).get (rd st.buf (metadata_ptr 3 + 1)) = AVCTP_PACKET_SINGLE)
    (hid : metadata_pdu_id st.buf 3 = LIST_PLAYER_SETTING_VALUES)
    (hpl : 1 ≤ metadata_parameter_length o st.buf 3) :
    ∃ st1, handle_metadata_pdu o fuel st 3 = some st1 ∧
      match listed_values st.ctl.mpris_caps (metadata_param st.buf 3 0) with
      | some vs =>
        get_code o st1.buf 3 = CTYPE_STABLE ∧
        metadata_body st1.buf 3 (vs.length + 1) = vs.length :: vs ∧
        metadata_parameter_length o st1.buf 3 = vs.length + 1
      | none =>
        get_code o st1.buf 3 = CTYPE_REJECTED ∧
        metadata_body st1.buf 3 1 = [E_INVALID_PARAM] ∧
        metadata_parameter_length o st1.buf 3 = 1 := by
  have h3 : 3 < st.buf.length := by omega
  have h29 : 29 < st.buf.length := by omega
  have h30 : 30 < st.buf.length := by omega
  have h31 : 31 < st.buf.length := by omega
  have h32 : 32 < st.buf.length := by omega
  have h33 : 33 < st.buf.length := by omega
  have h34 : 34 < st.buf.length := by omega
  have hc : ∀ b v, v < 16 → (avrcp_code o).get ((avrcp_code o).set b v % 256) = v :=
    fun b v hv => code_get_set_lt o b v hv
  unfold handle_metadata_pdu
  rw [if_neg (by simp [hsingle]), hid]
  simp only [LIST_PLAYER_SETTING_VALUES, LIST_PLAYER_SETTING_ATTRIBUTES, GET_CAPABILITIES,
    ↓reduceIte]
  rw [if_neg (by decide), if_neg (by decide)]
  refine ⟨_, rfl, ?_⟩
  unfold list_player_setting_values listed_values
  rw [if_neg (show ¬ metadata_parameter_length o st.buf 3 < 1 by omega)]
  have ha : metadata_param (set_code o st.buf 3 CTYPE_STABLE) 3 0 = metadata_param st.buf 3 0 := by
    simp [metadata_param, set_code, rd_wr, metadata_params_ptr, metadata_ptr,
      AVRCP_HEADER_LENGTH, SIZEOF_METADATA_HEADER, METADATA_HEADER_LENGTH]
  simp only [ha, MPRIS_CAN_REPEAT, MPRIS_CAN_LOOP, MPRIS_CAN_SHUFFLE, MPRIS_CAN_SCAN,
    has_eq_testBit, ATTRIBUTE_REPEAT, ATTRIBUTE_SHUFFLE, ATTRIBUTE_SCAN]
  generalize metadata_param st.buf 3 0 = a
  by_cases a2 : a = 2
  · subst a2
    cases o <;> cases st.ctl.mpris_caps.testBit 7 <;> cases st.ctl.mpris_caps.testBit 8 <;>
      simp [metadata_body, List.range, List.range.loop, metadata_param, set_metadata_param,
        metadata_params_ptr, metadata_ptr, set_parameter_length, metadata_parameter_length,
        load16, store16, get_code, set_code, rd_wr, length_wr, AVRCP_HEADER_LENGTH,
        SIZEOF_METADATA_HEADER, METADATA_HEADER_LENGTH, h3, h29, h30, h31, h32, h33, h34,
        hc, CTYPE_STABLE, CTYPE_REJECTED, E_INVALID_PARAM, append_param, reject,
        ATTRIBUTE_REPEAT_OFF, ATTRIBUTE_REPEAT_SINGLE, ATTRIBUTE_REPEAT_GROUP]
  by_cases a3 : a = 3
  · subst a3
    cases o <;> cases st.ctl.mpris_caps.testBit 9 <;>
      simp [metadata_body, List.range, List.range.loop, metadata_param, set_metadata_param,
        metadata_params_ptr, metadata_ptr, set_parameter_length, metadata_parameter_length,
        load16, store16, get_code, set_code, rd_wr, length_wr, AVRCP_HEADER_LENGTH,
        SIZEOF_METADATA_HEADER, METADATA_HEADER_LENGTH, h3, h29, h30, h31, h32, h33, h34,
        hc, CTYPE_STABLE, CTYPE_REJECTED, E_INVALID_PARAM, reject,
        ATTRIBUTE_SHUFFLE_OFF, ATTRIBUTE_SHUFFLE_GROUP]
  by_cases a4 : a = 4
  · subst a4
    cases o <;> cases st.ctl.mpris_caps.testBit 10 <;>
      simp [metadata_body, List.range, List.range.loop, metadata_param, set_metadata_param,
        metadata_params_ptr, metadata_ptr, set_parameter_length, metadata_parameter_length,
        load16, store16, get_code, set_code, rd_wr, length_wr, AVRCP_HEADER_LENGTH,
        SIZEOF_METADATA_HEADER, METADATA_HEADER_LENGTH, h3, h29, h30, h31, h32, h33, h34,
        hc, CTYPE_STABLE, CTYPE_REJECTED, E_INVALID_PARAM, reject,
        ATTRIBUTE_SCAN_OFF, ATTRIBUTE_SCAN_GROUP]
  simp only [a2, a3, a4, ↓reduceIte]
  cases o <;>
    simp [metadata_body, List.range, List.range.loop, metadata_param, set_metadata_param,
      metadata_params_ptr, metadata_ptr, set_parameter_length, metadata_parameter_length,
      load16, store16, get_code, set_code, rd_wr, length_wr, AVRCP_HEADER_LENGTH,
      SIZEOF_METADATA_HEADER, METADATA_HEADER_LENGTH, h3, h29, h30, h31, hc,
      CTYPE_REJECTED, E_INVALID_PARAM, reject]

/-- An instance of `list_values_where_read`: with CanRepeat and CanLoop (0x180) the attribute Repeat gives the
body 03 01 02 04 and parameter_length 4; the attribute Shuffle, whose capability is
missing, is rejected. -/
theorem list_values_where_read_example :
    (∃ st1, handle_metadata_pdu .big 0
        { ctl := { control_init 0 with mpris_caps := 0x180 },
          buf := fill [] (metadata_frame 0x12 [0x02]), out := [] } 3 = some st1 ∧
      get_code .big st1.buf 3 = CTYPE_STABLE ∧
      metadata_body st1.buf 3 4 = [0x03, 0x01, 0x02, 0x04] ∧
      metadata_parameter_length .big st1.buf 3 = 4) ∧
    (∃ st1, handle_metadata_pdu .big 0
        { ctl := { control_init 0 with mpris_caps := 0x180 },
          buf := fill [] (metadata_frame 0x12 [0x03]), out := [] } 3 = some st1 ∧
      get_code .big st1.buf 3 = CTYPE_REJECTED ∧
      metadata_body st1.buf 3 1 = [E_INVALID_PARAM] ∧
      metadata_parameter_length .big st1.buf 3 = 1) :=
  ⟨list_values_where_read .big 0
      { ctl := { control_init 0 with mpris_caps := 0x180 },
        buf := fill [] (metadata_frame 0x12 [0x02]), out := [] }
      (by rw [length_fill]; decide) (by decide) (by decide) (by decide),
   list_values_where_read .big 0
      { ctl := { control_init 0 with mpris_caps := 0x180 },
        buf := fill [] (metadata_frame 0x12 [0x03]), out := [] }
      (by rw [length_fill]; decide) (by decide) (by decide) (by decide)⟩

set_option maxRecDepth 100000 in
/-- C12 fails on the code: a GET_CURRENT_PLAYER_SETTING_VALUE PDU that requests 128
times the attribute Scan, on a player with CanScan, is answered with code Stable and a
body that starts 01 04 04, not 80 04 01: the 8-bit index `rsp_i` wraps after 127 pairs,
the last value lands on the count byte and one byte only is copied back. -/
theorem C12_count_byte_lost_for_128_attributes :
    (handle_metadata_pdu .big 200
        { ctl := capable_control,
          buf := fill [] (padded_frame 0x13 0x00 0x81 (128 :: List.replicate 128 ATTRIBUTE_SCAN) 320),
          out := [] } 3).map (answer .big 3) = some (CTYPE_STABLE, 1, [0x01, 0x04, 0x04]) := by
  decide

/-- The loop body alone: when the body of the loop of SET_PLAYER_SETTING_VALUE handles a pair that the
capabilities support and that the specification lists, the session record after the pair
is the one the specification gives (every field it does not name is unchanged), and the
pair is not rejected: the buffer and the loop counter are as before. -/
theorem set_body_accepted_pair (o : byte_order) (avrcp : Nat) (s : set_state)
    (ctl1 : control)
    (hcap : supports s.st.ctl.mpris_caps (metadata_param s.st.buf avrcp (2 * s.i + 1)))
    (hpair : state_after_pair s.st.ctl (metadata_param s.st.buf avrcp (2 * s.i + 1))
      (metadata_param s.st.buf avrcp (2 * s.i + 2)) = some ctl1) :
    (set_body o avrcp s).st.ctl = ctl1 ∧ (set_body o avrcp s).st.buf = s.st.buf ∧
      (set_body o avrcp s).i = s.i := by
  unfold set_body
  simp only [MPRIS_CAN_REPEAT, MPRIS_CAN_LOOP, MPRIS_CAN_SHUFFLE, MPRIS_CAN_SCAN,
    has_eq_testBit, ATTRIBUTE_REPEAT, ATTRIBUTE_SHUFFLE, ATTRIBUTE_SCAN, ATTRIBUTE_REPEAT_ALL,
    ATTRIBUTE_REPEAT_OFF, ATTRIBUTE_REPEAT_SINGLE, ATTRIBUTE_REPEAT_GROUP,
    ATTRIBUTE_SHUFFLE_OFF, ATTRIBUTE_SHUFFLE_GROUP]
  generalize metadata_param s.st.buf avrcp (2 * s.i + 1) = a at hcap hpair ⊢
  generalize metadata_param s.st.buf avrcp (2 * s.i + 2) = v at hpair ⊢
  unfold supports at hcap
  unfold state_after_pair at hpair
  rcases hcap with ⟨ha, hx⟩ | ⟨ha, hx⟩ | ⟨ha, hx⟩
  · subst ha
    have hx2 : (s.st.ctl.mpris_caps.testBit 7 || s.st.ctl.mpris_caps.testBit 8) = true := by
      simpa using hx
    by_cases v1 : v = 1
    · subst v1; simp at hpair; simp [hx2, set_state.emit, ← hpair]
    by_cases v2 : v = 2
    · subst v2; simp at hpair; simp [hx2, set_state.emit, ← hpair]
    by_cases v4 : v = 4
    · subst v4; simp at hpair; simp [hx2, set_state.emit, ← hpair]
    simp [v1, v2, v4] at hpair
  · subst ha
    by_cases v1 : v = 1
    · subst v1; simp at hpair; simp [hx, set_state.emit, ← hpair]
    by_cases v3 : v = 3
    · subst v3; simp at hpair; simp [hx, set_state.emit, ← hpair]
    simp [v1, v3] at hpair
  · subst ha
    simp at hpair
    simp [hx, ← hpair]

/-- An instance of `set_body_accepted_pair`: the pair (Repeat, Single) sets repeat and clears endless. -/
theorem set_body_accepted_pair_example :
    (set_body .big 3 repeat_single_state).st.ctl =
      { capable_control with mpris_repeat_state := true, mpris_endless_state := false } ∧
    (set_body .big 3 repeat_single_state).st.buf = repeat_single_state.st.buf ∧
    (set_body .big 3 repeat_single_state).i = repeat_single_state.i :=
  set_body_accepted_pair .big 3 repeat_single_state
    { capable_control with mpris_repeat_state := true, mpris_endless_state := false }
    (by decide) (by rfl)

theorem set_loop_succ (o : byte_order) (avrcp fuel : Nat) (s : set_state) :
    set_loop o avrcp (fuel + 1) s =
      if s.i ≤ metadata_param s.st.buf avrcp 0 then
        set_loop o avrcp fuel
          { (set_body o avrcp s) with i := ((set_body o avrcp s).i + 1) % 256 }
      else some s := by
  rw [set_loop]

/-- Where `handle_metadata_pdu` reads the PDU (header at byte 27, parameter_length in host
order): a single-packet SET_PLAYER_SETTING_VALUE PDU with the count byte 1 and the pair
(Repeat, ATTRIBUTE_REPEAT_ALL) is answered, as soon as the step budget allows two tests
of the loop condition, with code Rejected, parameter_length 1 and the one-byte body
E_INVALID_PARAM; the session record is unchanged and no signal is emitted. -/
theorem repeat_all_where_read (o : byte_order) (fuel : Nat) (st : pdu_state)
    (hlen : 35 ≤ st.buf.length)
    (hsingle : (metadata_packet_type o).get (rd st.buf (metadata_ptr 3 + 1)) = AVCTP_PACKET_SINGLE)
    (hid : metadata_pdu_id st.buf 3 = SET_PLAYER_SETTING_VALUE)
    (hpl : 1 ≤ metadata_parameter_length o st.buf 3)
    (h0 : metadata_param st.buf 3 0 = 1)
    (h1 : metadata_param st.buf 3 1 = ATTRIBUTE_REPEAT)
    (h2 : metadata_param st.buf 3 2 = ATTRIBUTE_REPEAT_ALL) :
    ∃ st1, handle_metadata_pdu o (fuel + 2) st 3 = some st1 ∧
      get_code o st1.buf 3 = CTYPE_REJECTED ∧
      metadata_parameter_length o st1.buf 3 = 1 ∧
      metadata_body st1.buf 3 1 = [E_INVALID_PARAM] ∧
      st1.ctl = st.ctl ∧ st1.out = st.out := by
  have h3 : 3 < st.buf.length := by omega
  have h29 : 29 < st.buf.length := by omega
  have h30 : 30 < st.buf.length := by omega
  have h31 : 31 < st.buf.length := by omega
  have hc : ∀ b v, v < 16 → (avrcp_code o).get ((avrcp_code o).set b v % 256) = v :=
    fun b v hv => code_get_set_lt o b v hv
  have hbody : set_body o 3 { i := 0, st := st } =
      { i := 2, st := { st with buf := reject o st.buf 3 E_INVALID_PARAM } } := by
    unfold set_body
    simp only [Nat.mul_zero, Nat.zero_add, h1, h2, set_state.reject, h0]
    simp [ATTRIBUTE_REPEAT_ALL]
  have hcount : metadata_param (reject o st.buf 3 E_INVALID_PARAM) 3 0 = 1 := by
    cases o <;>
      simp [metadata_param, set_metadata_param, metadata_params_ptr, metadata_ptr,
        set_parameter_length, store16, set_code, rd_wr, length_wr, AVRCP_HEADER_LENGTH,
        SIZEOF_METADATA_HEADER, METADATA_HEADER_LENGTH, h31, reject, E_INVALID_PARAM]
  unfold handle_metadata_pdu
  rw [if_neg (by simp [hsingle]), hid]
  simp only [SET_PLAYER_SETTING_VALUE, GET_CURRENT_PLAYER_SETTING_VALUE,
    LIST_PLAYER_SETTING_VALUES, LIST_PLAYER_SETTING_ATTRIBUTES, GET_CAPABILITIES, ↓reduceIte]
  rw [if_neg (by decide), if_neg (by decide), if_neg (by decide), if_neg (by decide)]
  unfold set_player_setting_value
  rw [if_neg (show ¬ metadata_parameter_length o st.buf 3 < 1 by omega), set_loop_succ]
  simp only [Nat.zero_le, ↓reduceIte, hbody]
  rw [set_loop_succ]
  simp only [hcount, Nat.reduceAdd, Nat.reduceMod, Nat.reduceLeDiff, ↓reduceIte]
  refine ⟨_, rfl, ?_⟩
  cases o <;>
    simp [metadata_body, List.range, List.range.loop, metadata_param, set_metadata_param,
      metadata_params_ptr, metadata_ptr, set_parameter_length, metadata_parameter_length,
      load16, store16, get_code, set_code, rd_wr, length_wr, AVRCP_HEADER_LENGTH,
      SIZEOF_METADATA_HEADER, METADATA_HEADER_LENGTH, h3, h29, h30, h31, hc,
      CTYPE_REJECTED, E_INVALID_PARAM, reject]

/-- An instance of `repeat_all_where_read`: the body 01 02 03 on a player with CanRepeat, step budget 2. -/
theorem repeat_all_where_read_example :
    ∃ st1, handle_metadata_pdu .big (0 + 2)
        { ctl := { control_init 0 with mpris_caps := MPRIS_CAN_REPEAT },
          buf := fill [] (padded_frame 0x14 0x00 0x03 [1, 2, 3] 64), out := [] } 3 = some st1 ∧
      get_code .big st1.buf 3 = CTYPE_REJECTED ∧
      metadata_parameter_length .big st1.buf 3 = 1 ∧
      metadata_body st1.buf 3 1 = [E_INVALID_PARAM] ∧
      st1.ctl = { control_init 0 with mpris_caps := MPRIS_CAN_REPEAT } ∧ st1.out = [] :=
  repeat_all_where_read .big 0
    { ctl := { control_init 0 with mpris_caps := MPRIS_CAN_REPEAT },
      buf := fill [] (padded_frame 0x14 0x00 0x03 [1, 2, 3] 64), out := [] }
    (by rw [length_fill]; decide) (by decide) (by decide) (by decide) (by decide) (by decide)
    (by decide)

/-- C14 fails on the code: on a player with the Repeat capability, the
SET_PLAYER_SETTING_VALUE PDU with parameter_length 3, count 1 and the pair
(Repeat, Single), in a frame where the bytes 02 04 follow the PDU, is accepted (the code
is left as received), but the loop also takes the two following bytes for a pair
(Repeat, Group): repeat ends false and endless true, and a following
GET_CURRENT_PLAYER_SETTING_VALUE PDU for Repeat returns Group (0x04), not Single. -/
theorem C14_repeat_single_then_get_returns_group :
    (handle_metadata_pdu .big 10
        (pdu_in capable_control (padded_frame 0x14 0x00 0x03 [1, 2, 2, 2, 4] 64)) 3).map
      (fun st1 => (get_code .big st1.buf 3, st1.ctl.mpris_repeat_state,
        st1.ctl.mpris_endless_state)) = some (CTYPE_CONTROL, false, true) ∧
    ((handle_metadata_pdu .big 10
        (pdu_in capable_control (padded_frame 0x14 0x00 0x03 [1, 2, 2, 2, 4] 64)) 3).bind
      (fun st1 => handle_metadata_pdu .big 10
        (pdu_in st1.ctl (padded_frame 0x13 0x00 0x02 [1, 2] 64)) 3)).map (answer .big 3) =
      some (CTYPE_STABLE, 1, [0x01, 0x02, 0x04]) := by
  constructor <;> rfl

/-- C16 fails on the code: on a player with CanShuffle, the body of the loop of
SET_PLAYER_SETTING_VALUE does not reject the pair (Shuffle, 0x02): it leaves the answer
untouched and emits the signal SetShuffleState; so the PDU with count 1 and this pair
emits the signal (its code Rejected comes from the two zero bytes after the pair, which
the loop reads as one more pair). -/
theorem C16_shuffle_value_not_validated :
    (set_body .big 3
        { i := 0, st := pdu_in capable_control (padded_frame 0x14 0x00 0x03 [1, 3, 2] 64) }) =
      { i := 0,
        st := { ctl := capable_control,
                buf := fill [] (padded_frame 0x14 0x00 0x03 [1, 3, 2] 64),
                out := [effect.property_changed "SetShuffleState" (.byte_at 0x02)] } } ∧
    (handle_metadata_pdu .big 10
        (pdu_in capable_control (padded_frame 0x14 0x00 0x03 [1, 3, 2] 64)) 3).map
      (fun st1 => (get_code .big st1.buf 3, st1.ctl.mpris_shuffle_state, st1.out)) =
      some (CTYPE_REJECTED, false,
        [effect.property_changed "SetShuffleState" (.byte_at 0x02)]) := by
  constructor <;> rfl

/-- C17 fails on the code: the answer to a GET_CURRENT_PLAYER_SETTING_VALUE PDU for the
one attribute Repeat has the three body bytes 01 02 01 and parameter_length 1; the
answer to a GET_PLAY_STATUS PDU has nine body bytes and keeps the parameter_length 0 of
the request. -/
theorem C17_parameter_length_not_updated :
    (handle_metadata_pdu .big 10
        (pdu_in capable_control (padded_frame 0x13 0x00 0x02 [1, 2] 64)) 3).map (answer .big 3) =
      some (CTYPE_STABLE, 1, [0x01, 0x02, 0x01]) ∧
    (handle_metadata_pdu .big 10
        (pdu_in capable_control (padded_frame 0x30 0x00 0x00 [] 64)) 3).map (answer .big 9) =
      some (CTYPE_STABLE, 0, [0xFF, 0xFF, 0xFF, 0xFF, 0xFF, 0xFF, 0xFF, 0xFF, 0x00]) := by
  constructor <;> rfl

/-- C18 fails on the code: a GET_ELEMENT_ATTRIBUTES PDU with element id 0 that requests
the one attribute TITLE is answered with code Rejected: the first entry (count 01, id
00 01, length 0x14, then the fixed text `Get title from MPRIS`) is copied over the
request, the attribute count is then read from the copied text and the next attribute id
is unknown.  The same PDU with no attribute falls into the case of GET_PLAY_STATUS and
gets its body. -/
theorem C18_element_attributes_rejected_or_play_status :
    (handle_metadata_pdu .big 300
        (pdu_in capable_control (padded_frame 0x20 0x00 0x07 [0, 0, 0, 0, 1, 0, 1] 64)) 3).map
      (answer .big 8) =
      some (CTYPE_REJECTED, 1, [0x01, 0x00, 0x01, 0x14, 0x47, 0x65, 0x74, 0x20]) ∧
    (handle_metadata_pdu .big 300
        (pdu_in capable_control (padded_frame 0x20 0x00 0x05 [0, 0, 0, 0, 0] 64)) 3).map
      (answer .big 9) =
      some (CTYPE_STABLE, 5, [0xFF, 0xFF, 0xFF, 0xFF, 0xFF, 0xFF, 0xFF, 0xFF, 0x00]) := by
  constructor <;> rfl

/-- C19 fails on the code: on a player with total length 1000 ms and play state Playing
(1), a GET_PLAY_STATUS PDU is answered with code Stable and the body
FF FF FF FF FF FF FF FF 00: the total is given as unknown and the status as Stopped. -/
theorem C19_play_status_ignores_player_state :
    (handle_metadata_pdu .big 10
        (pdu_in { capable_control with mpris_total := 1000, mpris_play_state := 1 }
          (padded_frame 0x30 0x00 0x00 [] 64)) 3).map (answer .big 9) =
      some (CTYPE_STABLE, 0, [0xFF, 0xFF, 0xFF, 0xFF, 0xFF, 0xFF, 0xFF, 0xFF, 0x00]) := by
  rfl

theorem pdu_id_of_byte (buf : List Nat) (b : Nat) (hb : rd buf (metadata_ptr 3) = b)
    (h : b < 128) : metadata_pdu_id buf 3 = (b : Int) := by
  unfold metadata_pdu_id
  simp only [hb]
  rw [if_pos h]

theorem pdu_id_negative (buf : List Nat) (h : ¬ rd buf (metadata_ptr 3) < 128)
    (hb : rd buf (metadata_ptr 3) < 256) : metadata_pdu_id buf 3 < 0 := by
  unfold metadata_pdu_id
  simp only []
  rw [if_neg h]
  omega

/-- Where `handle_metadata_pdu` reads the PDU (header at byte 27, parameter_length in host
order): for every metadata PDU whose pdu_id is one of 0x15, 0x16, 0x17, 0x18, it returns with code NotImplemented; for every single-packet metadata
PDU whose pdu_id byte is none of the eleven defined ids, it returns with code Rejected,
parameter_length 1 and the one-byte body E_INVALID_COMMAND. -/
theorem pdu_id_classes_where_read (o : byte_order) (fuel : Nat) (st : pdu_state)
    (hlen : 35 ≤ st.buf.length) (hbyte : rd st.buf (metadata_ptr 3) < 256) :
    (rd st.buf (metadata_ptr 3) ∈ [0x15, 0x16, 0x17, 0x18] →
      ∃ st1, handle_metadata_pdu o fuel st 3 = some st1 ∧
        get_code o st1.buf 3 = CTYPE_NOT_IMPLEMENTED) ∧
    ((metadata_packet_type o).get (rd st.buf (metadata_ptr 3 + 1)) = AVCTP_PACKET_SINGLE →
      rd st.buf (metadata_ptr 3) ∉ defined_pdu_ids →
      ∃ st1, handle_metadata_pdu o fuel st 3 = some st1 ∧
        get_code o st1.buf 3 = CTYPE_REJECTED ∧
        metadata_parameter_length o st1.buf 3 = 1 ∧
        metadata_body st1.buf 3 1 = [E_INVALID_COMMAND]) := by
  have h3 : 3 < st.buf.length := by omega
  have h29 : 29 < st.buf.length := by omega
  have h30 : 30 < st.buf.length := by omega
  have h31 : 31 < st.buf.length := by omega
  have hc : ∀ b v, v < 16 → (avrcp_code o).get ((avrcp_code o).set b v % 256) = v :=
    fun b v hv => code_get_set_lt o b v hv
  constructor
  · intro hmem
    have hlt : rd st.buf (metadata_ptr 3) < 128 := by
      simp only [List.mem_cons, List.mem_singleton, List.not_mem_nil, or_false] at hmem
      omega
    have hid := pdu_id_of_byte st.buf _ rfl hlt
    unfold handle_metadata_pdu
    by_cases hs : (metadata_packet_type o).get (rd st.buf (metadata_ptr 3 + 1)) ≠
        AVCTP_PACKET_SINGLE
    · rw [if_pos hs]
      exact ⟨_, rfl, by rw [get_code_set_code _ _ _ _ h3]; rfl⟩
    · rw [if_neg hs, hid]
      simp only [List.mem_cons, List.mem_singleton, List.not_mem_nil, or_false] at hmem
      refine ⟨{ st with buf := set_code o st.buf 3 CTYPE_NOT_IMPLEMENTED }, ?_,
        by rw [get_code_set_code _ _ _ _ h3]; rfl⟩
      rcases hmem with h | h | h | h <;> rw [h] <;> rfl
  · intro hs hnot
    have hrej : handle_metadata_pdu o fuel st 3 =
        some { st with buf := reject o st.buf 3 E_INVALID_COMMAND } := by
      unfold handle_metadata_pdu
      rw [if_neg (by simp [hs])]
      by_cases hlt : rd st.buf (metadata_ptr 3) < 128
      · have hid := pdu_id_of_byte st.buf _ rfl hlt
        simp only [defined_pdu_ids, List.mem_cons, List.mem_singleton, List.not_mem_nil,
          or_false, not_or] at hnot
        simp only [hid, GET_CAPABILITIES, LIST_PLAYER_SETTING_ATTRIBUTES,
          LIST_PLAYER_SETTING_VALUES, GET_CURRENT_PLAYER_SETTING_VALUE,
          SET_PLAYER_SETTING_VALUE, GET_PLAYER_SETTING_ATTRIBUTE_TEXT,
          GET_PLAYER_SETTING_VALUE_TEXT, INFORM_DISPLAYABLE_CHARSET, INFORM_BATT_STATUS_OF_CT,
          GET_ELEMENT_ATTRIBUTES, GET_PLAY_STATUS]
        have e : ∀ k : Nat, ((rd st.buf (metadata_ptr 3) : Nat) : Int) = (k : Int) ↔
            rd st.buf (metadata_ptr 3) = k := fun k => Nat.cast_inj
        simp only [show (16 : Int) = ((16 : Nat) : Int) from rfl,
          show (17 : Int) = ((17 : Nat) : Int) from rfl,
          show (18 : Int) = ((18 : Nat) : Int) from rfl,
          show (19 : Int) = ((19 : Nat) : Int) from rfl,
          show (20 : Int) = ((20 : Nat) : Int) from rfl,
          show (21 : Int) = ((21 : Nat) : Int) from rfl,
          show (22 : Int) = ((22 : Nat) : Int) from rfl,
          show (23 : Int) = ((23 : Nat) : Int) from rfl,
          show (24 : Int) = ((24 : Nat) : Int) from rfl,
          show (32 : Int) = ((32 : Nat) : Int) from rfl,
          show (48 : Int) = ((48 : Nat) : Int) from rfl, e]
        simp [hnot]
      · have hneg := pdu_id_negative st.buf hlt hbyte
        have hne : ∀ k : Int, 0 ≤ k → metadata_pdu_id st.buf 3 ≠ k := by
          intro k hk h; omega
        simp only [GET_CAPABILITIES, LIST_PLAYER_SETTING_ATTRIBUTES,
          LIST_PLAYER_SETTING_VALUES, GET_CURRENT_PLAYER_SETTING_VALUE,
          SET_PLAYER_SETTING_VALUE, GET_PLAYER_SETTING_ATTRIBUTE_TEXT,
          GET_PLAYER_SETTING_VALUE_TEXT, INFORM_DISPLAYABLE_CHARSET, INFORM_BATT_STATUS_OF_CT,
          GET_ELEMENT_ATTRIBUTES, GET_PLAY_STATUS]
        simp [hne]
    rw [hrej]
    refine ⟨_, rfl, ?_⟩
    cases o <;>
      simp [metadata_body, List.range, List.range.loop, metadata_param, set_metadata_param,
        metadata_params_ptr, metadata_ptr, set_parameter_length, metadata_parameter_length,
        load16, store16, get_code, set_code, rd_wr, length_wr, AVRCP_HEADER_LENGTH,
        SIZEOF_METADATA_HEADER, METADATA_HEADER_LENGTH, h3, h29, h30, h31, hc,
        CTYPE_REJECTED, E_INVALID_COMMAND, reject]

/-- An instance of `pdu_id_classes_where_read`: the pdu_id 0x15 gives NotImplemented, the single-packet
PDU with the undefined pdu_id 0x99 gives Rejected with the body 00. -/
theorem pdu_id_classes_where_read_example :
    (∃ st1, handle_metadata_pdu .big 0
        (pdu_in capable_control (padded_frame 0x15 0x00 0x00 [] 64)) 3 = some st1 ∧
      get_code .big st1.buf 3 = CTYPE_NOT_IMPLEMENTED) ∧
    (∃ st1, handle_metadata_pdu .big 0
        (pdu_in capable_control (padded_frame 0x99 0x00 0x00 [] 64)) 3 = some st1 ∧
      get_code .big st1.buf 3 = CTYPE_REJECTED ∧
      metadata_parameter_length .big st1.buf 3 = 1 ∧
      metadata_body st1.buf 3 1 = [E_INVALID_COMMAND]) :=
  ⟨(pdu_id_classes_where_read .big 0
      (pdu_in capable_control (padded_frame 0x15 0x00 0x00 [] 64))
      (by rw [pdu_in, length_fill]; decide) (by decide)).1 (by decide),
   (pdu_id_classes_where_read .big 0
      (pdu_in capable_control (padded_frame 0x99 0x00 0x00 [] 64))
      (by rw [pdu_in, length_fill]; decide) (by decide)).2 (by decide) (by decide)⟩

/-- The segmentation guard comes first: the metadata PDU of `fragment_frame` has the pdu_id 0x99, none
of the eleven defined ids, but its packet type is Start, so the answer has code
NotImplemented and the header and body of the request. -/
theorem fragment_not_implemented :
    rd (pdu_in capable_control fragment_frame).buf (metadata_ptr 3) = 0x99 ∧
    0x99 ∉ defined_pdu_ids ∧
    (handle_metadata_pdu .big 0 (pdu_in capable_control fragment_frame) 3).map (answer .big 1) =
      some (CTYPE_NOT_IMPLEMENTED, 0, [0x00]) ∧
    CTYPE_NOT_IMPLEMENTED ≠ CTYPE_REJECTED :=
  ⟨by rfl, by decide, by rfl, by decide⟩

/-- A byte is the sum of the four bit-fields of the first byte of struct avctp_header. -/
theorem avctp_byte_fields (o : byte_order) (x : Nat) (hx : x < 256) :
    ((avctp_transaction o).set ((avctp_packet_type o).set ((avctp_cr o).set
      ((avctp_ipid o).set 0 ((avctp_ipid o).get x)) ((avctp_cr o).get x))
      ((avctp_packet_type o).get x)) ((avctp_transaction o).get x)) % 256 = x := by
  cases o <;>
    simp [avctp_transaction, avctp_packet_type, avctp_cr, avctp_ipid, place, bitfield.get,
      bitfield.set] <;> omega

/-- A byte is the sum of `code` and `_hdr0`. -/
theorem avrcp_byte_fields (o : byte_order) (x : Nat) (hx : x < 256) :
    ((avrcp_hdr0 o).set ((avrcp_code o).set 0 ((avrcp_code o).get x))
      ((avrcp_hdr0 o).get x)) % 256 = x := by
  cases o <;> simp [avrcp_code, avrcp_hdr0, place, bitfield.get, bitfield.set] <;> omega

/-- A byte is the sum of `subunit_id` and `subunit_type`. -/
theorem subunit_byte_fields (o : byte_order) (x : Nat) (hx : x < 256) :
    ((avrcp_subunit_type o).set ((avrcp_subunit_id o).set 0 ((avrcp_subunit_id o).get x))
      ((avrcp_subunit_type o).get x)) % 256 = x := by
  cases o <;>
    simp [avrcp_subunit_id, avrcp_subunit_type, place, bitfield.get, bitfield.set] <;> omega

/-- C22 (counterexample): two different six-byte strings, which differ in the reserved
high nibble of byte 3 only, decode to the same named fields (transaction, packet_type,
cr, ipid, pid, code, subunit_type, subunit_id, opcode, operands) on both layouts, so no
encoding of these fields gives back both. -/
theorem C22_counterexample :
    (∀ o : byte_order,
      named_fields (decode o [0x00, 0x11, 0x0E, 0x11, 0x48, 0x7C]) =
        named_fields (decode o [0x00, 0x11, 0x0E, 0x01, 0x48, 0x7C])) ∧
    [0x00, 0x11, 0x0E, 0x11, 0x48, 0x7C] ≠ [0x00, 0x11, 0x0E, 0x01, 0x48, 0x7C] := by
  constructor
  · intro o; cases o <;> decide
  · decide

/-- C22 (amended): for every byte string of at least six bytes, on both layouts,
reading all fields of struct avctp_header and struct avrcp_header, the reserved bits
`_hdr0` included, and the operands, and building a frame from these fields again, gives
back the byte string. -/
theorem C22_decode_encode_round_trip (o : byte_order) (b : List Nat) (hb : is_bytes b)
    (hlen : 6 ≤ b.length) : encode o (decode o b) = b := by
  match b, hlen with
  | b0 :: b1 :: b2 :: b3 :: b4 :: b5 :: rest, _ =>
    have h0 : b0 < 256 := hb b0 (by simp)
    have h1 : b1 < 256 := hb b1 (by simp)
    have h2 : b2 < 256 := hb b2 (by simp)
    have h3 : b3 < 256 := hb b3 (by simp)
    have h4 : b4 < 256 := hb b4 (by simp)
    have h5 : b5 < 256 := hb b5 (by simp)
    have e0 := avctp_byte_fields o b0 h0
    have e3 := avrcp_byte_fields o b3 h3
    have e4 := subunit_byte_fields o b4 h4
    simp only [encode, decode, rd, List.getD_cons_zero, List.getD_cons_succ, e0, e3, e4,
      Nat.mod_eq_of_lt h5, List.drop_succ_cons, List.drop_zero]
    cases o <;>
      simp [store16, load16, wr, rd, Nat.mod_eq_of_lt h1, Nat.mod_eq_of_lt h2] <;> omega

/-- C22 (witness): the round trip at a frame whose reserved bits are set. -/
theorem C22_decode_encode_round_trip_witness :
    is_bytes [0x12, 0x11, 0x0E, 0xF1, 0x4B, 0x7C, 1, 2, 3] ∧
    6 ≤ [0x12, 0x11, 0x0E, 0xF1, 0x4B, 0x7C, 1, 2, 3].length ∧
    encode .little (decode .little [0x12, 0x11, 0x0E, 0xF1, 0x4B, 0x7C, 1, 2, 3]) =
      [0x12, 0x11, 0x0E, 0xF1, 0x4B, 0x7C, 1, 2, 3] :=
  ⟨by decide, by decide,
    C22_decode_encode_round_trip .little [0x12, 0x11, 0x0E, 0xF1, 0x4B, 0x7C, 1, 2, 3]
      (by decide) (by decide)⟩

/-- C23 (counterexample): on the little-endian layout the transaction label of a frame
whose byte 0 is 0x12 is 1, the high nibble, and not 2, the low nibble. -/
theorem C23_counterexample :
    (decode .little [0x12, 0x11, 0x0E, 0x01, 0x48, 0x7C]).avctp.transaction = 1 ∧
    rd [0x12, 0x11, 0x0E, 0x01, 0x48, 0x7C] 0 % 16 = 2 := by
  decide

/-- C23 (amended): on the little-endian layout, a frame of bytes is read with the
transaction label in the high nibble of byte 0, `ntohs` of pid the big-endian value of
bytes 1 and 2, the code in the low nibble of byte 3, subunit_type in the high five bits
and subunit_id in the low three bits of byte 4, and the opcode in byte 5. -/
theorem C23_little_endian_field_positions (b : List Nat) (hb : is_bytes b) :
    (decode .little b).avctp.transaction = rd b 0 / 16 ∧
    ntohs .little (decode .little b).avctp.pid = 256 * rd b 1 + rd b 2 ∧
    (decode .little b).avrcp.code = rd b 3 % 16 ∧
    (decode .little b).avrcp.subunit_type = rd b 4 / 8 ∧
    (decode .little b).avrcp.subunit_id = rd b 4 % 8 ∧
    (decode .little b).avrcp.opcode = rd b 5 := by
  have h0 := rd_lt_of_is_bytes b hb 0
  have h1 := rd_lt_of_is_bytes b hb 1
  have h2 := rd_lt_of_is_bytes b hb 2
  have h4 := rd_lt_of_is_bytes b hb 4
  simp [decode, avctp_transaction, avrcp_code, avrcp_subunit_type, avrcp_subunit_id, place,
    bitfield.get, ntohs, load16]
  refine ⟨?_, ?_, ?_⟩ <;> omega

/-- C23 (witness): the positions at a PASSTHROUGH frame with transaction label 1. -/
theorem C23_little_endian_field_positions_witness :
    is_bytes [0x12, 0x11, 0x0E, 0x01, 0x48, 0x7C] ∧
    (decode .little [0x12, 0x11, 0x0E, 0x01, 0x48, 0x7C]).avctp.transaction = 1 ∧
    ntohs .little (decode .little [0x12, 0x11, 0x0E, 0x01, 0x48, 0x7C]).avctp.pid = 0x110E ∧
    (decode .little [0x12, 0x11, 0x0E, 0x01, 0x48, 0x7C]).avrcp.code = 1 ∧
    (decode .little [0x12, 0x11, 0x0E, 0x01, 0x48, 0x7C]).avrcp.subunit_type = 9 ∧
    (decode .little [0x12, 0x11, 0x0E, 0x01, 0x48, 0x7C]).avrcp.subunit_id = 0 ∧
    (decode .little [0x12, 0x11, 0x0E, 0x01, 0x48, 0x7C]).avrcp.opcode = 0x7C :=
  ⟨by decide,
    C23_little_endian_field_positions [0x12, 0x11, 0x0E, 0x01, 0x48, 0x7C] (by decide)⟩

/-! ## Lemmas on the session record -/

theorem set_body_session (o : byte_order) (avrcp : Nat) (s : set_state) :
    session_of (set_body o avrcp s).st.ctl = session_of s.st.ctl := by
  unfold set_body
  simp only [set_state.reject, set_state.emit, session_of]
  split_ifs <;> rfl

theorem set_loop_session (o : byte_order) (avrcp fuel : Nat) :
    ∀ s s1, set_loop o avrcp fuel s = some s1 → session_of s1.st.ctl = session_of s.st.ctl := by
  induction fuel with
  | zero => intro s s1 h; simp [set_loop] at h
  | succ n ih =>
    intro s s1 h
    unfold set_loop at h
    split_ifs at h with hc
    · have e := ih _ _ h
      rw [e]
      exact set_body_session o avrcp s
    · simp only [Option.some.injEq] at h
      rw [← h]

theorem set_player_setting_value_session (o : byte_order) (fuel : Nat) (st st1 : pdu_state)
    (avrcp : Nat) (h : set_player_setting_value o fuel st avrcp = some st1) :
    session_of st1.ctl = session_of st.ctl := by
  unfold set_player_setting_value at h
  split_ifs at h
  · simp only [Option.some.injEq] at h; rw [← h]
  · cases hs : set_loop o avrcp fuel { i := 0, st := st } with
    | none => rw [hs] at h; simp at h
    | some s =>
      rw [hs] at h
      simp only [Option.some.injEq] at h
      rw [← h]
      exact set_loop_session o avrcp fuel _ _ hs

theorem handle_metadata_pdu_session (o : byte_order) (fuel : Nat) (st st1 : pdu_state)
    (avrcp : Nat) (h : handle_metadata_pdu o fuel st avrcp = some st1) :
    session_of st1.ctl = session_of st.ctl := by
  unfold handle_metadata_pdu at h
  dsimp only at h
  split_ifs at h <;>
    first
    | (simp only [Option.some.injEq] at h; rw [← h])
    | (simp only [Option.map_eq_some'] at h
       obtain ⟨b, _, hb⟩ := h
       rw [← hb])
    | exact set_player_setting_value_session o fuel st st1 avrcp h

theorem dispatch_session (o : byte_order) (fuel : Nat) (ctl : control) (buf : List Nat)
    (n k : Nat) (r : cb_result) (h : control_cb_dispatch o fuel ctl buf n k = some r) :
    r.ret = true ∧ session_of r.ctl = session_of ctl := by
  unfold control_cb_dispatch at h
  simp only [reply] at h
  split_ifs at h <;>
    first
    | (simp only [Option.some.injEq] at h; rw [← h]; exact ⟨rfl, rfl⟩)
    | (cases hs : handle_metadata_pdu o fuel
          { ctl := ctl, buf := set_cr o buf AVCTP_RESPONSE, out := [] } AVCTP_HEADER_LENGTH with
       | none => rw [hs] at h; simp at h
       | some st =>
         rw [hs] at h
         simp only [Option.some.injEq] at h
         rw [← h]
         exact ⟨rfl, handle_metadata_pdu_session o fuel _ _ _ hs⟩)

theorem set_state_state (ctl : control) (s : avctp_state_t) :
    (avctp_set_state ctl s).1.state = s := by
  unfold avctp_set_state; rfl

theorem failed_state (ctl : control) :
    (control_cb_failed ctl).ctl.state = .AVCTP_STATE_DISCONNECTED ∧
    (control_cb_failed ctl).ret = false ∧ (control_cb_failed ctl).written = none := by
  unfold control_cb_failed
  exact ⟨set_state_state _ _, rfl, rfl⟩

theorem control_cb_session (o : byte_order) (fuel : Nat) (ctl : control) (cond_err : Bool)
    (stack : List Nat) (rx : Option (List Nat)) (r : cb_result)
    (h : control_cb o fuel ctl cond_err stack rx = some r) :
    r.ctl.state = .AVCTP_STATE_DISCONNECTED ∨ session_of r.ctl = session_of ctl := by
  unfold control_cb at h
  split_ifs at h
  · simp only [Option.some.injEq] at h; rw [← h]; exact Or.inl (failed_state ctl).1
  · cases rx with
    | none => simp only [Option.some.injEq] at h; rw [← h]; exact Or.inl (failed_state ctl).1
    | some packet =>
      simp only at h
      split_ifs at h <;>
        first
        | (simp only [Option.some.injEq] at h; rw [← h]; exact Or.inl (failed_state ctl).1)
        | exact Or.inr (dispatch_session o fuel ctl _ _ _ r h).2

/-- Whenever `control_cb` returns from a packet of at least six bytes, it returns `TRUE`
and the state, the transport and the key sink of the session are what they were. -/
theorem control_cb_keeps_session (o : byte_order) (fuel : Nat) (ctl : control)
    (stack packet : List Nat) (r : cb_result) (hlen : 6 ≤ packet.length)
    (h : control_cb o fuel ctl false stack (some packet) = some r) :
    r.ret = true ∧ session_of r.ctl = session_of ctl := by
  rw [control_cb_eq_dispatch o fuel ctl stack packet hlen] at h
  exact dispatch_session o fuel ctl _ _ _ r h

theorem disconnected_released (ctl : control) :
    (avctp_disconnected ctl).1.io = none ∧ (avctp_disconnected ctl).1.uinput < 0 := by
  unfold avctp_disconnected
  cases hio : ctl.io <;> dsimp only <;> split_ifs <;> simp_all

theorem set_state_disconnected_released (ctl : control) :
    (avctp_set_state ctl .AVCTP_STATE_DISCONNECTED).1.io = none ∧
    (avctp_set_state ctl .AVCTP_STATE_DISCONNECTED).1.uinput < 0 := by
  have h := disconnected_released ctl
  unfold avctp_set_state
  dsimp only
  split_ifs <;> exact h

/-- C21 fails on the code: for a GET_CAPABILITIES PDU (capability id 3, EVENTS_SUPPORTED)
whose metadata header stands in operands[3..7] and whose body starts at operands[7], the
reply of `control_cb` is Rejected (code 0xA) on both layouts, bytes 9 to 13 of the reply
are the bytes received, and the answer that was written (parameter_length 1 in host order
and the error byte) stands in bytes 29 to 31: the header is read at byte 27, which is
operands[21], and the body at byte 31. -/
theorem C21_metadata_header_read_at_byte_27 :
    (control_cb .little 0 connected_session false [] (some wire_format_frame)).map
        (fun r => r.written) =
      some (some ([0x02, 0x11, 0x0E, 0x0A, 0x48, 0x00, 0x00, 0x19, 0x58, 0x10, 0x00, 0x00,
        0x01, 0x03] ++ List.replicate 15 0 ++ [0x01, 0x00, 0x00] ++ List.replicate 32 0)) ∧
    (control_cb .big 0 connected_session false [] (some wire_format_frame)).map
        (fun r => r.written) =
      some (some ([0x02, 0x11, 0x0E, 0x0A, 0x48, 0x00, 0x00, 0x19, 0x58, 0x10, 0x00, 0x00,
        0x01, 0x03] ++ List.replicate 15 0 ++ [0x00, 0x01, 0x00] ++ List.replicate 32 0)) := by
  constructor <;> rfl

/-- C24 fails on the code: for the GET_CAPABILITIES frame `padded_frame 0x10 0 1 [3] 64`
the replies of `control_cb` on the two layouts differ in the bytes of parameter_length
(bytes 29 and 30): `05 00` on the little-endian layout, `00 05` on the big-endian
one. -/
theorem C24_parameter_length_bytes_differ :
    (control_cb .little 0 connected_session false [] (some (padded_frame 0x10 0 1 [3] 64))).map
        (fun r => r.written.map (fun w => (w.drop 27).take 9)) =
      some (some [0x10, 0x00, 0x05, 0x00, 0x03, 0x03, 0x01, 0x02, 0x03]) ∧
    (control_cb .big 0 connected_session false [] (some (padded_frame 0x10 0 1 [3] 64))).map
        (fun r => r.written.map (fun w => (w.drop 27).take 9)) =
      some (some [0x10, 0x00, 0x00, 0x05, 0x03, 0x03, 0x01, 0x02, 0x03]) := by
  constructor <;> rfl

/-- C25 (counterexample): on the Connected session `connected_session` the packet
`02 11 0E` leaves the state Disconnected, not Connected; no reply is written. -/
theorem C25_counterexample :
    (control_cb .little 0 connected_session false [] (some [0x02, 0x11, 0x0E])).map
        (fun r => (r.written, r.ctl.state)) =
      some (none, .AVCTP_STATE_DISCONNECTED) := by
  rfl

/-- C25 (amended): for every received packet shorter than six bytes on a Connected
session, on both layouts and whatever the step budget, `control_cb` returns, writes no
reply and ends the session: it returns `FALSE`, the state is Disconnected, the
transport is released, no key sink is left open and the property change
`Connected` = false is emitted. -/
theorem C25_short_packet_ends_session (o : byte_order) (fuel : Nat) (ctl : control)
    (stack packet : List Nat) (hc : ctl.state = .AVCTP_STATE_CONNECTED)
    (hlen : packet.length < 6) :
    ∃ r, control_cb o fuel ctl false stack (some packet) = some r ∧ r.written = none ∧
      r.ret = false ∧ r.ctl.state = .AVCTP_STATE_DISCONNECTED ∧ r.ctl.io = none ∧
      r.ctl.uinput < 0 ∧ effect.property_changed "Connected" (.boolean false) ∈ r.out := by
  refine ⟨control_cb_failed ctl, ?_, rfl, rfl, set_state_state _ _, ?_, ?_, ?_⟩
  · have h : (packet.take BUF_SIZE).length = packet.length := by
      rw [List.length_take]; unfold BUF_SIZE; omega
    unfold control_cb
    simp only [h, AVCTP_HEADER_LENGTH, AVRCP_HEADER_LENGTH]
    split_ifs <;> first | rfl | omega
  · exact (set_state_disconnected_released ctl).1
  · exact (set_state_disconnected_released ctl).2
  · simp [control_cb_failed, avctp_set_state, hc]

/-- C25 (witness): the packet `02 11 0E` on `connected_session`. -/
theorem C25_short_packet_ends_session_witness :
    connected_session.state = .AVCTP_STATE_CONNECTED ∧ [0x02, 0x11, 0x0E].length < 6 ∧
    ∃ r, control_cb .little 0 connected_session false [] (some [0x02, 0x11, 0x0E]) = some r ∧
      r.written = none ∧ r.ret = false ∧ r.ctl.state = .AVCTP_STATE_DISCONNECTED ∧
      r.ctl.io = none ∧ r.ctl.uinput < 0 ∧
      effect.property_changed "Connected" (.boolean false) ∈ r.out :=
  ⟨rfl, by decide,
    C25_short_packet_ends_session .little 0 connected_session [] [0x02, 0x11, 0x0E] rfl
      (by decide)⟩

/-- C27 fails on the code: on the Connected session `connected_session`, for the UNITINFO
command `unit_info_frame`, `control_cb` reaches its `write`, and whatever value the
`write` returns, a negative one included, the call returns `TRUE` and the session is
still Connected with its transport and key sink. -/
theorem C27_write_result_ignored (write_ret : Int) :
    (control_cb .little 0 connected_session false [] (some unit_info_frame)).map
        (fun r => ((control_cb_after_write r write_ret).ret, r.written.isSome,
          session_of (control_cb_after_write r write_ret).ctl)) =
      some (true, true, .AVCTP_STATE_CONNECTED, some 1, 5) := by
  rfl

/-- C28 fails on the code: when `avctp_confirm_cb` gets the new channel 2 for the device
of `connected_session`, which holds the transport 1, the new channel is not shut down,
and the session is taken down: the transport 1 is shut down, the watch removed, the key
sink closed, the state is Disconnected, and the signal `Disconnected`, the property
change `Connected` = false and the state callbacks fire. -/
theorem C28_refused_connect_takes_session_down :
    (avctp_confirm_cb (some connected_session) 2 false 0 9).1.map session_of =
      some (.AVCTP_STATE_DISCONNECTED, none, -1) ∧
    (avctp_confirm_cb (some connected_session) 2 false 0 9).2 =
      [effect.channel_shutdown 1, effect.source_remove 1, effect.uinput_destroy 5,
       effect.emit_signal "Disconnected",
       effect.property_changed "Connected" (.boolean false),
       effect.deauthorize_if_inactive,
       effect.state_callbacks .AVCTP_STATE_CONNECTED .AVCTP_STATE_DISCONNECTED] := by
  constructor <;> rfl

theorem scan_body_any (o : byte_order) (ctl : control) (stack : List Nat) (i : Nat)
    (hcaps : has ctl.mpris_caps MPRIS_CAN_SCAN = true) (h : i < 256) :
    set_body o 3 { i := i, st := { ctl := ctl, buf := scan_loop_buf o stack, out := [] } } =
      { i := i, st := { ctl := ctl, buf := scan_loop_buf o stack, out := [] } } := by
  have h1 : metadata_param (scan_loop_buf o stack) 3 (2 * i + 1) = ATTRIBUTE_SCAN := by
    unfold metadata_param
    have e : metadata_params_ptr 3 + (2 * i + 1) = 32 + 2 * i := by
      simp only [metadata_params_ptr, metadata_ptr, AVRCP_HEADER_LENGTH, SIZEOF_METADATA_HEADER,
        METADATA_HEADER_LENGTH]
      omega
    rw [e, rd_scan_loop_buf o stack _ (by omega) (by omega), rd_scan_loop_tail _ (by omega)]
  unfold set_body
  simp only [h1, hcaps]
  simp [ATTRIBUTE_SCAN, ATTRIBUTE_REPEAT, ATTRIBUTE_SHUFFLE]

theorem scan_loop_any (o : byte_order) (ctl : control) (stack : List Nat) (fuel : Nat)
    (hcaps : has ctl.mpris_caps MPRIS_CAN_SCAN = true) :
    ∀ i, i < 256 →
      set_loop o 3 fuel { i := i, st := { ctl := ctl, buf := scan_loop_buf o stack, out := [] } } =
        none := by
  induction fuel with
  | zero => intro i _; rfl
  | succ n ih =>
    intro i hi
    unfold set_loop
    simp only [scan_loop_count, scan_body_any o ctl stack i hcaps hi]
    rw [if_pos (by omega)]
    exact ih _ (Nat.mod_lt _ (by decide))

theorem scan_handle_any (o : byte_order) (ctl : control) (stack : List Nat) (fuel : Nat)
    (hcaps : has ctl.mpris_caps MPRIS_CAN_SCAN = true) :
    handle_metadata_pdu o fuel { ctl := ctl, buf := scan_loop_buf o stack, out := [] } 3 =
      none := by
  have r27 : rd (scan_loop_buf o stack) 27 = 0x14 := by
    rw [rd_scan_loop_buf o stack _ (by omega) (by omega), rd_scan_loop_head _ (by omega)]; rfl
  have r28 : rd (scan_loop_buf o stack) 28 = 0 := by
    rw [rd_scan_loop_buf o stack _ (by omega) (by omega), rd_scan_loop_head _ (by omega)]; rfl
  have r29 : rd (scan_loop_buf o stack) 29 = 1 := by
    rw [rd_scan_loop_buf o stack _ (by omega) (by omega), rd_scan_loop_head _ (by omega)]; rfl
  have r30 : rd (scan_loop_buf o stack) 30 = 1 := by
    rw [rd_scan_loop_buf o stack _ (by omega) (by omega), rd_scan_loop_head _ (by omega)]; rfl
  have hpt : (metadata_packet_type o).get 0 = AVCTP_PACKET_SINGLE := by cases o <;> decide
  have hlen : ¬ metadata_parameter_length o (scan_loop_buf o stack) 3 < 1 := by
    have e : metadata_ptr 3 + 2 = 29 := by decide
    unfold metadata_parameter_length
    rw [e]
    cases o <;> simp only [load16, r29, r30] <;> omega
  have hid : metadata_pdu_id (scan_loop_buf o stack) 3 = SET_PLAYER_SETTING_VALUE := by
    have e : metadata_ptr 3 = 27 := by decide
    unfold metadata_pdu_id
    rw [e, r27]; decide
  have e28 : metadata_ptr 3 + 1 = 28 := by decide
  unfold handle_metadata_pdu
  simp only [e28, r28, hpt, hid]
  simp only [ne_eq, not_true_eq_false, ↓reduceIte, set_player_setting_value, hlen,
    scan_loop_any o ctl stack fuel hcaps 0 (by decide)]
  rw [if_neg (by decide), if_neg (by decide), if_neg (by decide), if_neg (by decide)]

/-- For a session whose player has the capability CanScan, `control_cb` does not return
from the frame `scan_loop_packet`, whatever the step budget. -/
theorem scan_control_cb_any (o : byte_order) (ctl : control) (stack : List Nat) (fuel : Nat)
    (hcaps : has ctl.mpris_caps MPRIS_CAN_SCAN = true) :
    control_cb o fuel ctl false stack (some scan_loop_packet) = none := by
  have hb := is_bytes_scan_loop_packet
  have r : ∀ i, i < 32 → rd (fill stack (scan_loop_packet.take BUF_SIZE)) i =
      rd scan_loop_head i := by
    intro i hi
    rw [rd_scan_loop_frame stack i (by omega), rd_scan_loop_head i hi]
  rw [control_cb_eq_dispatch o fuel _ stack _ (by rw [length_scan_loop_packet]; omega)]
  have hlen : (scan_loop_packet.take BUF_SIZE).length = 544 := by
    rw [List.length_take, length_scan_loop_packet]; decide
  unfold control_cb_dispatch
  simp only [pid_test_iff o _ (is_bytes_fill _ _), company_id_eq _ (is_bytes_fill _ _),
    wire_pid, wire_company_id, get_code, avrcp_opcode, AVCTP_HEADER_LENGTH,
    AVRCP_HEADER_LENGTH, Nat.reduceAdd, hlen]
  rw [r 0 (by omega), r 1 (by omega), r 2 (by omega), r 3 (by omega), r 4 (by omega),
    r 5 (by omega), r 6 (by omega), r 7 (by omega), r 8 (by omega)]
  have hh := scan_handle_any o ctl stack fuel hcaps
  simp only [scan_loop_buf, AVCTP_RESPONSE] at hh
  cases o <;> simp [hh, scan_loop_head, rd, avctp_packet_type, avctp_cr, avrcp_code,
    avrcp_subunit_type, place, bitfield.get, AVCTP_PACKET_SINGLE, AVCTP_COMMAND,
    CTYPE_CONTROL, CTYPE_STATUS, SUBUNIT_PANEL, OP_PASSTHROUGH, OP_UNITINFO, OP_SUBUNITINFO,
    OP_VENDORDEPENDENT, IEEEID_BTSIG, AVCTP_RESPONSE]

/-- C26 fails on the code: on the Connected session `connected_session` the frame
`scan_loop_packet`, a single-packet command of 544 bytes, is one from which `control_cb`
never returns, whatever the step budget, byte order and prior content of the buffer: it
does not return `TRUE`, and the session serves no further frame. -/
theorem C26_connected_session_call_never_returns (o : byte_order) (stack : List Nat)
    (fuel : Nat) :
    connected_session.state = .AVCTP_STATE_CONNECTED ∧ 6 ≤ scan_loop_packet.length ∧
    control_cb o fuel connected_session false stack (some scan_loop_packet) = none :=
  ⟨rfl, by rw [length_scan_loop_packet]; decide,
    scan_control_cb_any o connected_session stack fuel (by decide)⟩

theorem reachable_after_connect (fd : Int) : reachable 0 (session_after_connect fd) :=
  reachable.step _ _
    (reachable.step _ _ reachable.init (session_step.connect (control_init 0) (some 1)))
    (session_step.connected _ 1 false false "" fd 672 1)

theorem set_state_connected_io (ctl : control) :
    (avctp_set_state ctl .AVCTP_STATE_CONNECTED).1.io = ctl.io := by
  unfold avctp_set_state; rfl

theorem set_state_connecting_io (ctl : control) :
    (avctp_set_state ctl .AVCTP_STATE_CONNECTING).1.io = ctl.io := by
  unfold avctp_set_state; rfl

theorem init_uinput_io (ctl : control) (name : String) (fd : Int) :
    (init_uinput ctl name fd).io = ctl.io := by
  unfold init_uinput
  split_ifs <;> rfl

/-- One call keeps the invariant: a Connected session holds a transport. -/
theorem step_keeps_transport (c c1 : control) (s : session_step c c1)
    (ih : c.state = .AVCTP_STATE_CONNECTED → c.io ≠ none)
    (hc : c1.state = .AVCTP_STATE_CONNECTED) : c1.io ≠ none := by
  cases s with
  | connect _ io =>
    unfold avrcp_connect at hc ⊢
    split_ifs at hc ⊢ with h0
    · exact ih hc
    · cases io with
      | none => simp [set_state_state] at hc
      | some chan => simp
  | confirm _ _ chan get_err auth watch h =>
    unfold avctp_confirm_cb at h
    by_cases hg : get_err = true
    · simp only [hg, if_true, Option.some.injEq] at h
      rw [← h] at hc ⊢
      exact ih hc
    · by_cases hio : c.io = none
      · by_cases ha : auth < 0
        · simp only [hg, hio, ha, avctp_confirm_drop, ne_eq, not_true_eq_false, if_true,
            if_false, Option.some.injEq, Bool.false_eq_true] at h
          rw [← h] at hc
          simp [set_state_state] at hc
        · simp only [hg, hio, ha, ne_eq, not_true_eq_false, if_false, Option.some.injEq,
            Bool.false_eq_true] at h
          rw [← h]
          simp
      · simp only [hg, hio, avctp_confirm_drop, ne_eq, not_false_eq_true, if_true, if_false,
          Option.some.injEq, Bool.false_eq_true] at h
        rw [← h] at hc
        simp [set_state_state] at hc
  | auth _ denied accepted =>
    unfold auth_cb at hc ⊢
    split_ifs at hc ⊢ <;>
      first
      | (simp [set_state_state] at hc; done)
      | exact ih hc
  | connected _ chan err gerr name fd imtu watch =>
    unfold avctp_connect_cb at hc ⊢
    split_ifs at hc ⊢ with h1 h2 h3
    · simp [set_state_state] at hc
    · simp [set_state_state] at hc
    · simp [set_state_connected_io, init_uinput_io]
    · simp only [set_state_connected_io, init_uinput_io]
      exact h3
  | data o fuel _ cond_err stack rx r h =>
    rcases control_cb_session o fuel c cond_err stack rx r h with hd | hs
    · rw [hd] at hc; cases hc
    · simp only [session_of, Prod.mk.injEq] at hs
      rw [hs.2.1]
      exact ih (hs.1 ▸ hc)
  | disconnect _ =>
    unfold avrcp_disconnect at hc ⊢
    split_ifs at hc ⊢
    · exact ih hc
    · simp [set_state_state] at hc

/-- C29 (counterexample): the session that `avrcp_connect` and `avctp_connect_cb` reach
from `control_init` when `uinput_create` fails with -1 is Connected and has no open key
sink. -/
theorem C29_counterexample :
    reachable 0 (session_after_connect (-1)) ∧
    (session_after_connect (-1)).state = .AVCTP_STATE_CONNECTED ∧
    (session_after_connect (-1)).uinput < 0 :=
  ⟨reachable_after_connect (-1), rfl, by decide⟩

/-- C29 (amended): in every state reachable from `control_init` through `avrcp_connect`,
`avctp_confirm_cb`, `auth_cb`, `avctp_connect_cb`, `control_cb` and `avrcp_disconnect`, a
session whose state is Connected holds a transport: `io` is not null. -/
theorem C29_connected_session_holds_transport (uuid16 : Nat) (c : control)
    (h : reachable uuid16 c) (hc : c.state = .AVCTP_STATE_CONNECTED) : c.io ≠ none := by
  induction h with
  | init => cases hc
  | step c c1 _ s ih => exact step_keeps_transport c c1 s ih hc

/-- C29 (witness): the session reached when `uinput_create` returns 5. -/
theorem C29_connected_session_holds_transport_witness :
    reachable 0 (session_after_connect 5) ∧
    (session_after_connect 5).state = .AVCTP_STATE_CONNECTED ∧
    (session_after_connect 5).io ≠ none :=
  ⟨reachable_after_connect 5, rfl,
    C29_connected_session_holds_transport 0 (session_after_connect 5)
      (reachable_after_connect 5) rfl⟩

theorem release_bit (op : Nat) (h : op < 256) : (op &&& 0x7f) ||| 0x80 = op ||| 0x80 := by
  apply Nat.eq_of_testBit_eq
  intro i
  simp only [Nat.testBit_or, Nat.testBit_and]
  by_cases hi : i < 7
  · have e : Nat.testBit 0x7f i = true := by
      interval_cases i <;> rfl
    rw [e]; simp
  · by_cases h7 : i = 7
    · subst h7
      have e : Nat.testBit 0x80 7 = true := by rfl
      rw [e]; simp
    · have e : op.testBit i = false :=
        Nat.testBit_eq_false_of_lt (lt_of_lt_of_le h (by
          calc 256 = 2 ^ 8 := by norm_num
            _ ≤ 2 ^ i := Nat.pow_le_pow_right (by norm_num) (by omega)))
      rw [e]; simp

/-- C30 (counterexample): for the opcode byte 0xC1 and the counter value 255 the first
frame carries operands[0] = 0x41, not 0xC1, and the counter ends at 1, not at 257. -/
theorem C30_counterexample :
    (avctp_send_passthrough .little 255 0xC1 8 8).written =
      [[0xF0, 0x11, 0x0E, 0x00, 0x48, 0x7C, 0x41, 0x00],
       [0x00, 0x11, 0x0E, 0x00, 0x48, 0x7C, 0xC1, 0x00]] ∧
    (avctp_send_passthrough .little 255 0xC1 8 8).transaction = 1 := by
  constructor <;> rfl

/-- C30 (amended): for every opcode byte `op` and every value `t` of the 8-bit transaction
counter, on both layouts, `avctp_send_passthrough` with the first write succeeding, and so
with both writes succeeding, hands exactly two frames of eight bytes to `write`, each Single, Command, with pid 0x110E, code
Control, subunit Panel, opcode PASSTHROUGH and operands[1] = 0: the first has the
transaction label t mod 16 and operands[0] = op & 0x7F, the second the label
(t + 1) mod 16 and operands[0] = op | 0x80; the counter ends at (t + 2) mod 256 and the
value of the second `write` is returned. -/
theorem C30_send_passthrough_press_and_release (o : byte_order) (t op : Nat) (w1 w2 : Int)
    (hop : op < 256) (h1 : 0 ≤ w1) :
    avctp_send_passthrough o t op w1 w2 =
      { ret := w2, transaction := (t + 2) % 256,
        written :=
          [[16 * (t % 16), 0x11, 0x0E, 0x00, 0x48, 0x7C, op &&& 0x7f, 0x00],
           [16 * ((t + 1) % 16), 0x11, 0x0E, 0x00, 0x48, 0x7C, op ||| 0x80, 0x00]] } := by
  have hw : ¬ w1 < 0 := by omega
  have hm : op &&& 0x7f < 256 := lt_of_le_of_lt Nat.and_le_left hop
  have hr := release_bit op hop
  have hr2 : (op &&& 0x7f) ||| 0x80 < 256 := by
    rw [hr]; exact Nat.or_lt_two_pow (n := 8) hop (by norm_num)
  unfold avctp_send_passthrough
  simp only [hw, if_false, Nat.mod_eq_of_lt hop]
  cases o <;>
    simp [wr, rd, set_cr, set_code, store16, htons, avctp_transaction, avctp_packet_type,
      avctp_cr, avrcp_code, avrcp_subunit_type, place, bitfield.get, bitfield.set,
      AVCTP_HEADER_LENGTH, AVRCP_HEADER_LENGTH, AVCTP_PACKET_SINGLE, AVCTP_COMMAND,
      AV_REMOTE_SVCLASS_ID, CTYPE_CONTROL, SUBUNIT_PANEL, OP_PASSTHROUGH, List.replicate,
      Nat.mod_eq_of_lt hm, Nat.mod_eq_of_lt hr2, hr] <;> omega

/-- C30 (witness): VOL_UP (0x41) sent when the counter is 15: the labels are 15 and 0. -/
theorem C30_send_passthrough_press_and_release_witness :
    VOL_UP_OP < 256 ∧ (0 : Int) ≤ 8 ∧
    avctp_send_passthrough .little 15 VOL_UP_OP 8 8 =
      { ret := 8, transaction := 17,
        written :=
          [[0xF0, 0x11, 0x0E, 0x00, 0x48, 0x7C, 0x41, 0x00],
           [0x00, 0x11, 0x0E, 0x00, 0x48, 0x7C, 0xC1, 0x00]] } :=
  ⟨by decide, by decide,
    C30_send_passthrough_press_and_release .little 15 VOL_UP_OP 8 8 (by decide) (by decide)⟩

/-- C33 fails on the code: on a player with the four capabilities, the
SET_PLAYER_SETTING_VALUE PDU with the count byte 0xFF whose first pair (0x00, 0x00) is
rejected and whose second pair is (Shuffle, Group) is answered Rejected with
parameter_length 1 and E_INVALID_PARAM, but the second pair is still handled after the
rejection: shuffle becomes true and the signal SetShuffleState is emitted.  The rejection
sets the 8-bit counter to 0xFF + 1 = 0 and the count byte to 1, so the pair of index 1
is within the bound again. -/
theorem C33_pair_after_rejection_still_handled :
    capable_control.mpris_shuffle_state = false ∧
    (set_body .big 3
        { i := 0, st := pdu_in capable_control (padded_frame 0x14 0x00 0x05 [0xFF, 0, 0, 3, 3] 64) }).i
      = 0 ∧
    (handle_metadata_pdu .big 10
        (pdu_in capable_control (padded_frame 0x14 0x00 0x05 [0xFF, 0, 0, 3, 3] 64)) 3).map
      (fun st1 => (answer .big 1 st1, st1.ctl.mpris_shuffle_state, st1.out)) =
      some ((CTYPE_REJECTED, 1, [E_INVALID_PARAM]), true,
        [effect.property_changed "SetShuffleState" (.byte_at 0x03)]) := by
  refine ⟨rfl, ?_, ?_⟩ <;> rfl

/-- C34 fails on the code: two SET_PLAYER_SETTING_VALUE PDUs with the count byte 1 and the
same pair (Repeat, Single), which differ only in the two bytes after that pair (02 04 in
one frame, 00 00 in the other), get different answers and leave different player states:
the loop also takes the bytes after the first pair for a pair. -/
theorem C34_bytes_after_last_pair_are_examined :
    (handle_metadata_pdu .big 10
        (pdu_in capable_control (padded_frame 0x14 0x00 0x03 [1, 2, 2, 2, 4] 64)) 3).map
      (fun st1 => (get_code .big st1.buf 3, st1.ctl.mpris_repeat_state,
        st1.ctl.mpris_endless_state, st1.out.length)) = some (CTYPE_CONTROL, false, true, 2) ∧
    (handle_metadata_pdu .big 10
        (pdu_in capable_control (padded_frame 0x14 0x00 0x03 [1, 2, 2, 0, 0] 64)) 3).map
      (fun st1 => (get_code .big st1.buf 3, st1.ctl.mpris_repeat_state,
        st1.ctl.mpris_endless_state, st1.out.length)) = some (CTYPE_REJECTED, true, false, 1) := by
  constructor <;> rfl

/-- C35 fails on the code: on `connected_session` the reply of `control_cb` to the
SET_PLAYER_SETTING_VALUE PDU with count 1 and the pair (Shuffle, Group), followed by the
bytes (Scan, 0x00), all of which are accepted, has the code 0x0 of the request (Control):
shuffle is set and the signal emitted, and no response code is written. -/
theorem C35_accepted_set_keeps_command_code :
    (control_cb .big 10 connected_session false []
        (some (padded_frame 0x14 0x00 0x03 [1, 3, 3, 4, 0] 64))).map
      (fun r => (r.written.map (fun w => (get_code .big w 3, w.take 6)),
        r.ctl.mpris_shuffle_state, r.out)) =
      some (some (CTYPE_CONTROL, [0x02, 0x11, 0x0E, 0x00, 0x48, 0x00]), true,
        [effect.property_changed "SetShuffleState" (.byte_at 0x03)]) := by
  rfl

/-- C36 fails on the code: on a player with CanScan, `handle_metadata_pdu` does not
return from the SET_PLAYER_SETTING_VALUE PDU of `scan_loop_packet` (count 0xFF, every
attribute byte Scan), whatever the step budget, the byte order and the prior content of
the buffer. -/
theorem C36_set_loop_does_not_terminate (o : byte_order) (stack : List Nat) (fuel : Nat) :
    has capable_control.mpris_caps MPRIS_CAN_SCAN = true ∧
    metadata_pdu_id (scan_loop_buf o stack) 3 = SET_PLAYER_SETTING_VALUE ∧
    metadata_param (scan_loop_buf o stack) 3 0 = 0xFF ∧
    handle_metadata_pdu o fuel
      { ctl := capable_control, buf := scan_loop_buf o stack, out := [] } 3 = none := by
  refine ⟨by decide, ?_, scan_loop_count o stack,
    scan_handle_any o capable_control stack fuel (by decide)⟩
  have r27 : rd (scan_loop_buf o stack) 27 = 0x14 := by
    rw [rd_scan_loop_buf o stack _ (by omega) (by omega), rd_scan_loop_head _ (by omega)]; rfl
  have e : metadata_ptr 3 = 27 := by decide
  unfold metadata_pdu_id
  rw [e, r27]; decide

/-- C37 fails on the code: on a player with the four capabilities, the
GET_CURRENT_PLAYER_SETTING_VALUE PDU that requests Repeat and the unknown attribute 0x07
is answered Rejected with parameter_length 1, but the first body byte is 0x02, the count
byte of the request, and the pair (Repeat, Off) follows: the copy of `rsp` that ends the
case overwrites the error byte.  The same holds when the first attribute is the unknown
one, and for a missing capability. -/
theorem C37_error_byte_overwritten_by_copy :
    (handle_metadata_pdu .big 10
        (pdu_in capable_control (padded_frame 0x13 0x00 0x03 [2, 2, 7] 64)) 3).map (answer .big 3) =
      some (CTYPE_REJECTED, 1, [0x02, 0x02, 0x01]) ∧
    (handle_metadata_pdu .big 10
        (pdu_in capable_control (padded_frame 0x13 0x00 0x03 [2, 7, 2] 64)) 3).map (answer .big 1) =
      some (CTYPE_REJECTED, 1, [0x02]) ∧
    (handle_metadata_pdu .big 10
        (pdu_in (control_init 0) (padded_frame 0x13 0x00 0x03 [2, 2, 3] 64)) 3).map (answer .big 1) =
      some (CTYPE_REJECTED, 1, [0x02]) := by
  refine ⟨?_, ?_, ?_⟩ <;> rfl

theorem set_body_exclusive (o : byte_order) (avrcp : Nat) (s : set_state)
    (h : repeat_exclusive s.st.ctl) : repeat_exclusive (set_body o avrcp s).st.ctl := by
  unfold set_body
  simp only [set_state.reject, set_state.emit]
  unfold repeat_exclusive at h ⊢
  split_ifs <;> simp_all

theorem set_loop_exclusive (o : byte_order) (avrcp fuel : Nat) :
    ∀ s s1, set_loop o avrcp fuel s = some s1 → repeat_exclusive s.st.ctl →
      repeat_exclusive s1.st.ctl := by
  induction fuel with
  | zero => intro s s1 h; simp [set_loop] at h
  | succ n ih =>
    intro s s1 h hs
    unfold set_loop at h
    split_ifs at h with hc
    · exact ih _ _ h (set_body_exclusive o avrcp s hs)
    · simp only [Option.some.injEq] at h
      rw [← h]; exact hs

theorem handle_metadata_pdu_exclusive (o : byte_order) (fuel : Nat) (st st1 : pdu_state)
    (avrcp : Nat) (h : handle_metadata_pdu o fuel st avrcp = some st1)
    (hs : repeat_exclusive st.ctl) : repeat_exclusive st1.ctl := by
  unfold handle_metadata_pdu at h
  dsimp only at h
  split_ifs at h <;>
    first
    | (simp only [Option.some.injEq] at h; rw [← h]; exact hs)
    | (simp only [Option.map_eq_some'] at h
       obtain ⟨b, _, hb⟩ := h
       rw [← hb]; exact hs)
    | (unfold set_player_setting_value at h
       split_ifs at h
       · simp only [Option.some.injEq] at h; rw [← h]; exact hs
       · cases hl : set_loop o avrcp fuel { i := 0, st := st } with
         | none => rw [hl] at h; simp at h
         | some s =>
           rw [hl] at h
           simp only [Option.some.injEq] at h
           rw [← h]
           exact set_loop_exclusive o avrcp fuel _ _ hl hs)

/-- C31 (counterexample): starting from the record of `control_init`,
SetProperty(EndlessState, true) and then SetProperty(RepeatState, true) are both accepted;
the predicate holds after the first call and fails after the second, where repeat and
endless are both true. -/
theorem C31_counterexample :
    repeat_exclusive (set_boolean (control_init 0) "EndlessState" true).ctl ∧
    (set_boolean (set_boolean (control_init 0) "EndlessState" true).ctl "RepeatState" true).reply =
      .method_return ∧
    ¬ repeat_exclusive
      (set_boolean (set_boolean (control_init 0) "EndlessState" true).ctl "RepeatState" true).ctl := by
  refine ⟨by decide, rfl, by decide⟩

/-- C31 (amended): from a player state in which repeat and endless are not both true,
every pass of the loop of SET_PLAYER_SETTING_VALUE and every call of `handle_metadata_pdu`
that returns leave a state in which they are not both true.  SetProperty on RepeatState
or EndlessState sets the named field and leaves the other one as it was, so the
predicate holds afterwards exactly when the value set is false or the other field is
false. -/
theorem C31_repeat_exclusive_kept_by_pdu (ctl : control) (h : repeat_exclusive ctl) :
    (∀ o avrcp i buf out,
      repeat_exclusive
        (set_body o avrcp { i := i, st := { ctl := ctl, buf := buf, out := out } }).st.ctl) ∧
    (∀ o fuel buf out avrcp st1,
      handle_metadata_pdu o fuel { ctl := ctl, buf := buf, out := out } avrcp = some st1 →
        repeat_exclusive st1.ctl) ∧
    (∀ b, (set_boolean ctl "RepeatState" b).ctl =
        { ctl with mpris_repeat_state := b } ∧
      (repeat_exclusive (set_boolean ctl "RepeatState" b).ctl ↔
        (b = false ∨ ctl.mpris_endless_state = false))) ∧
    (∀ b, (set_boolean ctl "EndlessState" b).ctl =
        { ctl with mpris_endless_state := b } ∧
      (repeat_exclusive (set_boolean ctl "EndlessState" b).ctl ↔
        (b = false ∨ ctl.mpris_repeat_state = false))) := by
  refine ⟨?_, ?_, ?_, ?_⟩
  · intro o avrcp i buf out
    exact set_body_exclusive o avrcp _ h
  · intro o fuel buf out avrcp st1 hr
    exact handle_metadata_pdu_exclusive o fuel _ st1 avrcp hr h
  · intro b
    refine ⟨rfl, ?_⟩
    have e : (set_boolean ctl "RepeatState" b).ctl = { ctl with mpris_repeat_state := b } := rfl
    rw [e]
    unfold repeat_exclusive
    cases b <;> cases ctl.mpris_endless_state <;> simp
  · intro b
    refine ⟨rfl, ?_⟩
    have e : (set_boolean ctl "EndlessState" b).ctl = { ctl with mpris_endless_state := b } := rfl
    rw [e]
    unfold repeat_exclusive
    cases b <;> cases ctl.mpris_repeat_state <;> simp

/-- C31 (witness): the PDU with the pairs (Repeat, Single) and (Repeat, Group) on a
player with the four capabilities. -/
theorem C31_repeat_exclusive_kept_by_pdu_witness :
    repeat_exclusive capable_control ∧
    ∃ st1, handle_metadata_pdu .big 10
        { ctl := capable_control, buf := fill [] (padded_frame 0x14 0x00 0x03 [1, 2, 2, 2, 4] 64),
          out := [] } 3 = some st1 ∧
      repeat_exclusive st1.ctl :=
  ⟨by decide, _, rfl,
    (C31_repeat_exclusive_kept_by_pdu capable_control (by decide)).2.1 .big 10
      (fill [] (padded_frame 0x14 0x00 0x03 [1, 2, 2, 2, 4] 64)) [] 3 _ rfl⟩

theorem set_property_rejected (ctl : control) (msg : List dbus_arg)
    (h : (control_set_property ctl msg).reply = .invalid_args) :
    (control_set_property ctl msg).ctl = ctl ∧ (control_set_property ctl msg).out = [] := by
  unfold control_set_property at h ⊢
  split at h
  · rename_i property sub rest
    dsimp only at h ⊢
    split_ifs at h ⊢ <;> (cases sub <;> first | exact ⟨rfl, rfl⟩ | (simp at h))
  · exact ⟨rfl, rfl⟩

/-- C32 (counterexample): on the record of `control_init`, whose PlayerCapabilities is 0,
SetProperty(ShuffleState, true) is accepted, sets shuffle and emits PropertyChanged; and
SetProperty(PlayState, 99) is accepted and stores 99. -/
theorem C32_counterexample :
    (control_init 0).mpris_caps = 0 ∧
    (set_boolean (control_init 0) "ShuffleState" true).reply = .method_return ∧
    (set_boolean (control_init 0) "ShuffleState" true).ctl.mpris_shuffle_state = true ∧
    (set_boolean (control_init 0) "ShuffleState" true).out =
      [effect.property_changed "ShuffleState" (.boolean true)] ∧
    (set_uint32 (control_init 0) "PlayState" 99).reply = .method_return ∧
    (set_uint32 (control_init 0) "PlayState" 99).ctl.mpris_play_state = 99 := by
  refine ⟨rfl, rfl, rfl, rfl, rfl, rfl⟩

/-- C32 (amended): SetProperty on ShuffleState, RepeatState or EndlessState with a boolean
value is accepted whatever PlayerCapabilities holds, and SetProperty(PlayState, v) for
every 32-bit value v: the field is set, the method returns and PropertyChanged is emitted.
A SetProperty that is answered with InvalidArguments leaves the session record unchanged
and emits no PropertyChanged. -/
theorem C32_set_property_checks_types_only (ctl : control) (msg : List dbus_arg) (b : Bool)
    (v : Nat) :
    set_boolean ctl "ShuffleState" b =
      { ctl := { ctl with mpris_shuffle_state := b }, reply := .method_return,
        out := [effect.property_changed "ShuffleState" (.boolean b)] } ∧
    set_boolean ctl "RepeatState" b =
      { ctl := { ctl with mpris_repeat_state := b }, reply := .method_return,
        out := [effect.property_changed "RepeatState" (.boolean b)] } ∧
    set_boolean ctl "EndlessState" b =
      { ctl := { ctl with mpris_endless_state := b }, reply := .method_return,
        out := [effect.property_changed "EndlessState" (.boolean b)] } ∧
    set_uint32 ctl "PlayState" v =
      { ctl := { ctl with mpris_play_state := v }, reply := .method_return,
        out := [effect.property_changed "PlayState" (.uint32 v)] } ∧
    ((control_set_property ctl msg).reply = .invalid_args →
      (control_set_property ctl msg).ctl = ctl ∧ (control_set_property ctl msg).out = []) :=
  ⟨rfl, rfl, rfl, rfl, set_property_rejected ctl msg⟩

/-! ## Lemmas on what a reply keeps -/

theorem header_rest_wr (o : byte_order) (b : List Nat) (j v : Nat) (h : 6 ≤ j) :
    header_rest o (wr b j v) = header_rest o b := by
  unfold header_rest
  rw [rd_wr_ne _ _ _ 0 (by omega), rd_wr_ne _ _ _ 1 (by omega), rd_wr_ne _ _ _ 2 (by omega),
    rd_wr_ne _ _ _ 3 (by omega), rd_wr_ne _ _ _ 4 (by omega), rd_wr_ne _ _ _ 5 (by omega)]

theorem header_rest_set_cr (o : byte_order) (b : List Nat) (v : Nat) :
    header_rest o (set_cr o b v) = header_rest o b := by
  unfold header_rest set_cr
  rw [rd_wr_ne _ _ _ 1 (by omega), rd_wr_ne _ _ _ 2 (by omega),
    rd_wr_ne _ _ _ 3 (by omega), rd_wr_ne _ _ _ 4 (by omega), rd_wr_ne _ _ _ 5 (by omega),
    rd_wr]
  split_ifs
  · have e1 : (avctp_transaction o).get ((avctp_cr o).set (rd b 0) v % 256) =
        (avctp_transaction o).get (rd b 0) := by
      cases o <;> simp [avctp_transaction, avctp_cr, place, bitfield.get, bitfield.set] <;> omega
    have e2 : (avctp_packet_type o).get ((avctp_cr o).set (rd b 0) v % 256) =
        (avctp_packet_type o).get (rd b 0) := by
      cases o <;> simp [avctp_packet_type, avctp_cr, place, bitfield.get, bitfield.set] <;> omega
    rw [e1, e2]
  · rfl

theorem header_rest_set_ipid (o : byte_order) (b : List Nat) (v : Nat) :
    header_rest o (set_ipid o b v) = header_rest o b := by
  unfold header_rest set_ipid
  rw [rd_wr_ne _ _ _ 1 (by omega), rd_wr_ne _ _ _ 2 (by omega),
    rd_wr_ne _ _ _ 3 (by omega), rd_wr_ne _ _ _ 4 (by omega), rd_wr_ne _ _ _ 5 (by omega),
    rd_wr]
  split_ifs
  · have e1 : (avctp_transaction o).get ((avctp_ipid o).set (rd b 0) v % 256) =
        (avctp_transaction o).get (rd b 0) := by
      cases o <;> simp [avctp_transaction, avctp_ipid, place, bitfield.get, bitfield.set] <;> omega
    have e2 : (avctp_packet_type o).get ((avctp_ipid o).set (rd b 0) v % 256) =
        (avctp_packet_type o).get (rd b 0) := by
      cases o <;> simp [avctp_packet_type, avctp_ipid, place, bitfield.get, bitfield.set] <;> omega
    rw [e1, e2]
  · rfl

theorem header_rest_set_code (o : byte_order) (b : List Nat) (v : Nat) :
    header_rest o (set_code o b 3 v) = header_rest o b := by
  unfold header_rest set_code
  rw [rd_wr_ne _ _ _ 0 (by omega), rd_wr_ne _ _ _ 1 (by omega), rd_wr_ne _ _ _ 2 (by omega),
    rd_wr_ne _ _ _ 4 (by omega), rd_wr_ne _ _ _ 5 (by omega), rd_wr]
  split_ifs
  · have e1 : (avrcp_hdr0 o).get ((avrcp_code o).set (rd b 3) v % 256) =
        (avrcp_hdr0 o).get (rd b 3) := by
      cases o <;> simp [avrcp_hdr0, avrcp_code, place, bitfield.get, bitfield.set] <;> omega
    rw [e1]
  · rfl

theorem header_rest_take (o : byte_order) (b : List Nat) (n : Nat) (h : 6 ≤ n) :
    header_rest o (b.take n) = header_rest o b := by
  unfold header_rest
  rw [rd_take _ _ 0 (by omega), rd_take _ _ 1 (by omega), rd_take _ _ 2 (by omega),
    rd_take _ _ 3 (by omega), rd_take _ _ 4 (by omega), rd_take _ _ 5 (by omega)]

theorem drop_wr_lt (b : List Nat) (j v : Nat) (h : j < 6) : (wr b j v).drop 6 = b.drop 6 := by
  unfold wr
  rw [List.drop_set, if_pos h]

theorem header_rest_set_parameter_length (o : byte_order) (b : List Nat) (v : Nat) :
    header_rest o (set_parameter_length o b 3 v) = header_rest o b := by
  unfold set_parameter_length store16
  cases o <;> simp only [] <;>
    rw [header_rest_wr _ _ _ _ (by
        simp only [metadata_ptr, AVRCP_HEADER_LENGTH, SIZEOF_METADATA_HEADER]; omega),
      header_rest_wr _ _ _ _ (by
        simp only [metadata_ptr, AVRCP_HEADER_LENGTH, SIZEOF_METADATA_HEADER]; omega)]

theorem length_set_parameter_length (o : byte_order) (b : List Nat) (a v : Nat) :
    (set_parameter_length o b a v).length = b.length := by
  unfold set_parameter_length store16
  cases o <;> simp only [length_wr]

theorem header_rest_set_metadata_param (o : byte_order) (b : List Nat) (k v : Nat) :
    header_rest o (set_metadata_param b 3 k v) = header_rest o b := by
  unfold set_metadata_param
  exact header_rest_wr _ _ _ _ (by
    simp only [metadata_params_ptr, metadata_ptr, AVRCP_HEADER_LENGTH, SIZEOF_METADATA_HEADER,
      METADATA_HEADER_LENGTH]
    omega)

theorem length_set_metadata_param (b : List Nat) (a k v : Nat) :
    (set_metadata_param b a k v).length = b.length := by
  unfold set_metadata_param; exact length_wr _ _ _

theorem memcpy_keeps (o : byte_order) (src : List Nat) (s d : Nat) (h : 6 ≤ d) (n : Nat) :
    ∀ b : List Nat, header_rest o (memcpy b d src s n) = header_rest o b ∧
      (memcpy b d src s n).length = b.length := by
  unfold memcpy
  induction n with
  | zero => intro b; simp
  | succ m ih =>
    intro b
    rw [List.range_succ, List.foldl_append]
    simp only [List.foldl_cons, List.foldl_nil]
    rw [header_rest_wr _ _ _ _ (by omega), length_wr]
    exact ih b

theorem reject_keeps (o : byte_order) (b : List Nat) (err : Nat) :
    header_rest o (reject o b 3 err) = header_rest o b ∧ (reject o b 3 err).length = b.length := by
  unfold reject
  simp only [header_rest_set_code, header_rest_set_parameter_length,
    header_rest_set_metadata_param, length_set_code, length_set_parameter_length,
    length_set_metadata_param, and_self]

theorem append_param_keeps (o : byte_order) (b : List Nat) (v : Nat) :
    header_rest o (append_param o b 3 v) = header_rest o b ∧
      (append_param o b 3 v).length = b.length := by
  unfold append_param
  simp only [header_rest_set_parameter_length, header_rest_set_metadata_param,
    length_set_parameter_length, length_set_metadata_param, and_self]

theorem get_capabilities_keeps (o : byte_order) (b : List Nat) :
    header_rest o (get_capabilities o b 3) = header_rest o b ∧
      (get_capabilities o b 3).length = b.length := by
  unfold get_capabilities
  split_ifs <;>
    simp only [header_rest_set_code, header_rest_set_parameter_length,
      header_rest_set_metadata_param, length_set_code, length_set_parameter_length,
      length_set_metadata_param, reject_keeps, and_self]

theorem list_attributes_keeps (o : byte_order) (ctl : control) (b : List Nat) :
    header_rest o (list_player_setting_attributes o ctl b 3) = header_rest o b ∧
      (list_player_setting_attributes o ctl b 3).length = b.length := by
  unfold list_player_setting_attributes
  dsimp only
  split_ifs <;>
    simp only [header_rest_set_code, header_rest_set_parameter_length,
      header_rest_set_metadata_param, length_set_code, length_set_parameter_length,
      length_set_metadata_param, append_param_keeps, and_self]

theorem list_values_keeps (o : byte_order) (ctl : control) (b : List Nat) :
    header_rest o (list_player_setting_values o ctl b 3) = header_rest o b ∧
      (list_player_setting_values o ctl b 3).length = b.length := by
  unfold list_player_setting_values
  dsimp only
  split_ifs <;>
    simp only [header_rest_set_code, header_rest_set_parameter_length,
      header_rest_set_metadata_param, length_set_code, length_set_parameter_length,
      length_set_metadata_param, append_param_keeps, reject_keeps, and_self]

theorem get_play_status_keeps (o : byte_order) (b : List Nat) :
    header_rest o (get_play_status o b 3) = header_rest o b ∧
      (get_play_status o b 3).length = b.length := by
  unfold get_play_status
  simp only [List.range, List.range.loop, List.foldl_cons, List.foldl_nil,
    header_rest_set_code, header_rest_set_metadata_param, length_set_code,
    length_set_metadata_param, and_self]

theorem get_current_body_keeps (o : byte_order) (ctl : control) (s : rsp_state) :
    header_rest o (get_current_body o ctl 3 s).buf = header_rest o s.buf ∧
      (get_current_body o ctl 3 s).buf.length = s.buf.length := by
  unfold get_current_body
  dsimp only
  split_ifs <;> simp only [rsp_state.reject, rsp_state.push, reject_keeps, and_self]

theorem get_current_loop_keeps (o : byte_order) (ctl : control) (fuel : Nat) :
    ∀ s s1, get_current_loop o ctl 3 fuel s = some s1 →
      header_rest o s1.buf = header_rest o s.buf ∧ s1.buf.length = s.buf.length := by
  induction fuel with
  | zero => intro s s1 h; simp [get_current_loop] at h
  | succ n ih =>
    intro s s1 h
    unfold get_current_loop at h
    split_ifs at h
    · have e := ih _ _ h
      have b := get_current_body_keeps o ctl s
      exact ⟨e.1.trans b.1, e.2.trans b.2⟩
    · simp only [Option.some.injEq] at h
      rw [← h]; exact ⟨rfl, rfl⟩

theorem params_ptr_ge : 6 ≤ metadata_params_ptr 3 := by decide

theorem get_current_keeps (o : byte_order) (fuel : Nat) (ctl : control) (b b1 : List Nat)
    (h : get_current_player_setting_value o fuel ctl b 3 = some b1) :
    header_rest o b1 = header_rest o b ∧ b1.length = b.length := by
  unfold get_current_player_setting_value at h
  split_ifs at h
  · simp only [Option.some.injEq] at h
    rw [← h]; exact reject_keeps o b _
  · dsimp only at h
    split at h
    · simp at h
    · rename_i s hs
      simp only [Option.some.injEq] at h
      have e := get_current_loop_keeps o ctl fuel _ _ hs
      have m := memcpy_keeps o s.rsp 0 (metadata_params_ptr 3) params_ptr_ge s.rsp_i s.buf
      rw [← h]
      simp only [header_rest_set_code, header_rest_set_parameter_length, length_set_code,
        length_set_parameter_length] at e
      exact ⟨m.1.trans e.1, m.2.trans e.2⟩

theorem set_body_keeps (o : byte_order) (s : set_state) :
    header_rest o (set_body o 3 s).st.buf = header_rest o s.st.buf ∧
      (set_body o 3 s).st.buf.length = s.st.buf.length := by
  unfold set_body
  dsimp only
  split_ifs <;> simp only [set_state.reject, set_state.emit, reject_keeps, and_self]

theorem set_loop_keeps (o : byte_order) (fuel : Nat) :
    ∀ s s1, set_loop o 3 fuel s = some s1 →
      header_rest o s1.st.buf = header_rest o s.st.buf ∧
        s1.st.buf.length = s.st.buf.length := by
  induction fuel with
  | zero => intro s s1 h; simp [set_loop] at h
  | succ n ih =>
    intro s s1 h
    unfold set_loop at h
    split_ifs at h
    · have e := ih _ _ h
      have b := set_body_keeps o s
      exact ⟨e.1.trans b.1, e.2.trans b.2⟩
    · simp only [Option.some.injEq] at h
      rw [← h]; exact ⟨rfl, rfl⟩

theorem set_value_keeps (o : byte_order) (fuel : Nat) (st st1 : pdu_state)
    (h : set_player_setting_value o fuel st 3 = some st1) :
    header_rest o st1.buf = header_rest o st.buf ∧ st1.buf.length = st.buf.length := by
  unfold set_player_setting_value at h
  split_ifs at h
  · simp only [Option.some.injEq] at h
    rw [← h]; exact reject_keeps o st.buf _
  · cases hs : set_loop o 3 fuel { i := 0, st := st } with
    | none => rw [hs] at h; simp at h
    | some s =>
      rw [hs] at h
      simp only [Option.some.injEq] at h
      rw [← h]
      exact set_loop_keeps o fuel _ _ hs

theorem element_entry_buf (s : rsp_state) (c : Nat) (text : String) :
    (element_entry s c text).buf = s.buf := by
  unfold element_entry
  simp only [rsp_state.push]

theorem element_loop_keeps (o : byte_order) (fuel : Nat) :
    ∀ s b1, (element_loop o 3 fuel s = some (.returned b1) ∨
        element_loop o 3 fuel s = some (.fell_through b1)) →
      header_rest o b1 = header_rest o s.buf ∧ b1.length = s.buf.length := by
  induction fuel with
  | zero => intro s b1 h; simp [element_loop] at h
  | succ n ih =>
    intro s b1 h
    unfold element_loop at h
    split_ifs at h
    · dsimp only at h
      split at h
      · simp only [Option.some.injEq, element_exit.returned.injEq, reduceCtorEq, or_false] at h
        rw [← h]; exact reject_keeps o s.buf _
      · rename_i c text _
        have hb : (element_entry s c text).buf = s.buf := element_entry_buf s c text
        generalize element_entry s c text = t at h hb
        have e := ih _ b1 h
        dsimp only [rsp_state.push] at e
        have m := memcpy_keeps o
        rw [(m _ 0 (metadata_params_ptr 3) params_ptr_ge _ t.buf).1,
          (m _ 0 (metadata_params_ptr 3) params_ptr_ge _ t.buf).2, hb] at e
        exact e
    · simp only [Option.some.injEq, reduceCtorEq, element_exit.fell_through.injEq,
        false_or] at h
      rw [← h]; exact ⟨rfl, rfl⟩

theorem get_element_attributes_keeps (o : byte_order) (fuel : Nat) (b b1 : List Nat)
    (h : get_element_attributes o fuel b 3 = some b1) :
    header_rest o b1 = header_rest o b ∧ b1.length = b.length := by
  unfold get_element_attributes at h
  dsimp only at h
  split_ifs at h
  · simp only [Option.some.injEq] at h
    rw [← h]; exact reject_keeps o b _
  · split at h
    · simp at h
    · rename_i b2 hs
      simp only [Option.some.injEq] at h
      have e := element_loop_keeps o fuel _ b2 (Or.inl hs)
      simp only [rsp_state.push, header_rest_set_code, length_set_code] at e
      rw [← h]; exact e
    · rename_i b2 hs
      simp only [Option.some.injEq] at h
      have e := element_loop_keeps o fuel _ b2 (Or.inr hs)
      simp only [rsp_state.push, header_rest_set_code, length_set_code] at e
      have p := get_play_status_keeps o b2
      rw [← h]; exact ⟨p.1.trans e.1, p.2.trans e.2⟩

theorem handle_metadata_pdu_keeps (o : byte_order) (fuel : Nat) (st st1 : pdu_state)
    (h : handle_metadata_pdu o fuel st 3 = some st1) :
    header_rest o st1.buf = header_rest o st.buf ∧ st1.buf.length = st.buf.length := by
  unfold handle_metadata_pdu at h
  dsimp only at h
  split_ifs at h
  · simp only [Option.some.injEq] at h
    rw [← h]; exact ⟨header_rest_set_code o _ _, length_set_code o _ _ _⟩
  · simp only [Option.some.injEq] at h
    rw [← h]; exact get_capabilities_keeps o _
  · simp only [Option.some.injEq] at h
    rw [← h]; exact list_attributes_keeps o _ _
  · simp only [Option.some.injEq] at h
    rw [← h]; exact list_values_keeps o _ _
  · simp only [Option.map_eq_some'] at h
    obtain ⟨b, hb, e⟩ := h
    rw [← e]; exact get_current_keeps o fuel _ _ _ hb
  · exact set_value_keeps o fuel st st1 h
  · simp only [Option.some.injEq] at h
    rw [← h]; exact ⟨header_rest_set_code o _ _, length_set_code o _ _ _⟩
  · simp only [Option.map_eq_some'] at h
    obtain ⟨b, hb, e⟩ := h
    rw [← e]; exact get_element_attributes_keeps o fuel _ _ hb
  · simp only [Option.some.injEq] at h
    rw [← h]; exact get_play_status_keeps o _
  · simp only [Option.some.injEq] at h
    rw [← h]; exact reject_keeps o _ _

theorem drop_set_cr (o : byte_order) (b : List Nat) (v : Nat) :
    (set_cr o b v).drop 6 = b.drop 6 := by
  unfold set_cr; exact drop_wr_lt _ _ _ (by decide)

theorem drop_set_ipid (o : byte_order) (b : List Nat) (v : Nat) :
    (set_ipid o b v).drop 6 = b.drop 6 := by
  unfold set_ipid; exact drop_wr_lt _ _ _ (by decide)

theorem drop_set_code (o : byte_order) (b : List Nat) (v : Nat) :
    (set_code o b 3 v).drop 6 = b.drop 6 := by
  unfold set_code; exact drop_wr_lt _ _ _ (by decide)

/-- What the buffer handed to `write` keeps of the buffer that `read` filled. -/
theorem dispatch_keeps (o : byte_order) (fuel : Nat) (ctl : control) (B : List Nat)
    (n k : Nat) (r : cb_result) (w : List Nat)
    (h : control_cb_dispatch o fuel ctl B n k = some r) (hw : r.written = some w) :
    ∃ B1, w = B1.take n ∧ B1.length = B.length ∧ header_rest o B1 = header_rest o B ∧
      (¬ unit_info_branch o B →
        ¬ ((avctp_packet_type o).get (rd B 0) = AVCTP_PACKET_SINGLE ∧
            avctp_pid o B = htons o AV_REMOTE_SVCLASS_ID ∧
            ((avctp_cr o).get (rd B 0) = AVCTP_COMMAND ∧
              ((avrcp_code o).get (rd B 3) = CTYPE_STATUS ∨
                (avrcp_code o).get (rd B 3) = CTYPE_CONTROL) ∧
              (avrcp_subunit_type o).get (rd B 4) = SUBUNIT_PANEL ∧
              avrcp_opcode B 3 = OP_VENDORDEPENDENT ∧ k ≥ 3) ∧
            (rd B 6 <<< 16) ||| (rd B 7 <<< 8) ||| rd B 8 = IEEEID_BTSIG) →
        B1.drop 6 = B.drop 6) := by
  unfold control_cb_dispatch at h
  simp only [reply, AVCTP_HEADER_LENGTH, AVRCP_HEADER_LENGTH, Nat.reduceAdd, get_code] at h
  split_ifs at h with h1 h2 h3 h4 h5 h6
  all_goals first
    | (simp only [Option.some.injEq] at h
       subst h
       first
       | (simp only [Option.some.injEq] at hw
          refine ⟨_, hw.symm, ?_, ?_, ?_⟩
          · simp only [length_wr, length_set_code, length_set_cr, length_set_ipid]
          · simp only [header_rest_wr _ _ _ _ (Nat.le_refl 6),
              header_rest_wr _ _ _ _ (Nat.le_succ 6), header_rest_set_code, header_rest_set_cr,
              header_rest_set_ipid]
          · first
            | (intro _ _
               simp only [drop_set_code, drop_set_cr, drop_set_ipid])
            | (intro hu _
               exfalso
               apply hu
               unfold unit_info_branch decode
               simp only [avctp_pid, avrcp_opcode, Nat.reduceAdd] at h1 h2 h4 ⊢
               exact ⟨not_not.mp h1, not_not.mp h2, h4.1, h4.2.1, h4.2.2⟩))
       | (simp at hw))
    | (rename_i m5 m6
       split at h
       · simp at h
       · rename_i st hs
         simp only [Option.some.injEq] at h
         subst h
         simp only [Option.some.injEq] at hw
         have e := handle_metadata_pdu_keeps o fuel _ st hs
         simp only [header_rest_set_cr, length_set_cr] at e
         refine ⟨_, hw.symm, e.2, e.1, ?_⟩
         intro _ hm
         exfalso
         apply hm
         exact ⟨not_not.mp h1, not_not.mp h2, m5, m6⟩)

/-- C38: for every frame of at least six bytes that `control_cb` answers, on both layouts,
the reply has the byte length of the frame received (the packet, of which `read` stores
at most `sizeof(buf)` bytes) and the same transaction label, packet_type, pid,
subunit_type, subunit_id and opcode; when the frame is taken neither by the UNITINFO /
SUBUNITINFO branch nor by the metadata branch, the reserved bits and the operand bytes of
the reply are those of the frame too, so that the reply differs from the frame in the cr
bit, the ipid bit and the code only. -/
theorem C38_reply_keeps_frame (o : byte_order) (fuel : Nat) (ctl : control)
    (stack packet : List Nat) (r : cb_result) (w : List Nat) (hb : is_bytes packet)
    (h6 : 6 ≤ packet.length)
    (hr : control_cb o fuel ctl false stack (some packet) = some r)
    (hw : r.written = some w) :
    w.length = (packet.take BUF_SIZE).length ∧
    (decode o w).avctp.transaction = (decode o (packet.take BUF_SIZE)).avctp.transaction ∧
    (decode o w).avctp.packet_type = (decode o (packet.take BUF_SIZE)).avctp.packet_type ∧
    (decode o w).avctp.pid = (decode o (packet.take BUF_SIZE)).avctp.pid ∧
    (decode o w).avrcp.subunit_type = (decode o (packet.take BUF_SIZE)).avrcp.subunit_type ∧
    (decode o w).avrcp.subunit_id = (decode o (packet.take BUF_SIZE)).avrcp.subunit_id ∧
    (decode o w).avrcp.opcode = (decode o (packet.take BUF_SIZE)).avrcp.opcode ∧
    (¬ unit_info_branch o (packet.take BUF_SIZE) → ¬ metadata_branch o (packet.take BUF_SIZE) →
      (decode o w).avrcp._hdr0 = (decode o (packet.take BUF_SIZE)).avrcp._hdr0 ∧
      (decode o w).operands = (decode o (packet.take BUF_SIZE)).operands) := by
  have hbR : is_bytes (packet.take BUF_SIZE) := is_bytes_take _ hb _
  have hn6 : 6 ≤ (packet.take BUF_SIZE).length := by
    rw [List.length_take]; unfold BUF_SIZE; omega
  have hnle : (packet.take BUF_SIZE).length ≤ BUF_SIZE := by
    rw [List.length_take]; omega
  rw [control_cb_eq_dispatch o fuel ctl stack packet h6] at hr
  generalize hR : packet.take BUF_SIZE = R at *
  have hB : (fill stack R).take R.length = R := take_fill stack R hbR hnle
  have hlB := length_fill stack R
  generalize fill stack R = B at *
  obtain ⟨B1, hwB, hl1, hh, hops⟩ := dispatch_keeps o fuel ctl B R.length (R.length - 6) r w hr hw
  have hrB : ∀ i, i < R.length → rd B i = rd R i := by
    intro i hi
    have e := rd_take B R.length i hi
    rw [hB] at e
    exact e.symm
  have hhw : header_rest o w = header_rest o R := by
    rw [hwB, header_rest_take _ _ _ hn6, hh, ← header_rest_take o B R.length hn6, hB]
  simp only [header_rest, List.cons.injEq, and_true] at hhw
  obtain ⟨e0, e1, e2, e3, e4, e5, e6⟩ := hhw
  refine ⟨?_, ?_, ?_, ?_, ?_, ?_, ?_, ?_⟩
  · rw [hwB, List.length_take, hl1, hlB]; omega
  · exact e0
  · exact e1
  · simp only [decode, load16]
    cases o <;> simp only [Nat.reduceAdd, e2, e3]
  · simp only [decode, e5]
  · simp only [decode, e5]
  · simp only [decode, e6]
  · intro hu hm
    refine ⟨e4, ?_⟩
    have hd : B1.drop 6 = B.drop 6 := by
      apply hops
      · intro hUB
        apply hu
        unfold unit_info_branch decode at hUB ⊢
        simp only [load16] at hUB ⊢
        rw [hrB 0 (by omega), hrB 1 (by omega), hrB 3 (by omega), hrB 5 (by omega)] at hUB
        cases o <;> simp only [Nat.reduceAdd] at hUB ⊢ <;>
          rw [hrB 2 (by omega)] at hUB <;> exact hUB
      · intro hMB
        apply hm
        obtain ⟨m1, m2, ⟨m3, m4, m5, m6, m7⟩, m8⟩ := hMB
        have h9 : 9 ≤ R.length := by omega
        unfold metadata_branch decode
        simp only [avctp_pid, avrcp_opcode, load16, Nat.reduceAdd, List.length_drop] at m1 m2 m3 m4 m5 m6 m8 ⊢
        rw [hrB 0 (by omega)] at m1 m3
        rw [hrB 3 (by omega)] at m4
        rw [hrB 4 (by omega)] at m5
        rw [hrB 5 (by omega)] at m6
        rw [hrB 6 (by omega), hrB 7 (by omega), hrB 8 (by omega)] at m8
        refine ⟨m1, ?_, m3, m4, m5, m6, m7, m8⟩
        cases o <;> simp only [] at m2 ⊢ <;>
          rw [hrB 1 (by omega), hrB 2 (by omega)] at m2 <;> exact m2
    show w.drop 6 = R.drop 6
    have e : R.drop 6 = (B.take R.length).drop 6 := by rw [hB]
    rw [e, hwB, List.drop_take, List.drop_take, hd]

/-- C38 (witness): the PASSTHROUGH press of PLAY with the transaction label 1 on
`connected_session`: the reply has eight bytes and the operands 44 00 of the frame. -/
theorem C38_reply_keeps_frame_witness :
    is_bytes [0x10, 0x11, 0x0E, 0x00, 0x48, 0x7C, 0x44, 0x00] ∧
    6 ≤ [0x10, 0x11, 0x0E, 0x00, 0x48, 0x7C, 0x44, 0x00].length ∧
    ∃ r w, control_cb .little 0 connected_session false []
        (some [0x10, 0x11, 0x0E, 0x00, 0x48, 0x7C, 0x44, 0x00]) = some r ∧
      r.written = some w ∧ w.length = 8 ∧
      (decode .little w).avctp.transaction = 1 ∧
      (decode .little w).operands = [0x44, 0x00] :=
  ⟨by decide, by decide, _, _, rfl, rfl,
    (C38_reply_keeps_frame .little 0 connected_session []
      [0x10, 0x11, 0x0E, 0x00, 0x48, 0x7C, 0x44, 0x00] _ _ (by decide) (by decide) rfl rfl).1,
    (C38_reply_keeps_frame .little 0 connected_session []
      [0x10, 0x11, 0x0E, 0x00, 0x48, 0x7C, 0x44, 0x00] _ _ (by decide) (by decide) rfl rfl).2.1,
    ((C38_reply_keeps_frame .little 0 connected_session []
      [0x10, 0x11, 0x0E, 0x00, 0x48, 0x7C, 0x44, 0x00] _ _ (by decide) (by decide) rfl
      rfl).2.2.2.2.2.2.2 (by decide) (by decide)).2⟩

/-- C9 fails on the code: on `connected_session`, the Status frame that carries the
GET_CAPABILITIES PDU `10 00 00 01` with the capability id 03 in operands[3..8] is answered,
on both layouts, with code Rejected; parameter_length (bytes 11, 12) is still 1 and the
body (from byte 13) is still `03 00 00 00 00`, not `03 03 01 02 03`.  The code reads its
header at byte 27, finds pdu_id 0 there and writes its rejection (parameter_length 1 in
host order, error byte 0x00) to bytes 29 to 31.  With the capability id 07 the body is
still `07`, not E_INVALID_PARAM. -/
theorem C9_wire_format_get_capabilities_rejected :
    wire_exchange .little 0 5 connected_session (wire_pdu_frame 0x01 0x10 0 [3] 64) =
      some (some (CTYPE_REJECTED, 1, [0x03, 0, 0, 0, 0]), some [0, 0, 1, 0, 0],
        (false, false, false), []) ∧
    wire_exchange .big 0 5 connected_session (wire_pdu_frame 0x01 0x10 0 [3] 64) =
      some (some (CTYPE_REJECTED, 1, [0x03, 0, 0, 0, 0]), some [0, 0, 0, 1, 0],
        (false, false, false), []) ∧
    wire_exchange .big 0 1 connected_session (wire_pdu_frame 0x01 0x10 0 [7] 64) =
      some (some (CTYPE_REJECTED, 1, [0x07]), some [0, 0, 0, 1, 0],
        (false, false, false), []) := by
  refine ⟨?_, ?_, ?_⟩ <;> rfl

/-- C10 fails on the code: after SetProperty(PlayerCapabilities, 0x780) on
`connected_session`, the Status frame that carries the LIST_PLAYER_SETTING_ATTRIBUTES PDU
`11 00 00 00` in operands[3..7] is answered, on both layouts, with code Rejected,
parameter_length 0 and no attribute id in the body, where the claim wants Stable,
parameter_length 4 and the body `03 02 03 04`. -/
theorem C10_wire_format_list_attributes_rejected :
    (set_uint32 connected_session "PlayerCapabilities" 0x780).ctl.mpris_caps = 0x780 ∧
    wire_exchange .little 0 4 (set_uint32 connected_session "PlayerCapabilities" 0x780).ctl
        (wire_pdu_frame 0x01 0x11 0 [] 64) =
      some (some (CTYPE_REJECTED, 0, [0, 0, 0, 0]), some [0, 0, 1, 0, 0],
        (false, false, false), []) ∧
    wire_exchange .big 0 4 (set_uint32 connected_session "PlayerCapabilities" 0x780).ctl
        (wire_pdu_frame 0x01 0x11 0 [] 64) =
      some (some (CTYPE_REJECTED, 0, [0, 0, 0, 0]), some [0, 0, 0, 1, 0],
        (false, false, false), []) := by
  refine ⟨?_, ?_, ?_⟩ <;> rfl

/-- C11 fails on the code: on `connected_session`, whose player has CanRepeat and CanLoop,
the Status frame that carries the LIST_PLAYER_SETTING_VALUES PDU `12 00 00 01` with the
attribute Repeat in operands[3..8] is answered, on both layouts, with code Rejected,
parameter_length 1 and the body `02 00 00 00`, where the claim wants Stable,
parameter_length 4 and the body `03 01 02 04`. -/
theorem C11_wire_format_list_values_rejected :
    wire_exchange .little 0 4 connected_session (wire_pdu_frame 0x01 0x12 0 [2] 64) =
      some (some (CTYPE_REJECTED, 1, [0x02, 0, 0, 0]), some [0, 0, 1, 0, 0],
        (false, false, false), []) ∧
    wire_exchange .big 0 4 connected_session (wire_pdu_frame 0x01 0x12 0 [2] 64) =
      some (some (CTYPE_REJECTED, 1, [0x02, 0, 0, 0]), some [0, 0, 0, 1, 0],
        (false, false, false), []) := by
  constructor <;> rfl

/-- C15 fails on the code: on `connected_session`, whose player has CanRepeat, the Control
frame that carries the SET_PLAYER_SETTING_VALUE PDU `14 00 00 03` with the count 1 and
the pair (Repeat, ATTRIBUTE_REPEAT_ALL) in operands[3..10] is answered with code Rejected
on both layouts, but parameter_length is still 3 and the body still the three bytes
`01 02 03` of the request, not the one byte E_INVALID_PARAM: the code finds pdu_id 0 at
byte 27 and writes parameter_length 1, in host order, and the error byte 0x00
(E_INVALID_COMMAND) to bytes 29 to 31.  The player state is unchanged and no signal is
emitted. -/
theorem C15_wire_format_repeat_all_body_kept :
    wire_exchange .little 10 3 connected_session (wire_pdu_frame 0x00 0x14 0 [1, 2, 3] 64) =
      some (some (CTYPE_REJECTED, 3, [0x01, 0x02, 0x03]), some [0, 0, 1, 0, 0],
        (false, false, false), []) ∧
    wire_exchange .big 10 3 connected_session (wire_pdu_frame 0x00 0x14 0 [1, 2, 3] 64) =
      some (some (CTYPE_REJECTED, 3, [0x01, 0x02, 0x03]), some [0, 0, 0, 1, 0],
        (false, false, false), []) := by
  constructor <;> rfl

/-- C20 fails on the code: on `connected_session`, the Status frame that carries the PDU
GET_PLAYER_SETTING_ATTRIBUTE_TEXT (pdu_id 0x15) in operands[3..7] is answered with code
Rejected on both layouts, not NotImplemented; the frame with the undefined pdu_id 0x99 is
answered Rejected with parameter_length still 0, not 1.  In both cases the code reads
pdu_id 0 at byte 27. -/
theorem C20_wire_format_pdu_id_not_read :
    wire_exchange .little 0 1 connected_session (wire_pdu_frame 0x01 0x15 0 [] 64) =
      some (some (CTYPE_REJECTED, 0, [0]), some [0, 0, 1, 0, 0], (false, false, false), []) ∧
    wire_exchange .big 0 1 connected_session (wire_pdu_frame 0x01 0x15 0 [] 64) =
      some (some (CTYPE_REJECTED, 0, [0]), some [0, 0, 0, 1, 0], (false, false, false), []) ∧
    wire_exchange .big 0 1 connected_session (wire_pdu_frame 0x01 0x99 0 [] 64) =
      some (some (CTYPE_REJECTED, 0, [0]), some [0, 0, 0, 1, 0], (false, false, false), []) := by
  refine ⟨?_, ?_, ?_⟩ <;> rfl

end Avrcp
